import Mathlib

/-!
# Pipeline state objects of the D3D12 backend

A shallow embedding of `PipelineStateD3D12Impl.cpp`.

Objects that the C++ code reaches through pointers (pipeline states and shader
resource bindings) live in a `Heap` and are named by their addresses; a method
takes the address of `this`.  A method returns `none` when it would dereference
an address at which the heap holds no object (undefined behaviour in C++).

The two preprocessor switches of the file, `_DEBUG` and
`VERIFY_SHADER_BINDINGS`, are fields of `BuildConfig`.
-/

namespace Diligent

/-! ## Build configuration -/

/-- The preprocessor symbols tested by `PipelineStateD3D12Impl.cpp`. -/
structure BuildConfig where
  /-- `_DEBUG`: enables `VERIFY`, `VERIFY_EXPR` and the `#ifdef _DEBUG` block. -/
  DEBUG : Bool
  /-- `VERIFY_SHADER_BINDINGS`. -/
  VERIFY_SHADER_BINDINGS : Bool
  deriving DecidableEq, Repr

/-! ## Resource declarations -/

/-- `SHADER_VARIABLE_TYPE_STATIC`, `_MUTABLE`, `_DYNAMIC`. -/
inductive SHADER_VARIABLE_TYPE where
  | STATIC
  | MUTABLE
  | DYNAMIC
  deriving DecidableEq, Repr

/-- `SHADER_TYPE_*` values used by the file. -/
inductive SHADER_TYPE where
  | UNKNOWN
  | VERTEX
  | PIXEL
  | GEOMETRY
  | HULL
  | DOMAIN
  | COMPUTE
  deriving DecidableEq, Repr

/-- Modelled from the spec: the resource kinds of a declared slot,
`kind ∈ {ConstantBuffer, ShaderResource, UnorderedAccess, Sampler}`
(the reflection types are not among the given sources). -/
inductive ResourceKind where
  | ConstantBuffer
  | ShaderResource
  | UnorderedAccess
  | Sampler
  deriving DecidableEq, Repr

/-- Modelled from the spec: the part of a slot that decides compatibility,
`(kind, visibility, variableType, arraySize)`. -/
structure LayoutTuple where
  kind : ResourceKind
  visibility : Nat
  variableType : SHADER_VARIABLE_TYPE
  arraySize : Nat
  deriving DecidableEq, Repr

/-- Modelled from the spec: one declared resource slot of a shader stage,
`{name, kind, visibility, variableType, arraySize}` (reflection data,
`ShaderResourcesD3D12` is not among the given sources). -/
structure ResourceSlot where
  name : String
  kind : ResourceKind
  visibility : Nat
  variableType : SHADER_VARIABLE_TYPE
  arraySize : Nat
  deriving DecidableEq, Repr

/-- The compatibility tuple of a slot: the slot without its name. -/
def ResourceSlot.tuple (r : ResourceSlot) : LayoutTuple :=
  { kind := r.kind, visibility := r.visibility,
    variableType := r.variableType, arraySize := r.arraySize }

/-- Modelled from the spec: a statically bound sampler declared in reflection,
keyed by `(visibility, name)`. -/
structure StaticSamplerDecl where
  visibility : Nat
  name : String
  deriving DecidableEq, Repr

/-- The data of a `ShaderD3D12Impl` that the pipeline state reads: its
`GetDesc().ShaderType`, its `GetShaderResources()` and its byte code
(`GetBufferPointer()`, `GetBufferSize()`). -/
structure ShaderD3D12Impl where
  ShaderType : SHADER_TYPE
  resources : List ResourceSlot
  staticSamplers : List StaticSamplerDecl
  byteCodePointer : Nat
  byteCodeLength : Nat
  deriving DecidableEq, Repr

/-- Modelled from the spec: `ShaderResourcesD3D12::IsCompatibleWith` is not
among the given sources; it is the deep per-resource comparison, two stages agree when their
ordered `(kind, visibility, variableType, arraySize)` sequences are equal. -/
def ShaderResourcesD3D12.IsCompatibleWith (res0 res1 : List ResourceSlot) : Bool :=
  res0.map ResourceSlot.tuple == res1.map ResourceSlot.tuple

/-! ## Root signature (the binding layout) -/

/-- Modelled from the spec: class `RootSignature` is not among the given sources.  The
binding layout records the static samplers (deduplicated by
`(visibility, name)`), the ordered `(kind, visibility, variableType,
arraySize)` sequence it was built from, whether it was finalized, and the
native root-signature handle created by `Finalize`. -/
structure RootSignature where
  staticSamplers : List StaticSamplerDecl
  tuples : List LayoutTuple
  finalized : Bool
  d3d12RootSignature : Nat
  deriving DecidableEq, Repr

/-- The empty root signature a pipeline state starts with. -/
def RootSignature.empty : RootSignature :=
  { staticSamplers := [], tuples := [], finalized := false, d3d12RootSignature := 0 }

/-- Modelled from the spec: `RootSignature::IsSameAs` is not among the given sources; two
binding layouts are compatible iff built from an identical ordered sequence of
`(kind, visibility, variableType, arraySize)` tuples. -/
def RootSignature.IsSameAs (a b : RootSignature) : Bool :=
  a.tuples == b.tuples

/-- Modelled from the spec: `RootSignature::GetHash` is not among the given sources; the
compatibility hash is a 64-bit hash over the `(kind, visibility,
variableType, arraySize)` sequence.  The hash function itself is a
parameter. -/
def RootSignature.GetHash (hashFn : List LayoutTuple → Nat) (rs : RootSignature) : Nat :=
  hashFn rs.tuples % 2 ^ 64

/-- True for the kinds that occupy a CBV/SRV/UAV descriptor slot. -/
def ResourceKind.isSrvCbvUav : ResourceKind → Bool
  | .ConstantBuffer => true
  | .ShaderResource => true
  | .UnorderedAccess => true
  | .Sampler => false

/-- Modelled from the spec: `RootSignature::GetTotalSrvCbvUavSlots` is not
among the given sources; going by its name, the number of constant-buffer,
shader-resource and unordered-access slots of the given variable type (array
elements counted).  Sampler slots are not counted. -/
def RootSignature.GetTotalSrvCbvUavSlots (rs : RootSignature) (t : SHADER_VARIABLE_TYPE) : Nat :=
  ((rs.tuples.filter (fun x => x.kind.isSrvCbvUav && decide (x.variableType = t))).map
    (fun x => x.arraySize)).sum

/-! ## Pipeline description -/

/-- The `ComputePipeline` member of `PipelineStateDesc`. -/
structure ComputePipelineDesc where
  pCS : Option ShaderD3D12Impl
  deriving DecidableEq, Repr

/-- The members of `GraphicsPipeline` read by the constructor.  The blend,
rasterizer and depth-stencil descriptions and the texture formats are kept as
plain numbers; their conversion routines are not among the given sources. -/
structure GraphicsPipelineDesc where
  pVS : Option ShaderD3D12Impl
  pPS : Option ShaderD3D12Impl
  pDS : Option ShaderD3D12Impl
  pHS : Option ShaderD3D12Impl
  pGS : Option ShaderD3D12Impl
  BlendDesc : Nat
  SampleMask : Nat
  RasterizerDesc : Nat
  DepthStencilDesc : Nat
  NumLayoutElements : Nat
  PrimitiveTopology : Nat
  NumRenderTargets : Nat
  RTVFormats : List Nat
  DSVFormat : Nat
  SmplDescCount : Nat
  SmplDescQuality : Nat
  deriving DecidableEq, Repr

/-- The pipeline description `PipelineStateDesc`. -/
structure PipelineStateDesc where
  Name : String
  IsComputePipeline : Bool
  SRBAllocationGranularity : Nat
  ComputePipeline : ComputePipelineDesc
  GraphicsPipeline : GraphicsPipelineDesc
  deriving DecidableEq, Repr

/-! ## Resource cache, shader resource binding, pipeline state, heap -/

/-- Modelled from the spec: class `ShaderResourceCacheD3D12` is not among
the given sources.  The cache records from which pipeline state its static region was
populated (if it was), the resources with a pending resource-state transition,
and the descriptor locations of the bound resources. -/
structure ShaderResourceCacheD3D12 where
  staticsCopiedFrom : Option Nat
  pendingTransitions : List Nat
  descriptorHandles : List Nat
  deriving DecidableEq, Repr

/-- Modelled from the spec: class `ShaderResourceBindingD3D12Impl` is not
among the given sources.  An SRB owns one resource cache, holds a non-owning back-reference
to its pipeline state and carries a one-shot "statics initialized" flag. -/
structure ShaderResourceBindingD3D12Impl where
  /-- `GetPipelineState()`: address of the owning pipeline state. -/
  m_pPSO : Nat
  /-- `StaticResourcesInitialized()`. -/
  m_bStaticResourcesInitialized : Bool
  /-- `GetResourceCache()`. -/
  m_ShaderResourceCache : ShaderResourceCacheD3D12
  deriving DecidableEq, Repr

/-- The arguments of the one call `m_SRBMemAllocator.Initialize(...)`. -/
structure SRBMemoryAllocatorInit where
  SRBAllocationGranularity : Nat
  ShaderVariableDataAllocatorCount : Nat
  ShaderVariableDataSizes : List Nat
  ResourceCacheDataAllocatorCount : Nat
  ResourceCacheDataSizes : List Nat
  deriving DecidableEq, Repr

/-- The members of a constructed `PipelineStateD3D12Impl`. -/
structure PipelineStateD3D12Impl where
  m_Desc : PipelineStateDesc
  /-- `GetShaders()`; `m_NumShaders` is the length. -/
  m_ppShaders : List ShaderD3D12Impl
  /-- One parsed layout per shader stage. -/
  m_pShaderResourceLayouts : List (List ResourceSlot)
  m_RootSig : RootSignature
  m_pd3d12PSO : Nat
  /-- `none` while `m_SRBMemAllocator` was never initialized. -/
  m_SRBMemAllocator : Option SRBMemoryAllocatorInit
  /-- Address of the default SRB. -/
  m_pDefaultShaderResBinding : Nat
  m_ShaderResourceLayoutHash : Nat
  deriving DecidableEq, Repr

/-- `m_NumShaders`. -/
def PipelineStateD3D12Impl.m_NumShaders (p : PipelineStateD3D12Impl) : Nat :=
  p.m_ppShaders.length

/-- The objects reachable through pointers, by address. -/
structure Heap where
  psos : Nat → Option PipelineStateD3D12Impl
  srbs : Nat → Option ShaderResourceBindingD3D12Impl

/-- The heap with SRB `srb` stored at address `a`. -/
def Heap.setSRB (h : Heap) (a : Nat) (srb : ShaderResourceBindingD3D12Impl) : Heap :=
  { h with srbs := fun x => if x = a then some srb else h.srbs x }

/-- The heap with pipeline state `pso` stored at address `a`. -/
def Heap.setPSO (h : Heap) (a : Nat) (pso : PipelineStateD3D12Impl) : Heap :=
  { h with psos := fun x => if x = a then some pso else h.psos x }

/-- The heap without objects. -/
def Heap.empty : Heap :=
  { psos := fun _ => none, srbs := fun _ => none }

/-! ## Command context and diagnostics -/

/-- A command recorded on a `CommandContext`. -/
inductive Command where
  /-- `Ctx.AsComputeContext().SetRootSignature(sig)`. -/
  | SetComputeRootSignature (sig : Nat)
  /-- `Ctx.AsGraphicsContext().SetRootSignature(sig)`. -/
  | SetGraphicsRootSignature (sig : Nat)
  /-- A resource-state transition of one resource. -/
  | TransitionResource (resource : Nat)
  /-- The descriptor handles of a cache committed to the command stream. -/
  | CommitDescriptorHandles (IsCompute : Bool) (handles : List Nat)
  deriving DecidableEq, Repr

/-- The command stream of one `CommandContext`, oldest command first. -/
structure CommandContext where
  commands : List Command
  deriving DecidableEq, Repr

/-- A resource-state transition command. -/
def Command.isTransition : Command → Bool
  | .TransitionResource _ => true
  | _ => false

/-- A binding command: setting a root signature or committing descriptor
handles. -/
def Command.isBinding : Command → Bool
  | .SetComputeRootSignature _ => true
  | .SetGraphicsRootSignature _ => true
  | .CommitDescriptorHandles _ _ => true
  | .TransitionResource _ => false

/-- Setting the root signature, on either kind of context. -/
def Command.isSetRootSignature : Command → Bool
  | .SetComputeRootSignature _ => true
  | .SetGraphicsRootSignature _ => true
  | _ => false

/-- Committing descriptor handles. -/
def Command.isCommit : Command → Bool
  | .CommitDescriptorHandles _ _ => true
  | _ => false

/-- The messages the file reports. -/
inductive Message where
  /-- "Pipeline state ... contains mutable/dynamic shader variables and
  requires shader resource binding to commit all resources, but none is
  provided." -/
  | NoSRBForMutableOrDynamic
  /-- "Shader resource binding is incompatible with the pipeline state ...
  Operation will be ignored." -/
  | IncompatibleSRB
  /-- "Resources should be transitioned or committed or both". -/
  | TransitionedOrCommittedOrBoth
  /-- "Compatible shaders must have same root signatures". -/
  | CompatibleShadersSameRootSignatures
  deriving DecidableEq, Repr

/-- What a call does besides recording commands: log lines, failed debug
assertions, and the calls made on a shader resource binding. -/
inductive Event where
  /-- `LOG_ERROR_MESSAGE`. -/
  | LogError (msg : Message)
  /-- A `VERIFY` whose condition was false in a `_DEBUG` build.  The macro is
  not among the given sources: the failure is reported and the function goes on, as it does
  in a build without `_DEBUG`, where `VERIFY` expands to nothing. -/
  | AssertionFailed (msg : Message)
  /-- `pSRB->InitializeStaticResources(pPSO)`. -/
  | InitializeStaticResources (srb : Nat) (pso : Nat)
  /-- `pSRB->dbgVerifyResourceBindings(pPSO)`. -/
  | dbgVerifyResourceBindings (srb : Nat) (pso : Nat)
  deriving DecidableEq, Repr

/-- Modelled from the spec: `RootSignature::TransitionResources` is not among
the given sources; it records the pending resource-state transitions of the cache on the
context, after which none is pending. -/
def RootSignature.TransitionResources (_rs : RootSignature)
    (ResourceCache : ShaderResourceCacheD3D12) (Ctx : CommandContext) :
    ShaderResourceCacheD3D12 × CommandContext :=
  ({ ResourceCache with pendingTransitions := [] },
   { commands := Ctx.commands ++ ResourceCache.pendingTransitions.map Command.TransitionResource })

/-- Modelled from the spec: the member-function target
`RootSignature::CommitDescriptorHandles` is not among the given sources; it commits the
descriptor/binding data of the cache to the command stream. -/
def RootSignature.CommitDescriptorHandles (_rs : RootSignature)
    (ResourceCache : ShaderResourceCacheD3D12) (Ctx : CommandContext) (IsCompute : Bool) :
    ShaderResourceCacheD3D12 × CommandContext :=
  (ResourceCache,
   { commands := Ctx.commands ++ [Command.CommitDescriptorHandles IsCompute ResourceCache.descriptorHandles] })

/-- Modelled from the spec: the member-function target
`RootSignature::TransitionAndCommitDescriptorHandles` is not among the given sources; the
pending resource-state transitions are recorded first, then the descriptor
handles are committed. -/
def RootSignature.TransitionAndCommitDescriptorHandles (rs : RootSignature)
    (ResourceCache : ShaderResourceCacheD3D12) (Ctx : CommandContext) (IsCompute : Bool) :
    ShaderResourceCacheD3D12 × CommandContext :=
  let r := rs.TransitionResources ResourceCache Ctx
  rs.CommitDescriptorHandles r.1 r.2 IsCompute

/-- Modelled from the spec: `ShaderResourceBindingD3D12Impl::
InitializeStaticResources` is not among the given sources; it copies the static resources
of the given pipeline state into the cache and sets the one-shot flag. -/
def ShaderResourceBindingD3D12Impl.InitializeStaticResources
    (srb : ShaderResourceBindingD3D12Impl) (pPSO : Nat) : ShaderResourceBindingD3D12Impl :=
  { srb with
    m_bStaticResourcesInitialized := true
    m_ShaderResourceCache := { srb.m_ShaderResourceCache with staticsCopiedFrom := some pPSO } }

/-! ## `IsCompatibleWith` -/

/-- The `#ifdef _DEBUG` loop of `IsCompatibleWith`: the shader counts agree
and, stage by stage, the shader types agree and the resources are compatible. -/
def PipelineStateD3D12Impl.IsCompatibleShaders (self other : PipelineStateD3D12Impl) : Bool :=
  if self.m_NumShaders != other.m_NumShaders then false
  else (List.zip self.m_ppShaders other.m_ppShaders).all (fun p =>
    decide (p.1.ShaderType = p.2.ShaderType) &&
    ShaderResourcesD3D12.IsCompatibleWith p.1.resources p.2.resources)

/-- The result of `IsCompatibleWith` with the debug assertions it raised. -/
structure CompatResult where
  result : Bool
  events : List Event
  deriving DecidableEq, Repr

/-- `PipelineStateD3D12Impl::IsCompatibleWith(pPSO)` called on the object at
address `this`.  `pPSO` is a non-null address (`VERIFY_EXPR(pPSO != nullptr)`). -/
def PipelineStateD3D12Impl.IsCompatibleWith (cfg : BuildConfig) (heap : Heap)
    (this pPSO : Nat) : Option CompatResult :=
  if pPSO = this then
    some { result := true, events := [] }
  else
    match heap.psos this, heap.psos pPSO with
    | some self, some pPSOD3D12 =>
      if self.m_ShaderResourceLayoutHash ≠ pPSOD3D12.m_ShaderResourceLayoutHash then
        some { result := false, events := [] }
      else
        let IsSameRootSignature := self.m_RootSig.IsSameAs pPSOD3D12.m_RootSig
        let events :=
          if cfg.DEBUG && self.IsCompatibleShaders pPSOD3D12 && !IsSameRootSignature then
            [Event.AssertionFailed Message.CompatibleShadersSameRootSignatures]
          else []
        some { result := IsSameRootSignature, events := events }
    | _, _ => none

/-- Modelled from the spec: `IsIncompatibleWith` belongs to the base class
`PipelineStateBase`, which is not among the given sources; an SRB is incompatible with a
pipeline state when its owning pipeline state is not compatible with it, the
negation of `IsCompatibleWith`. -/
def PipelineStateD3D12Impl.IsIncompatibleWith (cfg : BuildConfig) (heap : Heap)
    (this pPSO : Nat) : Option CompatResult :=
  (PipelineStateD3D12Impl.IsCompatibleWith cfg heap this pPSO).map
    (fun r => { r with result := !r.result })

/-! ## `CommitAndTransitionShaderResources` -/

/-- What one call of `CommitAndTransitionShaderResources` leaves behind. -/
structure CommitOutcome where
  /-- The returned `ShaderResourceCacheD3D12*`: `some a` is the address of the
  cache of the SRB at address `a`, `none` is `nullptr`. -/
  ret : Option Nat
  heap : Heap
  Ctx : CommandContext
  events : List Event

/-- The tail of `CommitAndTransitionShaderResources`, from
`if(CommitResources)` on: the commands recorded for the cache `ResourceCache`
of the resolved SRB, and the assertion of the `else` branch. -/
def PipelineStateD3D12Impl.recordCommands (self : PipelineStateD3D12Impl) (cfg : BuildConfig)
    (ResourceCache : ShaderResourceCacheD3D12) (Ctx : CommandContext)
    (CommitResources TransitionResources : Bool) :
    (ShaderResourceCacheD3D12 × CommandContext) × List Event :=
  if CommitResources then
    let Ctx1 : CommandContext :=
      if self.m_Desc.IsComputePipeline then
        { commands := Ctx.commands ++
            [Command.SetComputeRootSignature self.m_RootSig.d3d12RootSignature] }
      else
        { commands := Ctx.commands ++
            [Command.SetGraphicsRootSignature self.m_RootSig.d3d12RootSignature] }
    if TransitionResources then
      (self.m_RootSig.TransitionAndCommitDescriptorHandles ResourceCache Ctx1
        self.m_Desc.IsComputePipeline, [])
    else
      (self.m_RootSig.CommitDescriptorHandles ResourceCache Ctx1
        self.m_Desc.IsComputePipeline, [])
  else
    (self.m_RootSig.TransitionResources ResourceCache Ctx,
     if cfg.DEBUG && !TransitionResources then
       [Event.AssertionFailed Message.TransitionedOrCommittedOrBoth]
     else [])

/-- The second half of `CommitAndTransitionShaderResources`, from "First time
only, copy static shader resources to the cache" to the `return`, for the
resolved SRB `srb0` found at address `pResBindingD3D12Impl`. -/
def PipelineStateD3D12Impl.commitResolved (self : PipelineStateD3D12Impl) (cfg : BuildConfig)
    (heap : Heap) (this : Nat) (pResBindingD3D12Impl : Nat)
    (srb0 : ShaderResourceBindingD3D12Impl) (Ctx : CommandContext)
    (CommitResources TransitionResources : Bool) : CommitOutcome :=
  let init : Bool := !srb0.m_bStaticResourcesInitialized
  let srb1 := if init then srb0.InitializeStaticResources this else srb0
  let ev1 : List Event :=
    if init then [Event.InitializeStaticResources pResBindingD3D12Impl this] else []
  let ev2 : List Event :=
    if cfg.VERIFY_SHADER_BINDINGS then
      [Event.dbgVerifyResourceBindings pResBindingD3D12Impl this]
    else []
  let done := self.recordCommands cfg srb1.m_ShaderResourceCache Ctx
    CommitResources TransitionResources
  { ret := some pResBindingD3D12Impl,
    heap := heap.setSRB pResBindingD3D12Impl { srb1 with m_ShaderResourceCache := done.1.1 },
    Ctx := done.1.2,
    events := ev1 ++ ev2 ++ done.2 }

/-- The SRB a call works on: the one passed in, or the default SRB of the
pipeline state when `pShaderResourceBinding` is null. -/
def PipelineStateD3D12Impl.resolveSRB (self : PipelineStateD3D12Impl)
    (pShaderResourceBinding : Option Nat) : Nat :=
  match pShaderResourceBinding with
  | some p => p
  | none => self.m_pDefaultShaderResBinding

/-- The first `#ifdef VERIFY_SHADER_BINDINGS` block: the error logged for a
null SRB on a pipeline state with mutable or dynamic slots. -/
def PipelineStateD3D12Impl.verifyNullSRB (self : PipelineStateD3D12Impl) (cfg : BuildConfig)
    (pShaderResourceBinding : Option Nat) : List Event :=
  if cfg.VERIFY_SHADER_BINDINGS && pShaderResourceBinding.isNone &&
      (self.m_RootSig.GetTotalSrvCbvUavSlots SHADER_VARIABLE_TYPE.MUTABLE != 0 ||
       self.m_RootSig.GetTotalSrvCbvUavSlots SHADER_VARIABLE_TYPE.DYNAMIC != 0) then
    [Event.LogError Message.NoSRBForMutableOrDynamic]
  else []

/-- The second `#ifdef VERIFY_SHADER_BINDINGS` block: `IsIncompatibleWith`
applied to the pipeline state of the SRB; without the symbol nothing is
checked. -/
def PipelineStateD3D12Impl.verifyCompatible (cfg : BuildConfig) (heap : Heap) (this : Nat)
    (srb0 : ShaderResourceBindingD3D12Impl) : Option CompatResult :=
  if cfg.VERIFY_SHADER_BINDINGS then
    PipelineStateD3D12Impl.IsIncompatibleWith cfg heap this srb0.m_pPSO
  else some { result := false, events := [] }

/-- `PipelineStateD3D12Impl::CommitAndTransitionShaderResources` called on the
object at address `this`; `pShaderResourceBinding = none` is `nullptr`. -/
def PipelineStateD3D12Impl.CommitAndTransitionShaderResources (cfg : BuildConfig)
    (heap : Heap) (this : Nat) (pShaderResourceBinding : Option Nat)
    (Ctx : CommandContext) (CommitResources TransitionResources : Bool) :
    Option CommitOutcome :=
  match heap.psos this with
  | none => none
  | some self =>
    let ev0 := self.verifyNullSRB cfg pShaderResourceBinding
    let pResBindingD3D12Impl := self.resolveSRB pShaderResourceBinding
    match heap.srbs pResBindingD3D12Impl with
    | none => none
    | some srb0 =>
      match PipelineStateD3D12Impl.verifyCompatible cfg heap this srb0 with
      | none => none
      | some c =>
        if c.result then
          some { ret := none, heap := heap, Ctx := Ctx,
                 events := ev0 ++ c.events ++ [Event.LogError Message.IncompatibleSRB] }
        else
          let r := self.commitResolved cfg heap this pResBindingD3D12Impl srb0 Ctx
            CommitResources TransitionResources
          some { r with events := ev0 ++ c.events ++ r.events }

/-! ## Primitive topology table -/

/-- The values of the `PRIMITIVE_TOPOLOGY` enumerators the file names.  The
enumeration is declared in a header that is not among the given sources, so its numbering
is a parameter. -/
structure PRIMITIVE_TOPOLOGY where
  UNDEFINED : Nat
  TRIANGLE_LIST : Nat
  TRIANGLE_STRIP : Nat
  POINT_LIST : Nat
  LINE_LIST : Nat
  CONTROL_POINT_PATCHLIST_1 : Nat
  NUM_TOPOLOGIES : Nat
  deriving DecidableEq, Repr

/-- `D3D12_PRIMITIVE_TOPOLOGY_TYPE`. -/
inductive D3D12_PRIMITIVE_TOPOLOGY_TYPE where
  | UNDEFINED
  | POINT
  | LINE
  | TRIANGLE
  | PATCH
  deriving DecidableEq, Repr

/-- The constructor of `PrimitiveTopology_To_D3D12_PRIMITIVE_TOPOLOGY_TYPE`:
the table `m_Map` of `NUM_TOPOLOGIES` entries after the five assignments and
the loop.  An entry the constructor never assigns is `none`. -/
def PrimitiveTopology_To_D3D12_PRIMITIVE_TOPOLOGY_TYPE (e : PRIMITIVE_TOPOLOGY) :
    List (Option D3D12_PRIMITIVE_TOPOLOGY_TYPE) :=
  let m0 : List (Option D3D12_PRIMITIVE_TOPOLOGY_TYPE) := List.replicate e.NUM_TOPOLOGIES none
  let m1 := m0.set e.UNDEFINED (some D3D12_PRIMITIVE_TOPOLOGY_TYPE.UNDEFINED)
  let m2 := m1.set e.TRIANGLE_LIST (some D3D12_PRIMITIVE_TOPOLOGY_TYPE.TRIANGLE)
  let m3 := m2.set e.TRIANGLE_STRIP (some D3D12_PRIMITIVE_TOPOLOGY_TYPE.TRIANGLE)
  let m4 := m3.set e.POINT_LIST (some D3D12_PRIMITIVE_TOPOLOGY_TYPE.POINT)
  let m5 := m4.set e.LINE_LIST (some D3D12_PRIMITIVE_TOPOLOGY_TYPE.LINE)
  (List.range' e.CONTROL_POINT_PATCHLIST_1 (e.NUM_TOPOLOGIES - e.CONTROL_POINT_PATCHLIST_1)).foldl
    (fun m t => m.set t (some D3D12_PRIMITIVE_TOPOLOGY_TYPE.PATCH)) m5

/-- The table lookup `operator[]`.  An entry that was never assigned reads as
the zero value of the statically allocated table, `UNDEFINED`. -/
def PrimitiveTopology_To_D3D12_PRIMITIVE_TOPOLOGY_TYPE.get (e : PRIMITIVE_TOPOLOGY)
    (Topology : Nat) : D3D12_PRIMITIVE_TOPOLOGY_TYPE :=
  match (PrimitiveTopology_To_D3D12_PRIMITIVE_TOPOLOGY_TYPE e).getD Topology none with
  | some t => t
  | none => D3D12_PRIMITIVE_TOPOLOGY_TYPE.UNDEFINED

/-! ## Native pipeline descriptions and the device -/

/-- `D3D12_SHADER_BYTECODE`. -/
structure D3D12_SHADER_BYTECODE where
  pShaderBytecode : Nat
  BytecodeLength : Nat
  deriving DecidableEq, Repr

/-- `D3D12_COMPUTE_PIPELINE_STATE_DESC`. -/
structure D3D12_COMPUTE_PIPELINE_STATE_DESC where
  pRootSignature : Nat
  CS : D3D12_SHADER_BYTECODE
  NodeMask : Nat
  CachedBlobSizeInBytes : Nat
  Flags : Nat
  deriving DecidableEq, Repr

/-- `D3D12_GRAPHICS_PIPELINE_STATE_DESC`, the members the constructor writes. -/
structure D3D12_GRAPHICS_PIPELINE_STATE_DESC where
  pRootSignature : Nat
  VS : D3D12_SHADER_BYTECODE
  PS : D3D12_SHADER_BYTECODE
  GS : D3D12_SHADER_BYTECODE
  HS : D3D12_SHADER_BYTECODE
  DS : D3D12_SHADER_BYTECODE
  BlendState : Nat
  SampleMask : Nat
  RasterizerState : Nat
  DepthStencilState : Nat
  InputLayoutNumElements : Nat
  PrimitiveTopologyType : D3D12_PRIMITIVE_TOPOLOGY_TYPE
  NumRenderTargets : Nat
  RTVFormats : List Nat
  DSVFormat : Nat
  SampleDescCount : Nat
  SampleDescQuality : Nat
  NodeMask : Nat
  CachedBlobSizeInBytes : Nat
  Flags : Nat
  deriving DecidableEq, Repr

/-- The collaborators of the constructor that are not among the given sources: the native
device, the type conversions, the hash and the sizing routines, the addresses
handed out by the SRB allocator and the constants of absent headers. -/
structure RenderDeviceD3D12Impl where
  /-- The native root signature created by `RootSignature::Finalize`. -/
  CreateRootSignature : List StaticSamplerDecl → List LayoutTuple → Nat
  /-- `ID3D12Device::CreateComputePipelineState`: the `HRESULT` and the object. -/
  CreateComputePipelineState : D3D12_COMPUTE_PIPELINE_STATE_DESC → Int × Nat
  /-- `ID3D12Device::CreateGraphicsPipelineState`: the `HRESULT` and the object. -/
  CreateGraphicsPipelineState : D3D12_GRAPHICS_PIPELINE_STATE_DESC → Int × Nat
  /-- The hash function behind `RootSignature::GetHash`. -/
  hashFn : List LayoutTuple → Nat
  /-- `ShaderResourceLayoutD3D12::GetRequiredMemorySize`. -/
  GetRequiredMemorySize : List ResourceSlot → List SHADER_VARIABLE_TYPE → Nat
  /-- `RootSignature::GetResourceCacheRequiredMemSize`. -/
  GetResourceCacheRequiredMemSize : RootSignature → Nat
  /-- The address `GetSRBAllocator()` returns for the next SRB. -/
  SRBAllocatorNext : Nat
  MaxShadersInPipeline : Nat
  Topology : PRIMITIVE_TOPOLOGY
  BlendStateDesc_To_D3D12_BLEND_DESC : Nat → Nat
  RasterizerStateDesc_To_D3D12_RASTERIZER_DESC : Nat → Nat
  DepthStencilStateDesc_To_D3D12_DEPTH_STENCIL_DESC : Nat → Nat
  TexFormatToDXGI_Format : Nat → Nat

/-- `FAILED(hr)`. -/
def FAILED (hr : Int) : Bool := decide (hr < 0)

/-! ## Construction -/

/-- Modelled from the spec: the base class `PipelineStateBase` is not among
the given sources; `GetShaders()` is the contiguous array of the shader stages that are set,
the compute shader for a compute pipeline and the vertex, pixel, geometry,
domain and hull shaders otherwise. -/
def PipelineStateDesc.GetShaders (d : PipelineStateDesc) : List ShaderD3D12Impl :=
  if d.IsComputePipeline then
    [d.ComputePipeline.pCS].filterMap id
  else
    [d.GraphicsPipeline.pVS, d.GraphicsPipeline.pPS, d.GraphicsPipeline.pGS,
     d.GraphicsPipeline.pDS, d.GraphicsPipeline.pHS].filterMap id

/-- Modelled from the spec: `RootSignature::AllocateStaticSamplers` is not
among the given sources; it collects the static samplers of all stages and deduplicates them
by `(visibility, name)`. -/
def RootSignature.AllocateStaticSamplers (rs : RootSignature)
    (shaders : List ShaderD3D12Impl) : RootSignature :=
  { rs with staticSamplers := (shaders.map (fun sh => sh.staticSamplers)).flatten.dedup }

/-- Modelled from the spec: `ShaderResourceLayoutD3D12::Initialize` is not
among the given sources; the layout of a stage is its ordered sequence of declared slots, and
every slot is merged, in order, into the binding layout. -/
def ShaderResourceLayoutD3D12.Initialize (resources : List ResourceSlot)
    (rs : RootSignature) : List ResourceSlot × RootSignature :=
  (resources, { rs with tuples := rs.tuples ++ resources.map ResourceSlot.tuple })

/-- Modelled from the spec: `RootSignature::Finalize` is not among the given sources; it
creates the native root signature, after which the layout is immutable. -/
def RootSignature.Finalize (rs : RootSignature) (dev : RenderDeviceD3D12Impl) : RootSignature :=
  { rs with finalized := true,
            d3d12RootSignature := dev.CreateRootSignature rs.staticSamplers rs.tuples }

/-- The steps of the constructor that touch a collaborator, in the order they
are executed. -/
inductive ConstructionStep where
  | AllocateStaticSamplers
  /-- `m_pShaderResourceLayouts[s].Initialize(...)`. -/
  | InitializeShaderResourceLayout (s : Nat)
  | FinalizeRootSignature
  | CreateComputePipelineState
  | CreateGraphicsPipelineState
  | SetName
  /-- `ShaderResourceLayoutD3D12::GetRequiredMemorySize(m_pShaderResourceLayouts[s], ...)`. -/
  | GetRequiredMemorySize (s : Nat)
  | GetResourceCacheRequiredMemSize
  | InitializeSRBMemAllocator (args : SRBMemoryAllocatorInit)
  /-- `NEW_RC_OBJ(SRBAllocator, ..., ShaderResourceBindingD3D12Impl, this)(this, true)`. -/
  | AllocateDefaultSRB (addr : Nat)
  | GetHash
  deriving DecidableEq, Repr

/-- How the constructor ends. -/
inductive ConstructionStatus where
  /-- The constructor ran to its end. -/
  | built
  /-- `LOG_ERROR_AND_THROW("Compute shader is not set in the pipeline desc")`. -/
  | ComputeShaderNotSet
  /-- `LOG_ERROR_AND_THROW("Failed to create pipeline state")`. -/
  | FailedToCreatePipelineState
  /-- The `default:` branch of the shader-type switch: `UNEXPECTED` and the
  write through the null `pd3d12ShaderBytecode`. -/
  | UnexpectedShaderType
  deriving DecidableEq, Repr

/-- The outcome of a construction: the heap holds the new pipeline state only
when the status is `built`. -/
structure Construction where
  status : ConstructionStatus
  heap : Heap
  steps : List ConstructionStep

/-- The layout-parsing loop `for (s = 0; s < m_NumShaders; ++s)`, from stage
`s` on: the parsed layouts and the root signature after the loop. -/
def parseLayouts : List ShaderD3D12Impl → RootSignature → List (List ResourceSlot) × RootSignature
  | [], rs => ([], rs)
  | sh :: rest, rs =>
    let r := ShaderResourceLayoutD3D12.Initialize sh.resources rs
    let t := parseLayouts rest r.2
    (r.1 :: t.1, t.2)

/-- The loop of the graphics branch that stores the byte code of every shader
in the member selected by its type; `none` is the `default:` branch. -/
def setShaderBytecodes : List ShaderD3D12Impl → D3D12_GRAPHICS_PIPELINE_STATE_DESC →
    Option D3D12_GRAPHICS_PIPELINE_STATE_DESC
  | [], d => some d
  | sh :: rest, d =>
    let bc : D3D12_SHADER_BYTECODE :=
      { pShaderBytecode := sh.byteCodePointer, BytecodeLength := sh.byteCodeLength }
    match sh.ShaderType with
    | SHADER_TYPE.VERTEX => setShaderBytecodes rest { d with VS := bc }
    | SHADER_TYPE.PIXEL => setShaderBytecodes rest { d with PS := bc }
    | SHADER_TYPE.GEOMETRY => setShaderBytecodes rest { d with GS := bc }
    | SHADER_TYPE.HULL => setShaderBytecodes rest { d with HS := bc }
    | SHADER_TYPE.DOMAIN => setShaderBytecodes rest { d with DS := bc }
    | _ => none

/-- The zero-initialized `D3D12_GRAPHICS_PIPELINE_STATE_DESC d3d12PSODesc = {}`. -/
def D3D12_GRAPHICS_PIPELINE_STATE_DESC.zero : D3D12_GRAPHICS_PIPELINE_STATE_DESC :=
  { pRootSignature := 0, VS := ⟨0, 0⟩, PS := ⟨0, 0⟩, GS := ⟨0, 0⟩, HS := ⟨0, 0⟩, DS := ⟨0, 0⟩,
    BlendState := 0, SampleMask := 0, RasterizerState := 0, DepthStencilState := 0,
    InputLayoutNumElements := 0,
    PrimitiveTopologyType := D3D12_PRIMITIVE_TOPOLOGY_TYPE.UNDEFINED,
    NumRenderTargets := 0, RTVFormats := List.replicate 8 0, DSVFormat := 0,
    SampleDescCount := 0, SampleDescQuality := 0, NodeMask := 0,
    CachedBlobSizeInBytes := 0, Flags := 0 }

/-- The rest of the graphics description, written after the shader loop. -/
def fillGraphicsDesc (dev : RenderDeviceD3D12Impl) (rs : RootSignature)
    (g : GraphicsPipelineDesc) (d : D3D12_GRAPHICS_PIPELINE_STATE_DESC) :
    D3D12_GRAPHICS_PIPELINE_STATE_DESC :=
  { d with
    pRootSignature := rs.d3d12RootSignature
    BlendState := dev.BlendStateDesc_To_D3D12_BLEND_DESC g.BlendDesc
    SampleMask := g.SampleMask
    RasterizerState := dev.RasterizerStateDesc_To_D3D12_RASTERIZER_DESC g.RasterizerDesc
    DepthStencilState := dev.DepthStencilStateDesc_To_D3D12_DEPTH_STENCIL_DESC g.DepthStencilDesc
    InputLayoutNumElements := g.NumLayoutElements
    PrimitiveTopologyType :=
      PrimitiveTopology_To_D3D12_PRIMITIVE_TOPOLOGY_TYPE.get dev.Topology g.PrimitiveTopology
    NumRenderTargets := g.NumRenderTargets
    RTVFormats :=
      (List.range g.NumRenderTargets ++ List.range' g.NumRenderTargets (8 - g.NumRenderTargets)).map
        (fun rt => dev.TexFormatToDXGI_Format (g.RTVFormats.getD rt 0))
    DSVFormat := dev.TexFormatToDXGI_Format g.DSVFormat
    SampleDescCount := g.SmplDescCount
    SampleDescQuality := g.SmplDescQuality
    NodeMask := 0
    CachedBlobSizeInBytes := 0
    Flags := 0 }

/-- The block guarded by `SRBAllocationGranularity > 1`: the sizes handed to
`m_SRBMemAllocator.Initialize` and the steps that compute them. -/
def presizeSRBMemAllocator (dev : RenderDeviceD3D12Impl) (desc : PipelineStateDesc)
    (layouts : List (List ResourceSlot)) (rs : RootSignature) :
    Option SRBMemoryAllocatorInit × List ConstructionStep :=
  if desc.SRBAllocationGranularity > 1 then
    let sizes : List Nat := layouts.map (fun l => dev.GetRequiredMemorySize l
      [SHADER_VARIABLE_TYPE.STATIC, SHADER_VARIABLE_TYPE.MUTABLE, SHADER_VARIABLE_TYPE.DYNAMIC])
    let ShaderResLayoutDataSizes : List Nat :=
      sizes ++ List.replicate (dev.MaxShadersInPipeline - layouts.length) 0
    let CacheMemorySize := dev.GetResourceCacheRequiredMemSize rs
    let args : SRBMemoryAllocatorInit :=
      { SRBAllocationGranularity := desc.SRBAllocationGranularity
        ShaderVariableDataAllocatorCount := layouts.length
        ShaderVariableDataSizes := ShaderResLayoutDataSizes
        ResourceCacheDataAllocatorCount := 1
        ResourceCacheDataSizes := [CacheMemorySize] }
    (some args,
     (List.range layouts.length).map ConstructionStep.GetRequiredMemorySize ++
       [ConstructionStep.GetResourceCacheRequiredMemSize,
        ConstructionStep.InitializeSRBMemAllocator args])
  else (none, [])

/-- Modelled from the spec: the constructor of
`ShaderResourceBindingD3D12Impl` is not among the given sources; a new SRB is bound to its
pipeline state, its statics are not yet initialized and its cache is empty. -/
def ShaderResourceBindingD3D12Impl.new (pPSO : Nat) : ShaderResourceBindingD3D12Impl :=
  { m_pPSO := pPSO, m_bStaticResourcesInitialized := false,
    m_ShaderResourceCache :=
      { staticsCopiedFrom := none, pendingTransitions := [], descriptorHandles := [] } }

/-- The tail of the constructor, reached once the native pipeline object
`pd3d12PSO` exists: naming, presizing of the SRB memory allocator, allocation
of the default SRB and publication of the hash. -/
def finishConstruction (dev : RenderDeviceD3D12Impl) (heap : Heap) (this : Nat)
    (desc : PipelineStateDesc) (shaders : List ShaderD3D12Impl)
    (layouts : List (List ResourceSlot)) (rs : RootSignature) (pd3d12PSO : Nat)
    (steps : List ConstructionStep) : Construction :=
  let nameSteps : List ConstructionStep :=
    if desc.Name ≠ "" then [ConstructionStep.SetName] else []
  let pre := presizeSRBMemAllocator dev desc layouts rs
  let srbAddr := dev.SRBAllocatorNext
  let pso : PipelineStateD3D12Impl :=
    { m_Desc := desc, m_ppShaders := shaders, m_pShaderResourceLayouts := layouts,
      m_RootSig := rs, m_pd3d12PSO := pd3d12PSO, m_SRBMemAllocator := pre.1,
      m_pDefaultShaderResBinding := srbAddr,
      m_ShaderResourceLayoutHash := rs.GetHash dev.hashFn }
  { status := ConstructionStatus.built,
    heap := (heap.setSRB srbAddr (ShaderResourceBindingD3D12Impl.new this)).setPSO this pso,
    steps := steps ++ nameSteps ++ pre.2 ++
      [ConstructionStep.AllocateDefaultSRB srbAddr, ConstructionStep.GetHash] }

/-- The constructor `PipelineStateD3D12Impl::PipelineStateD3D12Impl`, building
the object at address `this`. -/
def PipelineStateD3D12Impl.construct (dev : RenderDeviceD3D12Impl) (heap : Heap) (this : Nat)
    (PipelineDesc : PipelineStateDesc) : Construction :=
  let shaders := PipelineDesc.GetShaders
  let rs0 := RootSignature.empty.AllocateStaticSamplers shaders
  let parsed := parseLayouts shaders rs0
  let rs := parsed.2.Finalize dev
  let steps0 : List ConstructionStep :=
    [ConstructionStep.AllocateStaticSamplers] ++
    (List.range shaders.length).map ConstructionStep.InitializeShaderResourceLayout ++
    [ConstructionStep.FinalizeRootSignature]
  if PipelineDesc.IsComputePipeline then
    match PipelineDesc.ComputePipeline.pCS with
    | none =>
      { status := ConstructionStatus.ComputeShaderNotSet, heap := heap, steps := steps0 }
    | some cs =>
      let d3d12PSODesc : D3D12_COMPUTE_PIPELINE_STATE_DESC :=
        { pRootSignature := rs.d3d12RootSignature
          CS := { pShaderBytecode := cs.byteCodePointer, BytecodeLength := cs.byteCodeLength }
          NodeMask := 0, CachedBlobSizeInBytes := 0, Flags := 0 }
      let r := dev.CreateComputePipelineState d3d12PSODesc
      if FAILED r.1 then
        { status := ConstructionStatus.FailedToCreatePipelineState, heap := heap,
          steps := steps0 ++ [ConstructionStep.CreateComputePipelineState] }
      else
        finishConstruction dev heap this PipelineDesc shaders parsed.1 rs r.2
          (steps0 ++ [ConstructionStep.CreateComputePipelineState])
  else
    match setShaderBytecodes shaders D3D12_GRAPHICS_PIPELINE_STATE_DESC.zero with
    | none =>
      { status := ConstructionStatus.UnexpectedShaderType, heap := heap, steps := steps0 }
    | some d0 =>
      let d3d12PSODesc := fillGraphicsDesc dev rs PipelineDesc.GraphicsPipeline d0
      let r := dev.CreateGraphicsPipelineState d3d12PSODesc
      if FAILED r.1 then
        { status := ConstructionStatus.FailedToCreatePipelineState, heap := heap,
          steps := steps0 ++ [ConstructionStep.CreateGraphicsPipelineState] }
      else
        finishConstruction dev heap this PipelineDesc shaders parsed.1 rs r.2
          (steps0 ++ [ConstructionStep.CreateGraphicsPipelineState])

/-- `PipelineStateD3D12Impl::CreateShaderResourceBinding`: a new SRB bound to
the pipeline state at `this`, placed at the address the SRB allocator returns. -/
def PipelineStateD3D12Impl.CreateShaderResourceBinding (dev : RenderDeviceD3D12Impl)
    (heap : Heap) (this : Nat) : Nat × Heap :=
  (dev.SRBAllocatorNext, heap.setSRB dev.SRBAllocatorNext (ShaderResourceBindingD3D12Impl.new this))

/-! ## Built pipeline states -/

/-- What the constructor guarantees about the object it leaves at `this`: the
heap holds the pipeline state, and its default SRB exists and names `this` as
its owning pipeline state (`ShaderResourceBindingD3D12Impl(this, true)`). -/
def BuiltPSO (heap : Heap) (this : Nat) : Prop :=
  ∃ p d, heap.psos this = some p ∧ heap.srbs p.m_pDefaultShaderResBinding = some d ∧
    d.m_pPSO = this

/-- The pipeline state `pso` is one the constructor builds from `desc` on
device `dev`. -/
def BuiltFrom (dev : RenderDeviceD3D12Impl) (desc : PipelineStateDesc)
    (pso : PipelineStateD3D12Impl) : Prop :=
  ∃ heap0 this, (PipelineStateD3D12Impl.construct dev heap0 this desc).status =
      ConstructionStatus.built ∧
    (PipelineStateD3D12Impl.construct dev heap0 this desc).heap.psos this = some pso

/-- The ordered sequence of `(kind, visibility, variableType, arraySize)`
tuples a pipeline description declares: the slots of its shader stages, stage
after stage. -/
def PipelineStateDesc.declaredTuples (d : PipelineStateDesc) : List LayoutTuple :=
  (d.GetShaders.map (fun sh => sh.resources.map ResourceSlot.tuple)).flatten

/-! ## Example objects -/

/-- A hash that combines the codes of the tuples by addition. -/
def exHash (ts : List LayoutTuple) : Nat :=
  (ts.map (fun t =>
    1 + (match t.kind with
         | .ConstantBuffer => 0 | .ShaderResource => 1 | .UnorderedAccess => 2 | .Sampler => 3)
      + 4 * (match t.variableType with | .STATIC => 0 | .MUTABLE => 1 | .DYNAMIC => 2)
      + 16 * t.visibility + 1024 * t.arraySize)).sum

/-- An example device: every native creation succeeds. -/
def exDevice : RenderDeviceD3D12Impl :=
  { CreateRootSignature := fun _ ts => 500 + ts.length
    CreateComputePipelineState := fun _ => (0, 900)
    CreateGraphicsPipelineState := fun _ => (0, 901)
    hashFn := exHash
    GetRequiredMemorySize := fun l _ => 16 * l.length
    GetResourceCacheRequiredMemSize := fun rs => 32 * rs.tuples.length
    SRBAllocatorNext := 7
    MaxShadersInPipeline := 5
    Topology := { UNDEFINED := 0, TRIANGLE_LIST := 1, TRIANGLE_STRIP := 2, POINT_LIST := 3,
                  LINE_LIST := 4, CONTROL_POINT_PATCHLIST_1 := 5, NUM_TOPOLOGIES := 37 }
    BlendStateDesc_To_D3D12_BLEND_DESC := id
    RasterizerStateDesc_To_D3D12_RASTERIZER_DESC := id
    DepthStencilStateDesc_To_D3D12_DEPTH_STENCIL_DESC := id
    TexFormatToDXGI_Format := id }

/-- The same device handing out address 8 for the next SRB. -/
def exDevice8 : RenderDeviceD3D12Impl := { exDevice with SRBAllocatorNext := 8 }

/-- The same device handing out address 9 for the next SRB. -/
def exDevice9 : RenderDeviceD3D12Impl := { exDevice with SRBAllocatorNext := 9 }

/-- A static constant buffer. -/
def exCB : ResourceSlot :=
  { name := "cbTransform", kind := ResourceKind.ConstantBuffer, visibility := 1,
    variableType := SHADER_VARIABLE_TYPE.STATIC, arraySize := 1 }

/-- A mutable texture. -/
def exTex : ResourceSlot :=
  { name := "g_Texture", kind := ResourceKind.ShaderResource, visibility := 1,
    variableType := SHADER_VARIABLE_TYPE.MUTABLE, arraySize := 1 }

/-- A static texture. -/
def exTexStatic : ResourceSlot :=
  { name := "g_Noise", kind := ResourceKind.ShaderResource, visibility := 1,
    variableType := SHADER_VARIABLE_TYPE.STATIC, arraySize := 1 }

/-- A mutable constant buffer. -/
def exCBMutable : ResourceSlot :=
  { name := "cbMaterial", kind := ResourceKind.ConstantBuffer, visibility := 1,
    variableType := SHADER_VARIABLE_TYPE.MUTABLE, arraySize := 1 }

/-- An empty graphics pipeline description. -/
def exGraphics : GraphicsPipelineDesc :=
  { pVS := none, pPS := none, pDS := none, pHS := none, pGS := none, BlendDesc := 0,
    SampleMask := 0, RasterizerDesc := 0, DepthStencilDesc := 0, NumLayoutElements := 0,
    PrimitiveTopology := 1, NumRenderTargets := 1, RTVFormats := [10], DSVFormat := 20,
    SmplDescCount := 1, SmplDescQuality := 0 }

/-- A vertex shader declaring the given resources. -/
def exVS (res : List ResourceSlot) : ShaderD3D12Impl :=
  { ShaderType := SHADER_TYPE.VERTEX, resources := res, staticSamplers := [],
    byteCodePointer := 4096, byteCodeLength := 64 }

/-- A graphics pipeline description with one vertex shader. -/
def exDesc (res : List ResourceSlot) : PipelineStateDesc :=
  { Name := "", IsComputePipeline := false, SRBAllocationGranularity := 1,
    ComputePipeline := { pCS := none },
    GraphicsPipeline := { exGraphics with pVS := some (exVS res) } }

/-- A compute pipeline description with one compute shader. -/
def exComputeDesc (res : List ResourceSlot) : PipelineStateDesc :=
  { Name := "", IsComputePipeline := true, SRBAllocationGranularity := 1,
    ComputePipeline := { pCS := some { exVS res with ShaderType := SHADER_TYPE.COMPUTE } },
    GraphicsPipeline := exGraphics }

/-- The heap after building one pipeline state with static resources only at
address 100 (its default SRB is at address 7). -/
def exHeap1 : Heap :=
  (PipelineStateD3D12Impl.construct exDevice Heap.empty 100 (exDesc [exCB])).heap

/-- The heap `exHeap1` after building a second pipeline state at address 200
that declares a static constant buffer and a mutable texture (default SRB at
address 8), and a third one at address 300 that declares a static texture and
a mutable constant buffer (default SRB at address 9). -/
def exHeap3 : Heap :=
  (PipelineStateD3D12Impl.construct exDevice9
    (PipelineStateD3D12Impl.construct exDevice8 exHeap1 200 (exDesc [exCB, exTex])).heap
    300 (exDesc [exTexStatic, exCBMutable])).heap

/-- The pipeline state the constructor leaves at address 200 of `exHeap3`. -/
def exPSO200 : PipelineStateD3D12Impl :=
  { m_Desc := exDesc [exCB, exTex], m_ppShaders := [exVS [exCB, exTex]],
    m_pShaderResourceLayouts := [[exCB, exTex]],
    m_RootSig := { staticSamplers := [], tuples := [exCB.tuple, exTex.tuple],
                   finalized := true, d3d12RootSignature := 502 },
    m_pd3d12PSO := 901, m_SRBMemAllocator := none, m_pDefaultShaderResBinding := 8,
    m_ShaderResourceLayoutHash := 2087 }

/-- The pipeline state the constructor leaves at address 300 of `exHeap3`. -/
def exPSO300 : PipelineStateD3D12Impl :=
  { m_Desc := exDesc [exTexStatic, exCBMutable],
    m_ppShaders := [exVS [exTexStatic, exCBMutable]],
    m_pShaderResourceLayouts := [[exTexStatic, exCBMutable]],
    m_RootSig := { staticSamplers := [], tuples := [exTexStatic.tuple, exCBMutable.tuple],
                   finalized := true, d3d12RootSignature := 502 },
    m_pd3d12PSO := 901, m_SRBMemAllocator := none, m_pDefaultShaderResBinding := 9,
    m_ShaderResourceLayoutHash := 2087 }

/-- An SRB of the pipeline state at address 200 whose cache holds bound
resources: resource 41 awaits a state transition. -/
def exBoundSRB : ShaderResourceBindingD3D12Impl :=
  { m_pPSO := 200, m_bStaticResourcesInitialized := false,
    m_ShaderResourceCache :=
      { staticsCopiedFrom := none, pendingTransitions := [41], descriptorHandles := [61, 62] } }

/-- The heap `exHeap3` with the SRB `exBoundSRB` at address 20. -/
def exHeap4 : Heap := exHeap3.setSRB 20 exBoundSRB

/-- The release build without binding verification. -/
def releaseBuild : BuildConfig := { DEBUG := false, VERIFY_SHADER_BINDINGS := false }

/-- The debug build with binding verification. -/
def debugBuild : BuildConfig := { DEBUG := true, VERIFY_SHADER_BINDINGS := true }

/-- The same device handing out address 10 for the next SRB. -/
def exDevice10 : RenderDeviceD3D12Impl := { exDevice with SRBAllocatorNext := 10 }

/-- The heap `exHeap4` after building a pipeline state at address 400 that
declares the constant buffer `exCB` under another name (default SRB at
address 10). -/
def exHeap5 : Heap :=
  (PipelineStateD3D12Impl.construct exDevice10 exHeap4 400
    (exDesc [{ exCB with name := "cbCamera" }])).heap

/-- The heap holds at address `A` a pipeline state that the constructor
builds from `desc` on device `dev`. -/
def HoldsBuilt (heap : Heap) (A : Nat) (dev : RenderDeviceD3D12Impl)
    (desc : PipelineStateDesc) : Prop :=
  ∃ a, heap.psos A = some a ∧ BuiltFrom dev desc a

/-- One call of `CommitAndTransitionShaderResources`: the object it is called
on and its arguments. -/
structure CommitCall where
  this : Nat
  pShaderResourceBinding : Option Nat
  Ctx : CommandContext
  CommitResources : Bool
  TransitionResources : Bool
  deriving DecidableEq, Repr

/-- A sequence of calls, each on the heap the previous one left: the final heap
and, per call, the events it raised.  The run ends at a call that dereferences
an invalid address. -/
def runCommits (cfg : BuildConfig) : Heap → List CommitCall → Heap × List (List Event)
  | heap, [] => (heap, [])
  | heap, c :: cs =>
    match PipelineStateD3D12Impl.CommitAndTransitionShaderResources cfg heap c.this
        c.pShaderResourceBinding c.Ctx c.CommitResources c.TransitionResources with
    | none => (heap, [])
    | some out =>
      let r := runCommits cfg out.heap cs
      (r.1, out.events :: r.2)

/-- Three calls on the pipeline state at address 200 with its SRB at address
20: transitions only, then commit with transitions, then commit only. -/
def exCalls : List CommitCall :=
  [{ this := 200, pShaderResourceBinding := some 20, Ctx := { commands := [] },
     CommitResources := false, TransitionResources := true },
   { this := 200, pShaderResourceBinding := some 20, Ctx := { commands := [] },
     CommitResources := true, TransitionResources := true },
   { this := 200, pShaderResourceBinding := some 20, Ctx := { commands := [] },
     CommitResources := true, TransitionResources := false }]

/-- The event is a static-resource copy into the SRB at address `s`. -/
def Event.isInitOf (s : Nat) : Event → Bool
  | .InitializeStaticResources srb _ => decide (srb = s)
  | _ => false

/-- How often `InitializeStaticResources` ran on the SRB at address `s`. -/
def initCount (s : Nat) (events : List Event) : Nat :=
  events.countP (Event.isInitOf s)

/-- The "statics initialized" flag of the SRB at address `s` is set. -/
def Heap.staticsInitialized (heap : Heap) (s : Nat) : Bool :=
  match heap.srbs s with
  | some srb => srb.m_bStaticResourcesInitialized
  | none => false

/-- No binding command is recorded before a resource-state transition: every
transition precedes every binding command. -/
def TransitionsPrecedeBindings (l : List Command) : Prop :=
  l.Pairwise (fun x y => ¬ (x.isBinding = true ∧ y.isTransition = true))

/-- No descriptor commit is recorded before a resource-state transition. -/
def TransitionsPrecedeCommits (l : List Command) : Prop :=
  l.Pairwise (fun x y => ¬ (x.isCommit = true ∧ y.isTransition = true))

instance (l : List Command) : Decidable (TransitionsPrecedeBindings l) := by
  unfold TransitionsPrecedeBindings
  infer_instance

instance (l : List Command) : Decidable (TransitionsPrecedeCommits l) := by
  unfold TransitionsPrecedeCommits
  infer_instance

/-- The event reports an error: a logged error or a failed assertion. -/
def Event.isError : Event → Bool
  | .LogError _ => true
  | .AssertionFailed _ => true
  | _ => false

/-- The command with which a pipeline state sets its root signature: on the
compute context for a compute pipeline, on the graphics context otherwise. -/
def PipelineStateD3D12Impl.setRootSignatureCommand (self : PipelineStateD3D12Impl) : Command :=
  if self.m_Desc.IsComputePipeline then
    Command.SetComputeRootSignature self.m_RootSig.d3d12RootSignature
  else
    Command.SetGraphicsRootSignature self.m_RootSig.d3d12RootSignature

/-! ## Construction: the native creation call and the order of the steps -/

/-- The call of the constructor that creates the native pipeline object, with
the description the constructor passes: `CreateComputePipelineState` for a
compute pipeline whose compute shader is set, `CreateGraphicsPipelineState`
for a graphics pipeline whose shaders all have a graphics type.  `none` when
the constructor ends before the call. -/
def PipelineStateD3D12Impl.nativePipelineCreation (dev : RenderDeviceD3D12Impl)
    (PipelineDesc : PipelineStateDesc) : Option (Int × Nat) :=
  let shaders := PipelineDesc.GetShaders
  let rs := (parseLayouts shaders (RootSignature.empty.AllocateStaticSamplers shaders)).2.Finalize dev
  if PipelineDesc.IsComputePipeline then
    match PipelineDesc.ComputePipeline.pCS with
    | none => none
    | some cs =>
      some (dev.CreateComputePipelineState
        { pRootSignature := rs.d3d12RootSignature
          CS := { pShaderBytecode := cs.byteCodePointer, BytecodeLength := cs.byteCodeLength }
          NodeMask := 0, CachedBlobSizeInBytes := 0, Flags := 0 })
  else
    match setShaderBytecodes shaders D3D12_GRAPHICS_PIPELINE_STATE_DESC.zero with
    | none => none
    | some d0 =>
      some (dev.CreateGraphicsPipelineState
        (fillGraphicsDesc dev rs PipelineDesc.GraphicsPipeline d0))

/-- The step that creates the native pipeline object of a description. -/
def PipelineStateDesc.creationStep (d : PipelineStateDesc) : ConstructionStep :=
  if d.IsComputePipeline then ConstructionStep.CreateComputePipelineState
  else ConstructionStep.CreateGraphicsPipelineState

/-- The steps of the constructor up to and including the finalization of the
root signature. -/
def PipelineStateDesc.layoutSteps (d : PipelineStateDesc) : List ConstructionStep :=
  [ConstructionStep.AllocateStaticSamplers] ++
  (List.range d.GetShaders.length).map ConstructionStep.InitializeShaderResourceLayout ++
  [ConstructionStep.FinalizeRootSignature]

/-- The position of a step in the construction state machine: parsing of the
layouts (0, 1), finalization of the binding layout (2), creation of the
native pipeline object (3), naming (4), sizing and initialization of the SRB
memory allocator (5, 6, 7), allocation of the default SRB (8), publication of
the hash (9). -/
def ConstructionStep.phase : ConstructionStep → Nat
  | .AllocateStaticSamplers => 0
  | .InitializeShaderResourceLayout _ => 1
  | .FinalizeRootSignature => 2
  | .CreateComputePipelineState => 3
  | .CreateGraphicsPipelineState => 3
  | .SetName => 4
  | .GetRequiredMemorySize _ => 5
  | .GetResourceCacheRequiredMemSize => 6
  | .InitializeSRBMemAllocator _ => 7
  | .AllocateDefaultSRB _ => 8
  | .GetHash => 9

/-- A device on which the creation of every native pipeline object fails
(`E_FAIL`). -/
def exFailingDevice : RenderDeviceD3D12Impl :=
  { exDevice with
    CreateComputePipelineState := fun _ => (-2147467259, 0)
    CreateGraphicsPipelineState := fun _ => (-2147467259, 0) }

/-- A named graphics pipeline description with a vertex and a pixel shader
and an SRB allocation granularity of 4. -/
def exDescBatched : PipelineStateDesc :=
  { Name := "Scene", IsComputePipeline := false, SRBAllocationGranularity := 4,
    ComputePipeline := { pCS := none },
    GraphicsPipeline :=
      { exGraphics with
        pVS := some (exVS [exCB])
        pPS := some { exVS [exTex, exCBMutable] with ShaderType := SHADER_TYPE.PIXEL } } }

/-- A compute pipeline description without a compute shader. -/
def exComputeDescNoCS : PipelineStateDesc :=
  { Name := "", IsComputePipeline := true, SRBAllocationGranularity := 1,
    ComputePipeline := { pCS := none }, GraphicsPipeline := exGraphics }

/-! ## `BindShaderResources` -/

/-- The members of the pipeline state through which `BindShaderResources`
reaches a shader. -/
inductive ShaderMember where
  | m_pCS
  | m_pVS
  | m_pPS
  | m_pGS
  | m_pDS
  | m_pHS
  deriving DecidableEq, Repr

/-- One call `shader->BindResources(pResourceMapping, Flags)`. -/
structure BindResourcesCall where
  member : ShaderMember
  shader : ShaderD3D12Impl
  pResourceMapping : Nat
  Flags : Nat
  deriving DecidableEq, Repr

/-- Modelled from the spec: the members `m_pCS`, `m_pVS`, `m_pPS`, `m_pGS`,
`m_pDS`, `m_pHS` belong to the base class `PipelineStateBase`, which is not
among the given sources; each holds the shader of that stage of the pipeline
description, null when the stage is not set. -/
def PipelineStateD3D12Impl.shaderOf (self : PipelineStateD3D12Impl) :
    ShaderMember → Option ShaderD3D12Impl
  | .m_pCS => self.m_Desc.ComputePipeline.pCS
  | .m_pVS => self.m_Desc.GraphicsPipeline.pVS
  | .m_pPS => self.m_Desc.GraphicsPipeline.pPS
  | .m_pGS => self.m_Desc.GraphicsPipeline.pGS
  | .m_pDS => self.m_Desc.GraphicsPipeline.pDS
  | .m_pHS => self.m_Desc.GraphicsPipeline.pHS

/-- The statement `if(m_pX) m_pX->BindResources(pResourceMapping, Flags);`. -/
def PipelineStateD3D12Impl.bindIfSet (self : PipelineStateD3D12Impl) (m : ShaderMember)
    (pResourceMapping Flags : Nat) : List BindResourcesCall :=
  match self.shaderOf m with
  | some sh => [{ member := m, shader := sh, pResourceMapping := pResourceMapping,
                  Flags := Flags }]
  | none => []

/-- `PipelineStateD3D12Impl::BindShaderResources`: the calls of
`BindResources` it makes, in order. -/
def PipelineStateD3D12Impl.BindShaderResources (self : PipelineStateD3D12Impl)
    (pResourceMapping Flags : Nat) : List BindResourcesCall :=
  if self.m_Desc.IsComputePipeline then
    self.bindIfSet ShaderMember.m_pCS pResourceMapping Flags
  else
    self.bindIfSet ShaderMember.m_pVS pResourceMapping Flags ++
    self.bindIfSet ShaderMember.m_pPS pResourceMapping Flags ++
    self.bindIfSet ShaderMember.m_pGS pResourceMapping Flags ++
    self.bindIfSet ShaderMember.m_pDS pResourceMapping Flags ++
    self.bindIfSet ShaderMember.m_pHS pResourceMapping Flags

/-! ## Fixed-block allocator -/

/-- A block of a fixed-block allocator, named by the page it lies in and its
index in the page. -/
structure Block where
  page : Nat
  index : Nat
  deriving DecidableEq, Repr

/-- Modelled from the spec: class `FixedBlockMemoryAllocator` is not among the
given sources (only its test is).  A free-list pool over pages of
`NumBlocksInPage` equal-size blocks: the free list (most recently freed block
first), the number of pages, and the number of blocks carved so far from the
current page, the last one. -/
structure FixedBlockMemoryAllocator where
  BlockSize : Nat
  NumBlocksInPage : Nat
  freeList : List Block
  numPages : Nat
  carved : Nat
  deriving DecidableEq, Repr

/-- Modelled from the spec: a new allocator has no page and an empty free
list. -/
def FixedBlockMemoryAllocator.new (BlockSize NumBlocksInPage : Nat) :
    FixedBlockMemoryAllocator :=
  { BlockSize := BlockSize, NumBlocksInPage := NumBlocksInPage, freeList := [],
    numPages := 0, carved := 0 }

/-- Modelled from the spec: `Allocate` returns the most-recently-freed block if
one exists (LIFO reuse), else carves a fresh block from the current page or
allocates a new page. -/
def FixedBlockMemoryAllocator.Allocate (a : FixedBlockMemoryAllocator) :
    Block × FixedBlockMemoryAllocator :=
  match a.freeList with
  | b :: rest => (b, { a with freeList := rest })
  | [] =>
    if a.numPages = 0 ∨ a.NumBlocksInPage ≤ a.carved then
      ({ page := a.numPages, index := 0 }, { a with numPages := a.numPages + 1, carved := 1 })
    else
      ({ page := a.numPages - 1, index := a.carved }, { a with carved := a.carved + 1 })

/-- Modelled from the spec: `Free` pushes the block back onto the free list;
it never coalesces and never shrinks. -/
def FixedBlockMemoryAllocator.Free (a : FixedBlockMemoryAllocator) (b : Block) :
    FixedBlockMemoryAllocator :=
  { a with freeList := b :: a.freeList }

/-- `n` calls of `Allocate` in a row: the blocks returned, in order, and the
allocator after the last call. -/
def FixedBlockMemoryAllocator.AllocateN (a : FixedBlockMemoryAllocator) :
    Nat → List Block × FixedBlockMemoryAllocator
  | 0 => ([], a)
  | n + 1 =>
    let r := a.Allocate
    let t := r.2.AllocateN n
    (r.1 :: t.1, t.2)

/-- The blocks of the list freed one after the other, first block first. -/
def FixedBlockMemoryAllocator.FreeAll (a : FixedBlockMemoryAllocator) (bs : List Block) :
    FixedBlockMemoryAllocator :=
  bs.foldl FixedBlockMemoryAllocator.Free a

/-- One operation of a client of the allocator. -/
inductive AllocatorOp where
  | Allocate
  | Free (b : Block)
  deriving DecidableEq, Repr

/-- A sequence of client operations, with the list of the live blocks
(allocated and not yet freed) kept alongside.  `none` when the client frees a
block that is not live. -/
def runOps : FixedBlockMemoryAllocator → List Block → List AllocatorOp →
    Option (FixedBlockMemoryAllocator × List Block)
  | a, live, [] => some (a, live)
  | a, live, AllocatorOp.Allocate :: ops => runOps a.Allocate.2 (a.Allocate.1 :: live) ops
  | a, live, AllocatorOp.Free b :: ops =>
    if b ∈ live then runOps (a.Free b) (live.erase b) ops else none

/-- The block has been carved from a page of the allocator. -/
def FixedBlockMemoryAllocator.Carved (a : FixedBlockMemoryAllocator) (b : Block) : Prop :=
  b.page + 1 < a.numPages ∨ (b.page + 1 = a.numPages ∧ b.index < a.carved)

/-- The invariant of the allocator and the live blocks of its client: no live
block is listed twice, no free block is listed twice, no block is both live
and free, and every such block has been carved from a page. -/
def AllocatorInv (a : FixedBlockMemoryAllocator) (live : List Block) : Prop :=
  live.Nodup ∧ a.freeList.Nodup ∧ (∀ b ∈ a.freeList, b ∉ live) ∧
  (∀ b ∈ live, a.Carved b) ∧ (∀ b ∈ a.freeList, a.Carved b)

/-! ### The test `Common_FixedBlockMemoryAllocator.AllocDealloc` -/

/-- The state of the test: the allocator, the array `Allocations[i][p]` and
the outcomes of the `EXPECT_EQ` checks made so far. -/
structure AllocDeallocTest where
  TestAllocator : FixedBlockMemoryAllocator
  Allocations : Nat → Nat → Block
  expectations : List Bool

/-- `Allocations[i][p] = TestAllocator.Allocate(...)`. -/
def AllocDeallocTest.allocateInto (t : AllocDeallocTest) (p i : Nat) : AllocDeallocTest :=
  let r := t.TestAllocator.Allocate
  { t with
    TestAllocator := r.2
    Allocations := fun i' p' => if i' = i ∧ p' = p then r.1 else t.Allocations i' p' }

/-- `TestAllocator.Free(Allocations[i][p])`. -/
def AllocDeallocTest.free (t : AllocDeallocTest) (p i : Nat) : AllocDeallocTest :=
  { t with TestAllocator := t.TestAllocator.Free (t.Allocations i p) }

/-- `auto* NewAlloc = TestAllocator.Allocate(...); EXPECT_EQ(Allocations[i][p], NewAlloc);`. -/
def AllocDeallocTest.allocateAndExpect (t : AllocDeallocTest) (p i : Nat) : AllocDeallocTest :=
  let r := t.TestAllocator.Allocate
  { t with
    TestAllocator := r.2
    expectations := t.expectations ++ [decide (t.Allocations i p = r.1)] }

/-- The body of the loop `for (int a = 1; a < NumAllocationsPerPage; ++a)`. -/
def AllocDeallocTest.round (t : AllocDeallocTest) (p a : Nat) : AllocDeallocTest :=
  let t1 := (List.range a).foldl (fun t i => t.allocateInto p i) t
  let t2 := (List.range a).reverse.foldl (fun t i => t.free p i) t1
  let t3 := (List.range a).foldl (fun t i => t.allocateAndExpect p i) t2
  (List.range a).reverse.foldl (fun t i => t.free p i) t3

/-- The body of the first loop `for (int p = 0; p < 2; ++p)`. -/
def AllocDeallocTest.page (NumAllocationsPerPage : Nat) (t : AllocDeallocTest) (p : Nat) :
    AllocDeallocTest :=
  let t1 := (List.range' 1 (NumAllocationsPerPage - 1)).foldl (fun t a => t.round p a) t
  (List.range NumAllocationsPerPage).foldl (fun t i => t.allocateInto p i) t1

/-- The test `TEST(Common_FixedBlockMemoryAllocator, AllocDealloc)` for the
given constants. -/
def AllocDealloc (AllocSize NumAllocationsPerPage : Nat) : AllocDeallocTest :=
  let t0 : AllocDeallocTest :=
    { TestAllocator := FixedBlockMemoryAllocator.new AllocSize NumAllocationsPerPage
      Allocations := fun _ _ => { page := 0, index := 0 }
      expectations := [] }
  let t1 := (List.range 2).foldl (AllocDeallocTest.page NumAllocationsPerPage) t0
  let t2 := (List.range 2).foldl (fun t p =>
    (List.range NumAllocationsPerPage).foldl (fun t i => t.free p i) t) t1
  let t3 := (List.range 2).foldl (fun t p =>
    (List.range NumAllocationsPerPage).foldl (fun t i => t.allocateInto p i) t) t2
  (List.range 2).foldl (fun t p =>
    (List.range 5).foldl (fun t s =>
      ((List.range NumAllocationsPerPage).filter (fun i => s ≤ i ∧ (i - s) % 5 = 0)).foldl
        (fun t i => t.free p i) t) t) t3

/-! ## More example objects -/

/-- A mutable sampler. -/
def exSamplerMutable : ResourceSlot :=
  { name := "g_Sampler", kind := ResourceKind.Sampler, visibility := 1,
    variableType := SHADER_VARIABLE_TYPE.MUTABLE, arraySize := 1 }

/-- The heap after building, at address 100, a pipeline state whose only
resource is a mutable sampler (default SRB at address 7). -/
def exHeapSampler : Heap :=
  (PipelineStateD3D12Impl.construct exDevice Heap.empty 100 (exDesc [exSamplerMutable])).heap

/-- The allocator of the test after 16 allocations: page 0 is full. -/
def exAllocator16 : FixedBlockMemoryAllocator :=
  ((FixedBlockMemoryAllocator.new 32 16).AllocateN 16).2

/-! ## Texture2D_OGL -/

/-- The preprocessor symbols tested by `Texture2D_OGL.cpp`. -/
structure GLBuildConfig where
  /-- `_DEBUG`: enables `VERIFY`, `UNEXPECTED` and the `#ifdef _DEBUG` block. -/
  DEBUG : Bool
  /-- `GL_ARB_texture_storage_multisample`. -/
  GL_ARB_texture_storage_multisample : Bool
  deriving DecidableEq, Repr

/-- `a - b` on `Uint32` values `a, b < 2 ^ 32`: the difference modulo `2 ^ 32`. -/
def Uint32.sub (a b : Nat) : Nat := (a + 2 ^ 32 - b) % 2 ^ 32

/-- `a + b` on `Uint32`: the sum modulo `2 ^ 32`. -/
def Uint32.add (a b : Nat) : Nat := (a + b) % 2 ^ 32

/-- `a * b` on `Uint32`: the product modulo `2 ^ 32`. -/
def Uint32.mul (a b : Nat) : Nat := (a * b) % 2 ^ 32

/-- `x >> n` on `Uint32`.  A shift count of 32 or more has no defined value
in C++: `none`. -/
def Uint32.shr (x n : Nat) : Option Nat :=
  if n < 32 then some (x >>> n) else none

/-- `USAGE`.  The file names only `USAGE_STAGING`; the enumeration is declared
in a header that is not among the given sources, and every other value is `OTHER`. -/
inductive USAGE where
  | STAGING
  | OTHER (value : Nat)
  deriving DecidableEq, Repr

/-- The fields of `TextureDesc` read by `Texture2D_OGL.cpp` (all `Uint32`
except `Usage`). -/
structure TextureDesc where
  Width : Nat
  Height : Nat
  MipLevels : Nat
  SampleCount : Nat
  Usage : USAGE
  Format : Nat
  deriving DecidableEq, Repr

/-- `Box`, as initialised by `Box{MinX, MaxX, MinY, MaxY}`. -/
structure Box where
  MinX : Nat
  MaxX : Nat
  MinY : Nat
  MaxY : Nat
  deriving DecidableEq, Repr

/-- `TextureSubResData`.  `pSrcBuffer` is the GL handle of the source buffer
when the pointer is not null. -/
structure TextureSubResData where
  pData : Option Nat
  pSrcBuffer : Option Nat
  SrcOffset : Nat
  Stride : Nat
  deriving DecidableEq, Repr, Inhabited

/-- `TextureData`: the subresource array (`none` is a null pointer) and the
number of subresources the caller declares. -/
structure TextureData where
  pSubResources : Option (List TextureSubResData)
  NumSubresources : Nat
  deriving DecidableEq, Repr

/-- The fields of the result of `GetNativePixelTransferAttribs` that
`UpdateData` reads. -/
structure NativePixelAttribs where
  IsCompressed : Bool
  PixelFormat : Nat
  DataType : Nat
  deriving DecidableEq, Repr

/-- The fields of the result of `GetTextureFormatAttribs` that `UpdateData`
reads. -/
structure TextureFormatAttribs where
  ComponentSize : Nat
  NumComponents : Nat
  deriving DecidableEq, Repr

/-- The format tables `GetNativePixelTransferAttribs` and
`GetTextureFormatAttribs`, which are not among the given sources. -/
structure GLFormatTables where
  GetNativePixelTransferAttribs : Nat → NativePixelAttribs
  GetTextureFormatAttribs : Nat → TextureFormatAttribs

/-- The texture object after the constructor of the base class `TextureBaseGL`
has run: the members that `Texture2D_OGL.cpp` reads. -/
structure Texture2D_OGL where
  m_Desc : TextureDesc
  m_BindTarget : Nat
  m_GlTexture : Nat
  m_GLTexFormat : Nat
  deriving DecidableEq, Repr

/-- The messages of the `VERIFY` and `UNEXPECTED` checks of the file. -/
inductive GLMessage where
  /-- "Multisampled textures cannot be modified directly". -/
  | MultisampledCannotBeModified
  /-- "Incorrect number of subresources". -/
  | IncorrectNumberOfSubresources
  /-- "Compressed texture update region must be 4 pixel-aligned". -/
  | CompressedRegionNotAligned
  /-- "Compressed data stride ... must match the size of a row of compressed blocks". -/
  | CompressedStrideMismatch
  /-- "Data stride is not multiple of pixel size". -/
  | StrideNotMultipleOfPixelSize
  deriving DecidableEq, Repr

/-- The exceptions thrown by the constructor. -/
inductive GLException where
  /-- "Failed to allocate storage for the 2D multisample texture". -/
  | MultisampleStorageFailed
  /-- "Multisampled textures are not supported". -/
  | MultisampleNotSupported
  /-- "Failed to allocate storage for the 2D texture". -/
  | StorageFailed
  deriving DecidableEq, Repr

/-- The `pname` values passed to `glPixelStorei`. -/
inductive PixelStoreParam where
  | UNPACK_ALIGNMENT
  | UNPACK_ROW_LENGTH
  | UNPACK_SKIP_PIXELS
  | UNPACK_SKIP_ROWS
  deriving DecidableEq, Repr

/-- The last argument of the upload calls: a byte offset into the bound unpack
buffer, or the CPU pointer `pData`. -/
inductive PixelData where
  | BufferOffset (SrcOffset : Nat)
  | Pointer (pData : Option Nat)
  deriving DecidableEq, Repr

/-- The data argument of the upload calls,
`pSrcBuffer != nullptr ? (void*)SrcOffset : pData`. -/
def TextureSubResData.data (SubresData : TextureSubResData) : PixelData :=
  match SubresData.pSrcBuffer with
  | some _ => PixelData.BufferOffset SubresData.SrcOffset
  | none => PixelData.Pointer SubresData.pData

/-- The calls made by the constructor and by `UpdateData`, in the order they
are made. -/
inductive GLCall where
  /-- `BindTexture(index, target, texture)` on the context state; texture 0 is
  `GLTextureObj::Null()`. -/
  | BindTexture (index : Int) (target : Nat) (texture : Nat)
  | glTexStorage2DMultisample (target samples format width height : Nat)
      (fixedsamplelocations : Bool)
  | glTexStorage2D (target levels format width height : Nat)
  | SetDefaultGLParameters
  /-- A call of `Texture2D_OGL::UpdateData`; what it does is
  `Texture2D_OGL.UpdateData`. -/
  | UpdateData (MipLevel Slice : Nat) (DstBox : Box) (SubresData : TextureSubResData)
  /-- The call of the base-class `TextureBaseGL::UpdateData`. -/
  | TextureBaseGL_UpdateData (MipLevel Slice : Nat) (DstBox : Box)
      (SubresData : TextureSubResData)
  /-- `glBindBuffer(GL_PIXEL_UNPACK_BUFFER, buffer)`. -/
  | glBindBuffer (buffer : Nat)
  | glPixelStorei (pname : PixelStoreParam) (param : Nat)
  | glCompressedTexSubImage2D (target level xoffset yoffset width height format
      imageSize : Nat) (data : PixelData)
  | glTexSubImage2D (target level xoffset yoffset width height format type : Nat)
      (data : PixelData)
  /-- `CHECK_GL_ERROR("Failed to update subimage data")`. -/
  | CHECK_GL_ERROR
  /-- A `VERIFY` or `UNEXPECTED` that fails in a `_DEBUG` build; the function
  goes on. -/
  | AssertionFailed (msg : GLMessage)
  deriving DecidableEq, Repr

/-- The calls that allocate GL storage for the texture. -/
def GLCall.isStorage : GLCall → Bool
  | .glTexStorage2DMultisample _ _ _ _ _ _ => true
  | .glTexStorage2D _ _ _ _ _ => true
  | _ => false

/-- The calls of `Texture2D_OGL::UpdateData`. -/
def GLCall.isUpdateData : GLCall → Bool
  | .UpdateData _ _ _ _ => true
  | _ => false

/-- `Texture2D_OGL::UpdateData`: the calls it makes, in order.  The result is
`none` where the C++ has no defined behaviour: a shift count of 32 or more, or
a division by a pixel size of zero. -/
def Texture2D_OGL.UpdateData (cfg : GLBuildConfig) (fmt : GLFormatTables)
    (self : Texture2D_OGL) (MipLevel Slice : Nat) (DstBox : Box)
    (SubresData : TextureSubResData) : Option (List GLCall) :=
  let UnpackBuffer : Nat :=
    match SubresData.pSrcBuffer with
    | some handle => handle
    | none => 0
  let TransferAttribs := fmt.GetNativePixelTransferAttribs self.m_Desc.Format
  let prologue : List GLCall :=
    [GLCall.TextureBaseGL_UpdateData MipLevel Slice DstBox SubresData,
     GLCall.BindTexture (-1) self.m_BindTarget self.m_GlTexture,
     GLCall.glBindBuffer UnpackBuffer,
     GLCall.glPixelStorei PixelStoreParam.UNPACK_ALIGNMENT 4]
  let epilogue : List GLCall :=
    [GLCall.CHECK_GL_ERROR] ++
    (if UnpackBuffer ≠ 0 then [GLCall.glBindBuffer 0] else []) ++
    [GLCall.BindTexture (-1) self.m_BindTarget 0]
  if TransferAttribs.IsCompressed then
    match Uint32.shr self.m_Desc.Width MipLevel, Uint32.shr self.m_Desc.Height MipLevel with
    | some w, some h =>
      let MipWidth := max w 1
      let MipHeight := max h 1
      let aligned : List GLCall :=
        if cfg.DEBUG = true ∧
            ¬ (DstBox.MinX % 4 = 0 ∧ DstBox.MinY % 4 = 0 ∧
               (DstBox.MaxX % 4 = 0 ∨ DstBox.MaxX = MipWidth) ∧
               (DstBox.MaxY % 4 = 0 ∨ DstBox.MaxY = MipHeight)) then
          [GLCall.AssertionFailed GLMessage.CompressedRegionNotAligned]
        else []
      let FmtAttribs := fmt.GetTextureFormatAttribs self.m_Desc.Format
      let BlockBytesInRow :=
        Uint32.mul (Uint32.add (Uint32.sub DstBox.MaxX DstBox.MinX) 3 / 4)
          FmtAttribs.ComponentSize
      let stride : List GLCall :=
        if cfg.DEBUG = true ∧ ¬ SubresData.Stride = BlockBytesInRow then
          [GLCall.AssertionFailed GLMessage.CompressedStrideMismatch]
        else []
      let UpdateRegionWidth :=
        min (Uint32.sub DstBox.MaxX DstBox.MinX) (Uint32.sub MipWidth DstBox.MinX)
      let UpdateRegionHeight :=
        min (Uint32.sub DstBox.MaxY DstBox.MinY) (Uint32.sub MipHeight DstBox.MinY)
      some (prologue ++ aligned ++ stride ++
        [GLCall.glCompressedTexSubImage2D self.m_BindTarget MipLevel DstBox.MinX DstBox.MinY
          UpdateRegionWidth UpdateRegionHeight self.m_GLTexFormat
          (Uint32.mul (Uint32.add (Uint32.sub DstBox.MaxY DstBox.MinY) 3 / 4)
            SubresData.Stride)
          SubresData.data] ++ epilogue)
    | _, _ => none
  else
    let TexFmtInfo := fmt.GetTextureFormatAttribs self.m_Desc.Format
    let PixelSize := Uint32.mul TexFmtInfo.NumComponents TexFmtInfo.ComponentSize
    if PixelSize = 0 then none
    else
      let multiple : List GLCall :=
        if cfg.DEBUG = true ∧ ¬ SubresData.Stride % PixelSize = 0 then
          [GLCall.AssertionFailed GLMessage.StrideNotMultipleOfPixelSize]
        else []
      some (prologue ++ multiple ++
        [GLCall.glPixelStorei PixelStoreParam.UNPACK_ROW_LENGTH (SubresData.Stride / PixelSize),
         GLCall.glPixelStorei PixelStoreParam.UNPACK_SKIP_PIXELS 0,
         GLCall.glPixelStorei PixelStoreParam.UNPACK_SKIP_ROWS 0,
         GLCall.glTexSubImage2D self.m_BindTarget MipLevel DstBox.MinX DstBox.MinY
           (Uint32.sub DstBox.MaxX DstBox.MinX) (Uint32.sub DstBox.MaxY DstBox.MinY)
           TransferAttribs.PixelFormat TransferAttribs.DataType SubresData.data] ++ epilogue)

/-- The loop of the constructor over the mip levels: one call of `UpdateData`
per level, for `Mip = 0, 1, ...`.  The result is `none` where the C++ has no
defined behaviour: a shift count of 32 or more, or a read past the end of the
subresource array. -/
def Texture2D_OGL.uploadMips (self : Texture2D_OGL)
    (pSubResources : List TextureSubResData) : Option (List GLCall) :=
  (List.range self.m_Desc.MipLevels).mapM (fun Mip =>
    match Uint32.shr self.m_Desc.Width Mip, Uint32.shr self.m_Desc.Height Mip,
        pSubResources[Mip]? with
    | some w, some h, some SubresData =>
      some (GLCall.UpdateData Mip 0
        { MinX := 0, MaxX := max w 1, MinY := 0, MaxY := max h 1 } SubresData)
    | _, _, _ => none)

/-- The outcome of the constructor: the calls it made, and the exception it
threw, if any. -/
structure Texture2DConstruction where
  calls : List GLCall
  exception : Option GLException
  deriving DecidableEq, Repr

/-- The body of the first constructor of `Texture2D_OGL`, run on the object
left by the base-class constructor.  `StorageError` tells whether the GL
reports an error after the storage call (`CHECK_GL_ERROR_AND_THROW`). -/
def Texture2D_OGL.construct (cfg : GLBuildConfig) (self : Texture2D_OGL)
    (TexDesc : TextureDesc) (pInitData : Option TextureData) (StorageError : Bool) :
    Option Texture2DConstruction :=
  if TexDesc.Usage = USAGE.STAGING then
    some { calls := [], exception := none }
  else
    let bind : List GLCall := [GLCall.BindTexture (-1) self.m_BindTarget self.m_GlTexture]
    let unbind : List GLCall := [GLCall.BindTexture (-1) self.m_BindTarget 0]
    if self.m_Desc.SampleCount > 1 then
      if cfg.GL_ARB_texture_storage_multisample then
        let storage : List GLCall :=
          [GLCall.glTexStorage2DMultisample self.m_BindTarget self.m_Desc.SampleCount
            self.m_GLTexFormat self.m_Desc.Width self.m_Desc.Height true]
        if StorageError then
          some { calls := bind ++ storage, exception := some GLException.MultisampleStorageFailed }
        else
          let hasSubresources : Bool :=
            match pInitData with
            | some d => d.pSubResources.isSome
            | none => false
          let verify : List GLCall :=
            if cfg.DEBUG = true ∧ hasSubresources = true then
              [GLCall.AssertionFailed GLMessage.MultisampledCannotBeModified]
            else []
          some { calls := bind ++ storage ++ [GLCall.SetDefaultGLParameters] ++ verify ++ unbind,
                 exception := none }
      else
        some { calls := bind, exception := some GLException.MultisampleNotSupported }
    else
      let storage : List GLCall :=
        [GLCall.glTexStorage2D self.m_BindTarget self.m_Desc.MipLevels self.m_GLTexFormat
          self.m_Desc.Width self.m_Desc.Height]
      if StorageError then
        some { calls := bind ++ storage, exception := some GLException.StorageFailed }
      else
        let uploads : Option (List GLCall) :=
          match pInitData with
          | some d =>
            match d.pSubResources with
            | some pSubResources =>
              if self.m_Desc.MipLevels = d.NumSubresources then
                self.uploadMips pSubResources
              else
                some (if cfg.DEBUG = true then
                  [GLCall.AssertionFailed GLMessage.IncorrectNumberOfSubresources] else [])
            | none => some []
          | none => some []
        match uploads with
        | some u =>
          some { calls := bind ++ storage ++ [GLCall.SetDefaultGLParameters] ++ u ++ unbind,
                 exception := none }
        | none => none

/-! ## Example textures -/

/-- A release build with multisample storage. -/
def releaseGL : GLBuildConfig := { DEBUG := false, GL_ARB_texture_storage_multisample := true }

/-- A debug build with multisample storage. -/
def debugGL : GLBuildConfig := { DEBUG := true, GL_ARB_texture_storage_multisample := true }

/-- An 8 x 4 texture with four mip levels, in the uncompressed format. -/
def exTexDesc : TextureDesc :=
  { Width := 8, Height := 4, MipLevels := 4, SampleCount := 1, Usage := USAGE.OTHER 1,
    Format := 1 }

/-- The texture object for `exTexDesc`. -/
def exTexture : Texture2D_OGL :=
  { m_Desc := exTexDesc, m_BindTarget := 3553, m_GlTexture := 11, m_GLTexFormat := 32856 }

/-- Initial data for the mip level of the given row stride. -/
def exSubres (Stride : Nat) : TextureSubResData :=
  { pData := some (1000 + Stride), pSrcBuffer := none, SrcOffset := 0, Stride := Stride }

/-- Initial data with one subresource per mip level of `exTexDesc`. -/
def exInitData : TextureData :=
  { pSubResources := some [exSubres 32, exSubres 16, exSubres 8, exSubres 4],
    NumSubresources := 4 }

theorem parseLayouts_tuples (shaders : List ShaderD3D12Impl) (rs : RootSignature) :
    (parseLayouts shaders rs).2.tuples =
      rs.tuples ++ (shaders.map (fun sh => sh.resources.map ResourceSlot.tuple)).flatten := by
  induction shaders generalizing rs with
  | nil => simp [parseLayouts]
  | cons sh rest ih =>
    simp [parseLayouts, ih, ShaderResourceLayoutD3D12.Initialize, List.append_assoc]

theorem parseLayouts_layouts (shaders : List ShaderD3D12Impl) (rs : RootSignature) :
    (parseLayouts shaders rs).1 = shaders.map (fun sh => sh.resources) := by
  induction shaders generalizing rs with
  | nil => simp [parseLayouts]
  | cons sh rest ih => simp [parseLayouts, ih, ShaderResourceLayoutD3D12.Initialize]

theorem finishConstruction_status (dev : RenderDeviceD3D12Impl) (heap : Heap) (this : Nat)
    (desc : PipelineStateDesc) (shaders : List ShaderD3D12Impl)
    (layouts : List (List ResourceSlot)) (rs : RootSignature) (pd3d12PSO : Nat)
    (steps : List ConstructionStep) :
    (finishConstruction dev heap this desc shaders layouts rs pd3d12PSO steps).status =
      ConstructionStatus.built := rfl

theorem finishConstruction_pso (dev : RenderDeviceD3D12Impl) (heap : Heap) (this : Nat)
    (desc : PipelineStateDesc) (shaders : List ShaderD3D12Impl)
    (layouts : List (List ResourceSlot)) (rs : RootSignature) (pd3d12PSO : Nat)
    (steps : List ConstructionStep) :
    (finishConstruction dev heap this desc shaders layouts rs pd3d12PSO steps).heap.psos this =
      some { m_Desc := desc, m_ppShaders := shaders, m_pShaderResourceLayouts := layouts,
             m_RootSig := rs, m_pd3d12PSO := pd3d12PSO,
             m_SRBMemAllocator := (presizeSRBMemAllocator dev desc layouts rs).1,
             m_pDefaultShaderResBinding := dev.SRBAllocatorNext,
             m_ShaderResourceLayoutHash := rs.GetHash dev.hashFn } := by
  simp [finishConstruction, Heap.setPSO]

theorem finishConstruction_srb (dev : RenderDeviceD3D12Impl) (heap : Heap) (this : Nat)
    (desc : PipelineStateDesc) (shaders : List ShaderD3D12Impl)
    (layouts : List (List ResourceSlot)) (rs : RootSignature) (pd3d12PSO : Nat)
    (steps : List ConstructionStep) :
    (finishConstruction dev heap this desc shaders layouts rs pd3d12PSO steps).heap.srbs
      dev.SRBAllocatorNext = some (ShaderResourceBindingD3D12Impl.new this) := by
  simp [finishConstruction, Heap.setPSO, Heap.setSRB]

/-- A successful construction ends in `finishConstruction`, applied to the
shaders of the description and to the root signature parsed from them. -/
theorem construct_built_eq (dev : RenderDeviceD3D12Impl) (heap : Heap) (this : Nat)
    (desc : PipelineStateDesc)
    (h : (PipelineStateD3D12Impl.construct dev heap this desc).status = ConstructionStatus.built) :
    ∃ pd3d12PSO steps,
      PipelineStateD3D12Impl.construct dev heap this desc =
        finishConstruction dev heap this desc desc.GetShaders
          (parseLayouts desc.GetShaders
            (RootSignature.empty.AllocateStaticSamplers desc.GetShaders)).1
          ((parseLayouts desc.GetShaders
            (RootSignature.empty.AllocateStaticSamplers desc.GetShaders)).2.Finalize dev)
          pd3d12PSO steps := by
  unfold PipelineStateD3D12Impl.construct at h ⊢
  cases hc : desc.IsComputePipeline with
  | true =>
    simp only [hc, if_true] at h ⊢
    cases hcs : desc.ComputePipeline.pCS with
    | none => simp [hcs] at h
    | some cs =>
      simp only [hcs] at h ⊢
      split at h
      · simp at h
      · rename_i hf
        simp only [hf]
        exact ⟨_, _, rfl⟩
  | false =>
    simp only [hc, Bool.false_eq_true, if_false] at h ⊢
    cases hbc : setShaderBytecodes desc.GetShaders D3D12_GRAPHICS_PIPELINE_STATE_DESC.zero with
    | none => simp [hbc] at h
    | some d0 =>
      simp only [hbc] at h ⊢
      split at h
      · simp at h
      · rename_i hf
        simp only [hf]
        exact ⟨_, _, rfl⟩

/-- The constructor leaves a built pipeline state at `this`. -/
theorem construct_BuiltPSO (dev : RenderDeviceD3D12Impl) (heap : Heap) (this : Nat)
    (desc : PipelineStateDesc)
    (h : (PipelineStateD3D12Impl.construct dev heap this desc).status = ConstructionStatus.built) :
    BuiltPSO (PipelineStateD3D12Impl.construct dev heap this desc).heap this := by
  obtain ⟨pd, steps, heq⟩ := construct_built_eq dev heap this desc h
  rw [heq]
  exact ⟨_, _, finishConstruction_pso .., finishConstruction_srb .., rfl⟩

/-- The members of a pipeline state built from `desc`: its root signature holds
the declared tuples in order and its hash is the hash of that root signature. -/
theorem BuiltFrom.members {dev : RenderDeviceD3D12Impl} {desc : PipelineStateDesc}
    {pso : PipelineStateD3D12Impl} (h : BuiltFrom dev desc pso) :
    pso.m_Desc = desc ∧ pso.m_ppShaders = desc.GetShaders ∧
    pso.m_RootSig.tuples = desc.declaredTuples ∧
    pso.m_ShaderResourceLayoutHash = pso.m_RootSig.GetHash dev.hashFn := by
  obtain ⟨heap0, this, hst, hp⟩ := h
  obtain ⟨pd, steps, heq⟩ := construct_built_eq dev heap0 this desc hst
  rw [heq, finishConstruction_pso] at hp
  cases hp
  refine ⟨rfl, rfl, ?_, rfl⟩
  simp [RootSignature.Finalize, parseLayouts_tuples, RootSignature.AllocateStaticSamplers,
    RootSignature.empty, PipelineStateDesc.declaredTuples]

/-! ## Facts about `IsCompatibleWith` -/

theorem IsCompatibleWith_self (cfg : BuildConfig) (heap : Heap) (A : Nat) :
    PipelineStateD3D12Impl.IsCompatibleWith cfg heap A A = some { result := true, events := [] } := by
  simp [PipelineStateD3D12Impl.IsCompatibleWith]

theorem IsCompatibleWith_ne (cfg : BuildConfig) (heap : Heap) (A B : Nat)
    (a b : PipelineStateD3D12Impl) (hne : B ≠ A)
    (ha : heap.psos A = some a) (hb : heap.psos B = some b) :
    PipelineStateD3D12Impl.IsCompatibleWith cfg heap A B =
      some { result := decide (a.m_ShaderResourceLayoutHash = b.m_ShaderResourceLayoutHash) &&
                       a.m_RootSig.IsSameAs b.m_RootSig,
             events := if cfg.DEBUG && a.IsCompatibleShaders b &&
                 decide (a.m_ShaderResourceLayoutHash = b.m_ShaderResourceLayoutHash) &&
                 !a.m_RootSig.IsSameAs b.m_RootSig then
               [Event.AssertionFailed Message.CompatibleShadersSameRootSignatures] else [] } := by
  simp only [PipelineStateD3D12Impl.IsCompatibleWith, hne, if_false, ha, hb]
  by_cases hh : a.m_ShaderResourceLayoutHash = b.m_ShaderResourceLayoutHash
  · simp [hh]
  · simp [hh]

/-- Every 64-bit hash of the tuple sequence has collisions: two different
sequences with the same `GetHash`. -/
theorem GetHash_collision (hashFn : List LayoutTuple → Nat) :
    ∃ r1 r2 : RootSignature, r1.IsSameAs r2 = false ∧ r1.GetHash hashFn = r2.GetHash hashFn := by
  let t : LayoutTuple := exCB.tuple
  let f : Fin (2 ^ 64 + 1) → Fin (2 ^ 64) := fun n =>
    ⟨hashFn (List.replicate n.val t) % 2 ^ 64, Nat.mod_lt _ (by positivity)⟩
  obtain ⟨x, y, hxy, hf⟩ := Fintype.exists_ne_map_eq_of_card_lt f
    (by rw [Fintype.card_fin, Fintype.card_fin]; exact Nat.lt_succ_self _)
  refine ⟨{ RootSignature.empty with tuples := List.replicate x.val t },
          { RootSignature.empty with tuples := List.replicate y.val t }, ?_, ?_⟩
  · have hne : List.replicate x.val t ≠ List.replicate y.val t := by
      intro h
      have hl := congrArg List.length h
      simp only [List.length_replicate] at hl
      exact hxy (Fin.ext hl)
    simp [RootSignature.IsSameAs, hne]
  · have := congrArg Fin.val hf
    simpa [RootSignature.GetHash, f] using this

theorem IsCompatibleShaders_tuples (a b : PipelineStateD3D12Impl)
    (h : a.IsCompatibleShaders b = true) :
    a.m_ppShaders.map (fun sh => sh.resources.map ResourceSlot.tuple) =
      b.m_ppShaders.map (fun sh => sh.resources.map ResourceSlot.tuple) := by
  unfold PipelineStateD3D12Impl.IsCompatibleShaders PipelineStateD3D12Impl.m_NumShaders at h
  by_cases hl : a.m_ppShaders.length = b.m_ppShaders.length
  · simp only [bne_iff_ne, ne_eq, hl, not_true_eq_false, if_false] at h
    generalize a.m_ppShaders = l1 at hl h
    generalize b.m_ppShaders = l2 at hl h
    induction l1 generalizing l2 with
    | nil =>
      cases l2 with
      | nil => rfl
      | cons y ys => simp at hl
    | cons x xs ih =>
      cases l2 with
      | nil => simp at hl
      | cons y ys =>
        simp only [List.zip_cons_cons, List.all_cons, Bool.and_eq_true, decide_eq_true_eq,
          ShaderResourcesD3D12.IsCompatibleWith, beq_iff_eq] at h
        simp only [List.length_cons, Nat.add_right_cancel_iff] at hl
        simp only [List.map_cons, h.1.2, ih ys hl h.2]
  · simp [hl] at h

/-! ## Facts about `CommitAndTransitionShaderResources` -/

theorem verifyCompatible_off (cfg : BuildConfig) (heap : Heap) (this : Nat)
    (srb0 : ShaderResourceBindingD3D12Impl) (h : cfg.VERIFY_SHADER_BINDINGS = false) :
    PipelineStateD3D12Impl.verifyCompatible cfg heap this srb0 =
      some { result := false, events := [] } := by
  simp [PipelineStateD3D12Impl.verifyCompatible, h]

theorem verifyCompatible_self (cfg : BuildConfig) (heap : Heap) (this : Nat)
    (srb0 : ShaderResourceBindingD3D12Impl) (h : srb0.m_pPSO = this) :
    PipelineStateD3D12Impl.verifyCompatible cfg heap this srb0 =
      some { result := false, events := [] } := by
  unfold PipelineStateD3D12Impl.verifyCompatible PipelineStateD3D12Impl.IsIncompatibleWith
  rw [h, IsCompatibleWith_self]
  cases cfg.VERIFY_SHADER_BINDINGS <;> simp

theorem verifyCompatible_on (cfg : BuildConfig) (heap : Heap) (this : Nat)
    (srb0 : ShaderResourceBindingD3D12Impl) (c : CompatResult)
    (h : cfg.VERIFY_SHADER_BINDINGS = true)
    (hc : PipelineStateD3D12Impl.IsCompatibleWith cfg heap this srb0.m_pPSO = some c) :
    PipelineStateD3D12Impl.verifyCompatible cfg heap this srb0 =
      some { result := !c.result, events := c.events } := by
  simp [PipelineStateD3D12Impl.verifyCompatible, PipelineStateD3D12Impl.IsIncompatibleWith, h, hc]

/-- `IsCompatibleWith` returns whenever both addresses hold pipeline states. -/
theorem IsCompatibleWith_total (cfg : BuildConfig) (heap : Heap) (A B : Nat)
    (a b : PipelineStateD3D12Impl) (ha : heap.psos A = some a) (hb : heap.psos B = some b) :
    ∃ c, PipelineStateD3D12Impl.IsCompatibleWith cfg heap A B = some c := by
  by_cases h : B = A
  · subst h
    exact ⟨_, IsCompatibleWith_self ..⟩
  · exact ⟨_, IsCompatibleWith_ne cfg heap A B a b h ha hb⟩

/-- The events of `IsCompatibleWith` are failed assertions only. -/
theorem IsCompatibleWith_events (cfg : BuildConfig) (heap : Heap) (A B : Nat) (c : CompatResult)
    (h : PipelineStateD3D12Impl.IsCompatibleWith cfg heap A B = some c) :
    c.events = [] ∨
      c.events = [Event.AssertionFailed Message.CompatibleShadersSameRootSignatures] := by
  unfold PipelineStateD3D12Impl.IsCompatibleWith at h
  split at h
  · cases h
    exact Or.inl rfl
  · split at h
    · split at h
      · cases h
        exact Or.inl rfl
      · cases h
        dsimp only
        split
        · exact Or.inr rfl
        · exact Or.inl rfl
    · cases h

theorem verifyCompatible_total (cfg : BuildConfig) (heap : Heap) (this : Nat)
    (srb0 : ShaderResourceBindingD3D12Impl) (p q : PipelineStateD3D12Impl)
    (hp : heap.psos this = some p) (hq : heap.psos srb0.m_pPSO = some q) :
    ∃ c, PipelineStateD3D12Impl.verifyCompatible cfg heap this srb0 = some c := by
  cases hv : cfg.VERIFY_SHADER_BINDINGS with
  | false => exact ⟨_, verifyCompatible_off cfg heap this srb0 hv⟩
  | true =>
    obtain ⟨c, hc⟩ := IsCompatibleWith_total cfg heap this srb0.m_pPSO p q hp hq
    exact ⟨_, verifyCompatible_on cfg heap this srb0 c hv hc⟩

theorem verifyCompatible_events (cfg : BuildConfig) (heap : Heap) (this : Nat)
    (srb0 : ShaderResourceBindingD3D12Impl) (c : CompatResult)
    (h : PipelineStateD3D12Impl.verifyCompatible cfg heap this srb0 = some c) :
    c.events = [] ∨
      c.events = [Event.AssertionFailed Message.CompatibleShadersSameRootSignatures] := by
  unfold PipelineStateD3D12Impl.verifyCompatible at h
  split at h
  · unfold PipelineStateD3D12Impl.IsIncompatibleWith at h
    cases hc : PipelineStateD3D12Impl.IsCompatibleWith cfg heap this srb0.m_pPSO with
    | none => simp [hc] at h
    | some c0 =>
      simp only [hc, Option.map_some', Option.some.injEq] at h
      subst h
      exact IsCompatibleWith_events cfg heap this srb0.m_pPSO c0 hc
  · cases h
    exact Or.inl rfl

/-- The call skips an SRB that the verification reports as incompatible. -/
theorem commit_skip (cfg : BuildConfig) (heap : Heap) (this : Nat) (pSRB : Option Nat)
    (Ctx : CommandContext) (commit transition : Bool) (p : PipelineStateD3D12Impl)
    (s : ShaderResourceBindingD3D12Impl) (c : CompatResult)
    (hp : heap.psos this = some p) (hs : heap.srbs (p.resolveSRB pSRB) = some s)
    (hc : PipelineStateD3D12Impl.verifyCompatible cfg heap this s = some c)
    (hr : c.result = true) :
    PipelineStateD3D12Impl.CommitAndTransitionShaderResources cfg heap this pSRB Ctx commit
        transition =
      some { ret := none, heap := heap, Ctx := Ctx,
             events := p.verifyNullSRB cfg pSRB ++ c.events ++
               [Event.LogError Message.IncompatibleSRB] } := by
  simp [PipelineStateD3D12Impl.CommitAndTransitionShaderResources, hp, hs, hc, hr]

/-- The call runs its second half on an SRB that passes the verification. -/
theorem commit_run (cfg : BuildConfig) (heap : Heap) (this : Nat) (pSRB : Option Nat)
    (Ctx : CommandContext) (commit transition : Bool) (p : PipelineStateD3D12Impl)
    (s : ShaderResourceBindingD3D12Impl) (c : CompatResult)
    (hp : heap.psos this = some p) (hs : heap.srbs (p.resolveSRB pSRB) = some s)
    (hc : PipelineStateD3D12Impl.verifyCompatible cfg heap this s = some c)
    (hr : c.result = false) :
    PipelineStateD3D12Impl.CommitAndTransitionShaderResources cfg heap this pSRB Ctx commit
        transition =
      some { ret := some (p.resolveSRB pSRB),
             heap := (p.commitResolved cfg heap this (p.resolveSRB pSRB) s Ctx commit
               transition).heap,
             Ctx := (p.commitResolved cfg heap this (p.resolveSRB pSRB) s Ctx commit
               transition).Ctx,
             events := p.verifyNullSRB cfg pSRB ++ c.events ++
               (p.commitResolved cfg heap this (p.resolveSRB pSRB) s Ctx commit
                 transition).events } := by
  simp [PipelineStateD3D12Impl.CommitAndTransitionShaderResources, hp, hs, hc, hr,
    PipelineStateD3D12Impl.commitResolved]

/-- The commands of the second half of a call. -/
theorem recordCommands_commands (p : PipelineStateD3D12Impl) (cfg : BuildConfig)
    (cache : ShaderResourceCacheD3D12) (Ctx : CommandContext) (commit transition : Bool) :
    (p.recordCommands cfg cache Ctx commit transition).1.2.commands =
      Ctx.commands ++
        ((if commit then [p.setRootSignatureCommand] else []) ++
         (if commit && !transition then []
          else cache.pendingTransitions.map Command.TransitionResource) ++
         (if commit then
            [Command.CommitDescriptorHandles p.m_Desc.IsComputePipeline cache.descriptorHandles]
          else [])) := by
  cases commit <;> cases transition <;> cases hc : p.m_Desc.IsComputePipeline <;>
    simp [PipelineStateD3D12Impl.recordCommands, PipelineStateD3D12Impl.setRootSignatureCommand,
      RootSignature.TransitionResources, RootSignature.CommitDescriptorHandles,
      RootSignature.TransitionAndCommitDescriptorHandles, hc]

theorem recordCommands_events (p : PipelineStateD3D12Impl) (cfg : BuildConfig)
    (cache : ShaderResourceCacheD3D12) (Ctx : CommandContext) (commit transition : Bool) :
    (p.recordCommands cfg cache Ctx commit transition).2 =
      if !commit && cfg.DEBUG && !transition then
        [Event.AssertionFailed Message.TransitionedOrCommittedOrBoth]
      else [] := by
  cases commit <;> cases transition <;> cases hd : cfg.DEBUG <;>
    simp [PipelineStateD3D12Impl.recordCommands, hd]

theorem InitializeStaticResources_cache (s : ShaderResourceBindingD3D12Impl) (pPSO : Nat) :
    (s.InitializeStaticResources pPSO).m_ShaderResourceCache.pendingTransitions =
        s.m_ShaderResourceCache.pendingTransitions ∧
    (s.InitializeStaticResources pPSO).m_ShaderResourceCache.descriptorHandles =
        s.m_ShaderResourceCache.descriptorHandles := ⟨rfl, rfl⟩

/-- The commands of a call that is not skipped. -/
theorem commitResolved_commands (p : PipelineStateD3D12Impl) (cfg : BuildConfig) (heap : Heap)
    (this r : Nat) (s : ShaderResourceBindingD3D12Impl) (Ctx : CommandContext)
    (commit transition : Bool) :
    (p.commitResolved cfg heap this r s Ctx commit transition).Ctx.commands =
      Ctx.commands ++
        ((if commit then [p.setRootSignatureCommand] else []) ++
         (if commit && !transition then []
          else s.m_ShaderResourceCache.pendingTransitions.map Command.TransitionResource) ++
         (if commit then
            [Command.CommitDescriptorHandles p.m_Desc.IsComputePipeline
              s.m_ShaderResourceCache.descriptorHandles]
          else [])) := by
  unfold PipelineStateD3D12Impl.commitResolved
  simp only [recordCommands_commands]
  cases s.m_bStaticResourcesInitialized <;>
    simp [ShaderResourceBindingD3D12Impl.InitializeStaticResources]

theorem commitResolved_events (p : PipelineStateD3D12Impl) (cfg : BuildConfig) (heap : Heap)
    (this r : Nat) (s : ShaderResourceBindingD3D12Impl) (Ctx : CommandContext)
    (commit transition : Bool) :
    (p.commitResolved cfg heap this r s Ctx commit transition).events =
      (if s.m_bStaticResourcesInitialized then [] else [Event.InitializeStaticResources r this]) ++
      (if cfg.VERIFY_SHADER_BINDINGS then [Event.dbgVerifyResourceBindings r this] else []) ++
      (if !commit && cfg.DEBUG && !transition then
        [Event.AssertionFailed Message.TransitionedOrCommittedOrBoth]
      else []) := by
  unfold PipelineStateD3D12Impl.commitResolved
  simp only [recordCommands_events]
  cases s.m_bStaticResourcesInitialized <;> simp

theorem GetTotalSrvCbvUavSlots_static (rs : RootSignature) (t : SHADER_VARIABLE_TYPE)
    (ht : t ≠ SHADER_VARIABLE_TYPE.STATIC)
    (h : ∀ x ∈ rs.tuples, x.variableType = SHADER_VARIABLE_TYPE.STATIC) :
    rs.GetTotalSrvCbvUavSlots t = 0 := by
  unfold RootSignature.GetTotalSrvCbvUavSlots
  have : rs.tuples.filter (fun x => x.kind.isSrvCbvUav && decide (x.variableType = t)) = [] := by
    rw [List.filter_eq_nil_iff]
    intro x hx
    simp [h x hx, Ne.symm ht]
  rw [this]
  rfl

/-- An SRB whose pipeline state is compatible passes the verification. -/
theorem verifyCompatible_of_compatible (cfg : BuildConfig) (heap : Heap) (this : Nat)
    (s : ShaderResourceBindingD3D12Impl) (c c' : CompatResult)
    (hc' : PipelineStateD3D12Impl.IsCompatibleWith cfg heap this s.m_pPSO = some c')
    (hr' : c'.result = true)
    (hc : PipelineStateD3D12Impl.verifyCompatible cfg heap this s = some c) :
    c.result = false := by
  cases hv : cfg.VERIFY_SHADER_BINDINGS with
  | false =>
    rw [verifyCompatible_off cfg heap this s hv] at hc
    cases hc
    rfl
  | true =>
    rw [verifyCompatible_on cfg heap this s c' hv hc'] at hc
    cases hc
    simp [hr']

/-- With neither flag set the second half of a call leaves the heap and the
context it leaves when only `TransitionResources` is set. -/
theorem commitResolved_neither (p : PipelineStateD3D12Impl) (cfg : BuildConfig) (heap : Heap)
    (this r : Nat) (s : ShaderResourceBindingD3D12Impl) (Ctx : CommandContext) :
    (p.commitResolved cfg heap this r s Ctx false false).heap =
        (p.commitResolved cfg heap this r s Ctx false true).heap ∧
    (p.commitResolved cfg heap this r s Ctx false false).Ctx =
        (p.commitResolved cfg heap this r s Ctx false true).Ctx := ⟨rfl, rfl⟩

theorem transitions_isTransition (l : List Nat) :
    ∀ c ∈ l.map Command.TransitionResource,
      c.isTransition = true ∧ c.isSetRootSignature = false ∧ c.isCommit = false := by
  intro c hc
  obtain ⟨r, -, rfl⟩ := List.mem_map.mp hc
  exact ⟨rfl, rfl, rfl⟩

theorem setRootSignatureCommand_kind (p : PipelineStateD3D12Impl) :
    p.setRootSignatureCommand.isSetRootSignature = true ∧
    p.setRootSignatureCommand.isCommit = false ∧
    p.setRootSignatureCommand.isTransition = false := by
  unfold PipelineStateD3D12Impl.setRootSignatureCommand
  split <;> exact ⟨rfl, rfl, rfl⟩

/-- In the command sequence of a call no descriptor commit comes before a
transition. -/
theorem TransitionsPrecedeCommits_recorded (first : List Command) (pending : List Nat)
    (last : List Command) (hfirst : ∀ c ∈ first, c.isCommit = false)
    (hlast : ∀ c ∈ last, c.isTransition = false) :
    TransitionsPrecedeCommits (first ++ pending.map Command.TransitionResource ++ last) := by
  unfold TransitionsPrecedeCommits
  have hnc : ∀ c ∈ first ++ pending.map Command.TransitionResource, c.isCommit = false := by
    intro c hc
    rcases List.mem_append.mp hc with h | h
    · exact hfirst c h
    · exact (transitions_isTransition pending c h).2.2
  have hpre : ∀ l : List Command, (∀ c ∈ l, c.isCommit = false) →
      l.Pairwise (fun x y => ¬ (x.isCommit = true ∧ y.isTransition = true)) := by
    intro l hl
    induction l with
    | nil => exact List.Pairwise.nil
    | cons x xs ih =>
      refine List.Pairwise.cons ?_ (ih (fun c hc => hl c (List.mem_cons_of_mem _ hc)))
      intro y _ hxy
      have := hl x (List.mem_cons_self _ _)
      simp [this] at hxy
  have hpost : ∀ l : List Command, (∀ c ∈ l, c.isTransition = false) →
      l.Pairwise (fun x y => ¬ (x.isCommit = true ∧ y.isTransition = true)) := by
    intro l hl
    induction l with
    | nil => exact List.Pairwise.nil
    | cons x xs ih =>
      refine List.Pairwise.cons ?_ (ih (fun c hc => hl c (List.mem_cons_of_mem _ hc)))
      intro y hy hxy
      have := hl y (List.mem_cons_of_mem _ hy)
      simp [this] at hxy
  rw [List.pairwise_append]
  refine ⟨hpre _ hnc, hpost _ hlast, ?_⟩
  intro x hx y hy hxy
  have := hlast y hy
  simp [this] at hxy

/-! ## Facts about the one-shot initialization -/

theorem initCount_append (s : Nat) (a b : List Event) :
    initCount s (a ++ b) = initCount s a + initCount s b := by
  simp [initCount, List.countP_append]

theorem initCount_verifyNullSRB (p : PipelineStateD3D12Impl) (cfg : BuildConfig)
    (pSRB : Option Nat) (s : Nat) : initCount s (p.verifyNullSRB cfg pSRB) = 0 := by
  unfold PipelineStateD3D12Impl.verifyNullSRB
  split <;> rfl

theorem initCount_verifyCompatible (cfg : BuildConfig) (heap : Heap) (this : Nat)
    (srb0 : ShaderResourceBindingD3D12Impl) (c : CompatResult) (s : Nat)
    (h : PipelineStateD3D12Impl.verifyCompatible cfg heap this srb0 = some c) :
    initCount s c.events = 0 := by
  rcases verifyCompatible_events cfg heap this srb0 c h with h | h <;> rw [h] <;> rfl

theorem initCount_commitResolved (p : PipelineStateD3D12Impl) (cfg : BuildConfig) (heap : Heap)
    (this r : Nat) (s0 : ShaderResourceBindingD3D12Impl) (Ctx : CommandContext)
    (commit transition : Bool) (s : Nat) :
    initCount s (p.commitResolved cfg heap this r s0 Ctx commit transition).events =
      if s0.m_bStaticResourcesInitialized = false ∧ r = s then 1 else 0 := by
  rw [commitResolved_events]
  cases hf : s0.m_bStaticResourcesInitialized <;> by_cases hrs : r = s <;>
    cases cfg.VERIFY_SHADER_BINDINGS <;> cases commit <;> cases cfg.DEBUG <;>
    cases transition <;>
    simp [initCount, Event.isInitOf, hrs]

theorem staticsInitialized_commitResolved (p : PipelineStateD3D12Impl) (cfg : BuildConfig)
    (heap : Heap) (this r : Nat) (s0 : ShaderResourceBindingD3D12Impl) (Ctx : CommandContext)
    (commit transition : Bool) (s : Nat) :
    (p.commitResolved cfg heap this r s0 Ctx commit transition).heap.staticsInitialized s =
      if s = r then true else heap.staticsInitialized s := by
  unfold PipelineStateD3D12Impl.commitResolved Heap.staticsInitialized Heap.setSRB
  by_cases hsr : s = r
  · cases hf : s0.m_bStaticResourcesInitialized <;>
      simp [hsr, hf, ShaderResourceBindingD3D12Impl.InitializeStaticResources]
  · simp [hsr]

/-- One call: the static-resource copy of an SRB runs at most once, not at all
when the flag of the SRB is set, and it leaves the flag set. -/
theorem commit_step_init (cfg : BuildConfig) (heap : Heap) (this : Nat) (pSRB : Option Nat)
    (Ctx : CommandContext) (commit transition : Bool) (out : CommitOutcome) (s : Nat)
    (h : PipelineStateD3D12Impl.CommitAndTransitionShaderResources cfg heap this pSRB Ctx commit
      transition = some out) :
    initCount s out.events ≤ 1 ∧
    (heap.staticsInitialized s = true →
      initCount s out.events = 0 ∧ out.heap.staticsInitialized s = true) ∧
    (initCount s out.events = 1 → out.heap.staticsInitialized s = true) := by
  cases hp : heap.psos this with
  | none => simp [PipelineStateD3D12Impl.CommitAndTransitionShaderResources, hp] at h
  | some p =>
    cases hs : heap.srbs (p.resolveSRB pSRB) with
    | none => simp [PipelineStateD3D12Impl.CommitAndTransitionShaderResources, hp, hs] at h
    | some s0 =>
      cases hc : PipelineStateD3D12Impl.verifyCompatible cfg heap this s0 with
      | none => simp [PipelineStateD3D12Impl.CommitAndTransitionShaderResources, hp, hs, hc] at h
      | some c =>
        have hc0 := initCount_verifyCompatible cfg heap this s0 c s hc
        have hn0 := initCount_verifyNullSRB p cfg pSRB s
        cases hr : c.result with
        | true =>
          rw [commit_skip cfg heap this pSRB Ctx commit transition p s0 c hp hs hc hr] at h
          cases h
          have hz : initCount s (p.verifyNullSRB cfg pSRB ++ c.events ++
              [Event.LogError Message.IncompatibleSRB]) = 0 := by
            rw [initCount_append, initCount_append, hc0, hn0]
            rfl
          simp only [hz]
          simp
        | false =>
          rw [commit_run cfg heap this pSRB Ctx commit transition p s0 c hp hs hc hr] at h
          cases h
          have hz : initCount s (p.verifyNullSRB cfg pSRB ++ c.events ++
              (p.commitResolved cfg heap this (p.resolveSRB pSRB) s0 Ctx commit
                transition).events) =
              if s0.m_bStaticResourcesInitialized = false ∧ p.resolveSRB pSRB = s then 1
              else 0 := by
            rw [initCount_append, initCount_append, hc0, hn0, initCount_commitResolved]
            simp
          simp only [hz, staticsInitialized_commitResolved]
          by_cases hrs : p.resolveSRB pSRB = s
          · subst hrs
            cases hf : s0.m_bStaticResourcesInitialized <;>
              simp [Heap.staticsInitialized, hs, hf]
          · have hsr : ¬ s = p.resolveSRB pSRB := fun h => hrs h.symm
            simp [hrs, hsr]

/-- A sequence of calls: the static-resource copy of an SRB runs at most once
in total, and not at all when the flag of the SRB is set at the start. -/
theorem runCommits_init (cfg : BuildConfig) (s : Nat) (calls : List CommitCall) :
    ∀ heap : Heap,
      initCount s (runCommits cfg heap calls).2.flatten ≤ 1 ∧
      (heap.staticsInitialized s = true →
        initCount s (runCommits cfg heap calls).2.flatten = 0) := by
  induction calls with
  | nil =>
    intro heap
    simp [runCommits, initCount]
  | cons c cs ih =>
    intro heap
    unfold runCommits
    cases h : PipelineStateD3D12Impl.CommitAndTransitionShaderResources cfg heap c.this
        c.pShaderResourceBinding c.Ctx c.CommitResources c.TransitionResources with
    | none => simp [initCount]
    | some out =>
      obtain ⟨h1, h2, h3⟩ := commit_step_init cfg heap c.this c.pShaderResourceBinding c.Ctx
        c.CommitResources c.TransitionResources out s h
      obtain ⟨i1, i2⟩ := ih out.heap
      simp only [List.flatten_cons, initCount_append]
      constructor
      · by_cases h0 : initCount s out.events = 0
        · omega
        · have h1' : initCount s out.events = 1 := by omega
          have := i2 (h3 h1')
          omega
      · intro hf
        obtain ⟨z, hf'⟩ := h2 hf
        have := i2 hf'
        omega

/-- The first call that returns the cache of an SRB whose flag is not set runs
the static-resource copy of that SRB exactly once and sets the flag. -/
theorem commit_first_init (cfg : BuildConfig) (heap : Heap) (this : Nat) (pSRB : Option Nat)
    (Ctx : CommandContext) (commit transition : Bool) (out : CommitOutcome) (a : Nat)
    (h : PipelineStateD3D12Impl.CommitAndTransitionShaderResources cfg heap this pSRB Ctx commit
      transition = some out)
    (hret : out.ret = some a) (hf : heap.staticsInitialized a = false) :
    initCount a out.events = 1 ∧ out.heap.staticsInitialized a = true := by
  cases hp : heap.psos this with
  | none => simp [PipelineStateD3D12Impl.CommitAndTransitionShaderResources, hp] at h
  | some p =>
    cases hs : heap.srbs (p.resolveSRB pSRB) with
    | none => simp [PipelineStateD3D12Impl.CommitAndTransitionShaderResources, hp, hs] at h
    | some s0 =>
      cases hc : PipelineStateD3D12Impl.verifyCompatible cfg heap this s0 with
      | none => simp [PipelineStateD3D12Impl.CommitAndTransitionShaderResources, hp, hs, hc] at h
      | some c =>
        cases hr : c.result with
        | true =>
          rw [commit_skip cfg heap this pSRB Ctx commit transition p s0 c hp hs hc hr] at h
          cases h
          cases hret
        | false =>
          rw [commit_run cfg heap this pSRB Ctx commit transition p s0 c hp hs hc hr] at h
          cases h
          simp only [Option.some.injEq] at hret
          subst hret
          have hflag : s0.m_bStaticResourcesInitialized = false := by
            simpa [Heap.staticsInitialized, hs] using hf
          rw [initCount_append, initCount_append, initCount_verifyNullSRB,
            initCount_verifyCompatible cfg heap this s0 c _ hc, initCount_commitResolved,
            staticsInitialized_commitResolved]
          simp [hflag]

/-- An example run: over the three calls `exCalls` the static resources of the
SRB at address 20 are copied once, by the first call. -/
theorem runCommits_example :
    (runCommits debugBuild exHeap4 exCalls).2.map (initCount 20) = [1, 0, 0] := by
  decide

/-- Whatever the hash function, there are two distinct pipeline states whose
hashes are the hashes of their root signatures and are equal, and which the
release build nevertheless reports as not compatible. -/
theorem IsCompatibleWith_collision (hashFn : List LayoutTuple → Nat) :
    ∃ (heap : Heap) (a b : PipelineStateD3D12Impl),
      heap.psos 1 = some a ∧ heap.psos 2 = some b ∧
      a.m_ShaderResourceLayoutHash = a.m_RootSig.GetHash hashFn ∧
      b.m_ShaderResourceLayoutHash = b.m_RootSig.GetHash hashFn ∧
      a.m_ShaderResourceLayoutHash = b.m_ShaderResourceLayoutHash ∧
      PipelineStateD3D12Impl.IsCompatibleWith releaseBuild heap 1 2 =
        some { result := false, events := [] } := by
  obtain ⟨r1, r2, hsame, hhash⟩ := GetHash_collision hashFn
  let a : PipelineStateD3D12Impl :=
    { exPSO200 with m_RootSig := r1, m_ShaderResourceLayoutHash := r1.GetHash hashFn }
  let b : PipelineStateD3D12Impl :=
    { exPSO200 with m_RootSig := r2, m_ShaderResourceLayoutHash := r2.GetHash hashFn }
  refine ⟨(Heap.empty.setPSO 1 a).setPSO 2 b, a, b, rfl, rfl, rfl, rfl, hhash, ?_⟩
  rw [IsCompatibleWith_ne releaseBuild _ 1 2 a b (by decide) rfl rfl]
  simp [a, b, hsame, releaseBuild]

/-! ## Compatibility -/

/-- C7: two pipeline states built, with the same hash function, from identical
ordered per-stage resource declarations (the same kind, visibility,
variableType and arraySize at every slot of every stage; names may differ)
are compatible in both directions:
`IsCompatibleWith(A, B)` and `IsCompatibleWith(B, A)` both return true, in
every build and without raising an assertion. -/
theorem IsCompatibleWith_of_identical_declarations (cfg : BuildConfig)
    (devA devB : RenderDeviceD3D12Impl) (heap : Heap) (A B : Nat)
    (descA descB : PipelineStateDesc)
    (hdev : devA.hashFn = devB.hashFn)
    (hA : HoldsBuilt heap A devA descA) (hB : HoldsBuilt heap B devB descB)
    (hsame : descA.GetShaders.map (fun sh => sh.resources.map ResourceSlot.tuple) =
      descB.GetShaders.map (fun sh => sh.resources.map ResourceSlot.tuple)) :
    PipelineStateD3D12Impl.IsCompatibleWith cfg heap A B =
        some { result := true, events := [] } ∧
    PipelineStateD3D12Impl.IsCompatibleWith cfg heap B A =
        some { result := true, events := [] } := by
  obtain ⟨a, ha, hba⟩ := hA
  obtain ⟨b, hb, hbb⟩ := hB
  obtain ⟨-, -, hta, hha⟩ := hba.members
  obtain ⟨-, -, htb, hhb⟩ := hbb.members
  have ht : a.m_RootSig.tuples = b.m_RootSig.tuples := by
    rw [hta, htb, PipelineStateDesc.declaredTuples, PipelineStateDesc.declaredTuples, hsame]
  have hh : a.m_ShaderResourceLayoutHash = b.m_ShaderResourceLayoutHash := by
    rw [hha, hhb, RootSignature.GetHash, RootSignature.GetHash, ht, hdev]
  by_cases hAB : B = A
  · subst hAB
    exact ⟨IsCompatibleWith_self .., IsCompatibleWith_self ..⟩
  · constructor
    · rw [IsCompatibleWith_ne cfg heap A B a b hAB ha hb]
      simp [hh, RootSignature.IsSameAs, ht]
    · rw [IsCompatibleWith_ne cfg heap B A b a (fun h => hAB h.symm) hb ha]
      simp [hh, RootSignature.IsSameAs, ht]

/-- Witness for C7: the pipeline states at addresses 100 and 400 of `exHeap5`
declare the same constant buffer under different names. -/
theorem IsCompatibleWith_of_identical_declarations_witness :
    PipelineStateD3D12Impl.IsCompatibleWith debugBuild exHeap5 100 400 =
        some { result := true, events := [] } ∧
    PipelineStateD3D12Impl.IsCompatibleWith debugBuild exHeap5 400 100 =
        some { result := true, events := [] } :=
  IsCompatibleWith_of_identical_declarations debugBuild exDevice exDevice10 exHeap5 100 400
    (exDesc [exCB]) (exDesc [{ exCB with name := "cbCamera" }]) rfl
    ⟨_, rfl, Heap.empty, 100, rfl, rfl⟩ ⟨_, rfl, exHeap4, 400, rfl, rfl⟩ (by decide)

/-- C8: two pipeline states whose ordered sequences of declared
`(kind, visibility, variableType, arraySize)` tuples differ at some slot are
not compatible: `IsCompatibleWith(A, B)` returns false, in every build and
without raising an assertion. -/
theorem IsCompatibleWith_false_of_differing_slot (cfg : BuildConfig)
    (devA devB : RenderDeviceD3D12Impl) (heap : Heap) (A B : Nat)
    (descA descB : PipelineStateDesc)
    (hA : HoldsBuilt heap A devA descA) (hB : HoldsBuilt heap B devB descB)
    (hdiff : ∃ i : Nat, descA.declaredTuples[i]? ≠ descB.declaredTuples[i]?) :
    PipelineStateD3D12Impl.IsCompatibleWith cfg heap A B =
        some { result := false, events := [] } := by
  obtain ⟨a, ha, hba⟩ := hA
  obtain ⟨b, hb, hbb⟩ := hB
  obtain ⟨hda, hsa, hta, -⟩ := hba.members
  obtain ⟨hdb, hsb, htb, -⟩ := hbb.members
  obtain ⟨i, hi⟩ := hdiff
  have hne : descA.declaredTuples ≠ descB.declaredTuples := fun h => hi (by rw [h])
  have hAB : B ≠ A := by
    intro h
    subst h
    rw [ha] at hb
    cases hb
    exact hne (by rw [← hda, ← hdb])
  have hsame : a.m_RootSig.IsSameAs b.m_RootSig = false := by
    simp [RootSignature.IsSameAs, hta, htb, hne]
  have hshaders : a.IsCompatibleShaders b = false := by
    cases hc : a.IsCompatibleShaders b with
    | false => rfl
    | true =>
      exfalso
      apply hne
      have := IsCompatibleShaders_tuples a b hc
      rw [hsa, hsb] at this
      rw [PipelineStateDesc.declaredTuples, PipelineStateDesc.declaredTuples, this]
  rw [IsCompatibleWith_ne cfg heap A B a b hAB ha hb]
  simp [hsame, hshaders]

/-- Witness for C8: the pipeline states at addresses 200 and 300 of `exHeap5`
differ at slot 0 in kind (constant buffer against texture). -/
theorem IsCompatibleWith_false_of_differing_slot_witness :
    PipelineStateD3D12Impl.IsCompatibleWith debugBuild exHeap5 200 300 =
        some { result := false, events := [] } :=
  IsCompatibleWith_false_of_differing_slot debugBuild exDevice8 exDevice9 exHeap5 200 300
    (exDesc [exCB, exTex]) (exDesc [exTexStatic, exCBMutable])
    ⟨_, rfl, exHeap1, 200, rfl, rfl⟩
    ⟨_, rfl, (PipelineStateD3D12Impl.construct exDevice8 exHeap1 200
      (exDesc [exCB, exTex])).heap, 300, rfl, rfl⟩
    ⟨0, by decide⟩

/-- C9 as stated fails: in the release build the two distinct pipeline states
at addresses 200 and 300 of `exHeap3` have equal compatibility hashes, yet
`IsCompatibleWith` returns false, because their root signatures differ (one
declares a static constant buffer and a mutable texture, the other a static
texture and a mutable constant buffer). -/
theorem IsCompatibleWith_hash_equal_not_compatible :
    releaseBuild.DEBUG = false ∧
    exHeap3.psos 200 = some exPSO200 ∧ exHeap3.psos 300 = some exPSO300 ∧
    exPSO200.m_ShaderResourceLayoutHash = exPSO300.m_ShaderResourceLayoutHash ∧
    PipelineStateD3D12Impl.IsCompatibleWith releaseBuild exHeap3 200 300 =
      some { result := false, events := [] } := by
  decide

/-- C9, amended: in a release build, for distinct pipeline states A and B,
`IsCompatibleWith(A, B)` returns true if and only if their compatibility
hashes are equal and the root-signature comparison `IsSameAs` succeeds; the
per-shader comparison of the debug block has no part in it, and no assertion
is raised. -/
theorem IsCompatibleWith_release (cfg : BuildConfig) (heap : Heap) (A B : Nat)
    (a b : PipelineStateD3D12Impl) (hrel : cfg.DEBUG = false) (hne : A ≠ B)
    (ha : heap.psos A = some a) (hb : heap.psos B = some b) :
    ∃ r, PipelineStateD3D12Impl.IsCompatibleWith cfg heap A B = some r ∧ r.events = [] ∧
      (r.result = true ↔
        (a.m_ShaderResourceLayoutHash = b.m_ShaderResourceLayoutHash ∧
         a.m_RootSig.IsSameAs b.m_RootSig = true)) := by
  refine ⟨_, IsCompatibleWith_ne cfg heap A B a b (fun h => hne h.symm) ha hb, ?_, ?_⟩
  · simp [hrel]
  · simp

/-- Witness for C9, amended: the pipeline states at addresses 200 and 300 of
`exHeap3` in the release build. -/
theorem IsCompatibleWith_release_witness :
    ∃ r, PipelineStateD3D12Impl.IsCompatibleWith releaseBuild exHeap3 200 300 = some r ∧
      r.events = [] ∧
      (r.result = true ↔
        (exPSO200.m_ShaderResourceLayoutHash = exPSO300.m_ShaderResourceLayoutHash ∧
         exPSO200.m_RootSig.IsSameAs exPSO300.m_RootSig = true)) :=
  IsCompatibleWith_release releaseBuild exHeap3 200 300 exPSO200 exPSO300
    rfl (by decide) (by decide) (by decide)

/-- C10: `IsCompatibleWith` is reflexive.  For every address `A`, whatever the
heap holds (any hash, any root signature, any build), `IsCompatibleWith(A, A)`
returns true and raises no assertion: the answer comes from the pointer
comparison alone. -/
theorem IsCompatibleWith_reflexive (cfg : BuildConfig) (heap : Heap) (A : Nat) :
    PipelineStateD3D12Impl.IsCompatibleWith cfg heap A A =
      some { result := true, events := [] } := by
  simp [PipelineStateD3D12Impl.IsCompatibleWith]

/-! ## Commit and transition -/

/-- C1: on a built pipeline state, `CommitAndTransitionShaderResources` called
with a null SRB works on the default SRB of the pipeline state: the call
returns, the cache it returns is the cache of the default SRB, and the
returned cache, the recorded commands and the heap are those of the same call
made with the default SRB passed explicitly.  When the pipeline state declares
no mutable or dynamic slot and `CommitResources` is true, the call succeeds:
it returns that cache, and the method logs no error and raises no assertion. -/
theorem CommitAndTransitionShaderResources_null_uses_default (cfg : BuildConfig) (heap : Heap)
    (this : Nat) (Ctx : CommandContext) (CommitResources TransitionResources : Bool)
    (hb : BuiltPSO heap this) :
    ∃ p out, heap.psos this = some p ∧
      PipelineStateD3D12Impl.CommitAndTransitionShaderResources cfg heap this none Ctx
        CommitResources TransitionResources = some out ∧
      out.ret = some p.m_pDefaultShaderResBinding ∧
      (∃ out', PipelineStateD3D12Impl.CommitAndTransitionShaderResources cfg heap this
          (some p.m_pDefaultShaderResBinding) Ctx CommitResources TransitionResources =
            some out' ∧
        out'.ret = out.ret ∧ out'.Ctx = out.Ctx ∧ out'.heap = out.heap) ∧
      ((∀ x ∈ p.m_RootSig.tuples, x.variableType = SHADER_VARIABLE_TYPE.STATIC) →
        CommitResources = true →
        out.ret ≠ none ∧ ∀ e ∈ out.events, e.isError = false) := by
  obtain ⟨p, d, hp, hd, hown⟩ := hb
  have hc := verifyCompatible_self cfg heap this d hown
  have h1 := commit_run cfg heap this none Ctx CommitResources TransitionResources p d _
    hp hd hc rfl
  have h2 := commit_run cfg heap this (some p.m_pDefaultShaderResBinding) Ctx CommitResources
    TransitionResources p d _ hp hd hc rfl
  refine ⟨p, _, hp, h1, rfl, ⟨_, h2, rfl, rfl, rfl⟩, ?_⟩
  intro hstatic hcommit
  refine ⟨by simp, ?_⟩
  intro e he
  have hm := GetTotalSrvCbvUavSlots_static p.m_RootSig SHADER_VARIABLE_TYPE.MUTABLE
    (by decide) hstatic
  have hdy := GetTotalSrvCbvUavSlots_static p.m_RootSig SHADER_VARIABLE_TYPE.DYNAMIC
    (by decide) hstatic
  simp only [PipelineStateD3D12Impl.verifyNullSRB, hm, hdy, commitResolved_events, hcommit] at he
  simp at he
  rcases he with ⟨-, he⟩ | ⟨-, he⟩ <;> (subst he; rfl)

/-- Witness for C1: the pipeline state built at address 100 of `exHeap1`
declares one static constant buffer; its default SRB is at address 7. -/
theorem CommitAndTransitionShaderResources_null_uses_default_witness :
    BuiltPSO exHeap1 100 ∧
    ∃ p out, exHeap1.psos 100 = some p ∧
      PipelineStateD3D12Impl.CommitAndTransitionShaderResources debugBuild exHeap1 100 none
        { commands := [] } true false = some out ∧
      out.ret = some p.m_pDefaultShaderResBinding ∧
      (∃ out', PipelineStateD3D12Impl.CommitAndTransitionShaderResources debugBuild exHeap1 100
          (some p.m_pDefaultShaderResBinding) { commands := [] } true false = some out' ∧
        out'.ret = out.ret ∧ out'.Ctx = out.Ctx ∧ out'.heap = out.heap) ∧
      ((∀ x ∈ p.m_RootSig.tuples, x.variableType = SHADER_VARIABLE_TYPE.STATIC) →
        true = true →
        out.ret ≠ none ∧ ∀ e ∈ out.events, e.isError = false) :=
  ⟨⟨_, _, rfl, rfl, rfl⟩,
   CommitAndTransitionShaderResources_null_uses_default debugBuild exHeap1 100
     { commands := [] } true false ⟨_, _, rfl, rfl, rfl⟩⟩

/-- C2 as stated fails: in the release build, the call with
`CommitResources = false` and `TransitionResources = false` on the pipeline
state at address 200 with the SRB at address 20 is not rejected; it returns
the cache of that SRB and records a resource-state transition. -/
theorem CommitAndTransitionShaderResources_neither_not_rejected :
    ∃ out, PipelineStateD3D12Impl.CommitAndTransitionShaderResources releaseBuild exHeap4 200
        (some 20) { commands := [] } false false = some out ∧
      out.ret = some 20 ∧
      out.Ctx.commands = [Command.TransitionResource 41] ∧
      out.ret ≠ none ∧ out.Ctx.commands ≠ [] :=
  ⟨_, rfl, rfl, rfl, by decide, by decide⟩

/-- C2, amended: the call with `CommitResources = false` and
`TransitionResources = false` is not rejected.  It returns, and it returns the
same cache reference and leaves the same commands and the same heap as the
transition-only call (`CommitResources = false`, `TransitionResources =
true`): it sets no root signature and commits no descriptor handles, every
command it records is a resource-state transition.  The only difference is
that a `_DEBUG` build raises the assertion "Resources should be transitioned
or committed or both" when the call is not skipped. -/
theorem CommitAndTransitionShaderResources_neither (cfg : BuildConfig) (heap : Heap)
    (this : Nat) (pShaderResourceBinding : Option Nat) (Ctx : CommandContext)
    (p q : PipelineStateD3D12Impl) (s : ShaderResourceBindingD3D12Impl)
    (hp : heap.psos this = some p)
    (hs : heap.srbs (p.resolveSRB pShaderResourceBinding) = some s)
    (hq : heap.psos s.m_pPSO = some q) :
    ∃ out out' new,
      PipelineStateD3D12Impl.CommitAndTransitionShaderResources cfg heap this
        pShaderResourceBinding Ctx false false = some out ∧
      PipelineStateD3D12Impl.CommitAndTransitionShaderResources cfg heap this
        pShaderResourceBinding Ctx false true = some out' ∧
      out.ret = out'.ret ∧ out.Ctx = out'.Ctx ∧ out.heap = out'.heap ∧
      out.events = out'.events ++
        (if cfg.DEBUG && out.ret.isSome then
          [Event.AssertionFailed Message.TransitionedOrCommittedOrBoth] else []) ∧
      out.Ctx.commands = Ctx.commands ++ new ∧
      (∀ c ∈ new, c.isTransition = true ∧ c.isSetRootSignature = false ∧ c.isCommit = false) := by
  obtain ⟨c, hc⟩ := verifyCompatible_total cfg heap this s p q hp hq
  cases hr : c.result with
  | true =>
    refine ⟨_, _, [],
      commit_skip cfg heap this pShaderResourceBinding Ctx false false p s c hp hs hc hr,
      commit_skip cfg heap this pShaderResourceBinding Ctx false true p s c hp hs hc hr,
      rfl, rfl, rfl, ?_, ?_, ?_⟩
    · simp
    · simp
    · simp
  | false =>
    refine ⟨_, _, s.m_ShaderResourceCache.pendingTransitions.map Command.TransitionResource,
      commit_run cfg heap this pShaderResourceBinding Ctx false false p s c hp hs hc hr,
      commit_run cfg heap this pShaderResourceBinding Ctx false true p s c hp hs hc hr,
      rfl, rfl, rfl, ?_, ?_, transitions_isTransition _⟩
    · simp only [commitResolved_events]
      cases cfg.DEBUG <;> simp
    · simp only [commitResolved_commands]
      simp

/-- Witness for C2, amended: the debug build, the pipeline state at address
200 of `exHeap4` and its SRB at address 20. -/
theorem CommitAndTransitionShaderResources_neither_witness :
    ∃ out out' new,
      PipelineStateD3D12Impl.CommitAndTransitionShaderResources debugBuild exHeap4 200
        (some 20) { commands := [] } false false = some out ∧
      PipelineStateD3D12Impl.CommitAndTransitionShaderResources debugBuild exHeap4 200
        (some 20) { commands := [] } false true = some out' ∧
      out.ret = out'.ret ∧ out.Ctx = out'.Ctx ∧ out.heap = out'.heap ∧
      out.events = out'.events ++
        (if debugBuild.DEBUG && out.ret.isSome then
          [Event.AssertionFailed Message.TransitionedOrCommittedOrBoth] else []) ∧
      out.Ctx.commands = [] ++ new ∧
      (∀ c ∈ new, c.isTransition = true ∧ c.isSetRootSignature = false ∧ c.isCommit = false) :=
  CommitAndTransitionShaderResources_neither debugBuild exHeap4 200 (some 20)
    { commands := [] } _ _ exBoundSRB rfl rfl rfl

/-- C3: with `CommitResources = false` and `TransitionResources = true` the
call returns and every command it records is a resource-state transition: it
sets no root signature and commits no descriptor handles, whether the pipeline
is a compute or a graphics pipeline.  For an SRB whose pipeline state is
compatible, the call returns the cache of the SRB and the commands recorded
are exactly the pending transitions of that cache. -/
theorem CommitAndTransitionShaderResources_transition_only (cfg : BuildConfig) (heap : Heap)
    (this : Nat) (pShaderResourceBinding : Option Nat) (Ctx : CommandContext)
    (p q : PipelineStateD3D12Impl) (s : ShaderResourceBindingD3D12Impl)
    (hp : heap.psos this = some p)
    (hs : heap.srbs (p.resolveSRB pShaderResourceBinding) = some s)
    (hq : heap.psos s.m_pPSO = some q) :
    ∃ out new,
      PipelineStateD3D12Impl.CommitAndTransitionShaderResources cfg heap this
        pShaderResourceBinding Ctx false true = some out ∧
      out.Ctx.commands = Ctx.commands ++ new ∧
      (∀ c ∈ new, c.isTransition = true ∧ c.isSetRootSignature = false ∧ c.isCommit = false) ∧
      (∀ c, PipelineStateD3D12Impl.IsCompatibleWith cfg heap this s.m_pPSO = some c →
        c.result = true →
        out.ret = some (p.resolveSRB pShaderResourceBinding) ∧
        new = s.m_ShaderResourceCache.pendingTransitions.map Command.TransitionResource) := by
  obtain ⟨c, hc⟩ := verifyCompatible_total cfg heap this s p q hp hq
  cases hr : c.result with
  | true =>
    refine ⟨_, [],
      commit_skip cfg heap this pShaderResourceBinding Ctx false true p s c hp hs hc hr,
      by simp, by simp, ?_⟩
    intro c' hc' hr'
    have := verifyCompatible_of_compatible cfg heap this s c c' hc' hr' hc
    rw [hr] at this
    cases this
  | false =>
    refine ⟨_, s.m_ShaderResourceCache.pendingTransitions.map Command.TransitionResource,
      commit_run cfg heap this pShaderResourceBinding Ctx false true p s c hp hs hc hr,
      ?_, transitions_isTransition _, fun _ _ _ => ⟨rfl, rfl⟩⟩
    simp only [commitResolved_commands]
    simp

/-- Witness for C3: the debug build, the pipeline state at address 200 of
`exHeap4` and its SRB at address 20, on a context that already holds a
command. -/
theorem CommitAndTransitionShaderResources_transition_only_witness :
    ∃ out new,
      PipelineStateD3D12Impl.CommitAndTransitionShaderResources debugBuild exHeap4 200
        (some 20) { commands := [Command.TransitionResource 3] } false true = some out ∧
      out.Ctx.commands = [Command.TransitionResource 3] ++ new ∧
      (∀ c ∈ new, c.isTransition = true ∧ c.isSetRootSignature = false ∧ c.isCommit = false) ∧
      (∀ c, PipelineStateD3D12Impl.IsCompatibleWith debugBuild exHeap4 200 200 = some c →
        c.result = true →
        out.ret = some 20 ∧ new = [Command.TransitionResource 41]) :=
  CommitAndTransitionShaderResources_transition_only debugBuild exHeap4 200 (some 20)
    { commands := [Command.TransitionResource 3] } _ _ exBoundSRB rfl rfl rfl

/-- C4 as stated fails: with `CommitResources = true` and
`TransitionResources = true` the root signature is set before the transition
of resource 41 is recorded, so a binding command precedes a transition. -/
theorem CommitAndTransitionShaderResources_root_signature_first :
    ∃ out, PipelineStateD3D12Impl.CommitAndTransitionShaderResources releaseBuild exHeap4 200
        (some 20) { commands := [] } true true = some out ∧
      out.Ctx.commands =
        [Command.SetGraphicsRootSignature 502, Command.TransitionResource 41,
         Command.CommitDescriptorHandles false [61, 62]] ∧
      ¬ TransitionsPrecedeBindings out.Ctx.commands :=
  ⟨_, rfl, rfl, by decide⟩

/-- C4, amended: for every call with `TransitionResources = true`, every
resource-state transition the call records precedes the commit of the
descriptor handles.  When `CommitResources` is also true the root signature
is set first, before the transitions: a call that is not skipped records the
root signature, then the pending transitions, then the descriptor commit. -/
theorem CommitAndTransitionShaderResources_transitions_precede_commit (cfg : BuildConfig)
    (heap : Heap) (this : Nat) (pShaderResourceBinding : Option Nat) (Ctx : CommandContext)
    (CommitResources : Bool)
    (p q : PipelineStateD3D12Impl) (s : ShaderResourceBindingD3D12Impl)
    (hp : heap.psos this = some p)
    (hs : heap.srbs (p.resolveSRB pShaderResourceBinding) = some s)
    (hq : heap.psos s.m_pPSO = some q) :
    ∃ out new,
      PipelineStateD3D12Impl.CommitAndTransitionShaderResources cfg heap this
        pShaderResourceBinding Ctx CommitResources true = some out ∧
      out.Ctx.commands = Ctx.commands ++ new ∧
      TransitionsPrecedeCommits new ∧
      (out.ret ≠ none →
        new = (if CommitResources then [p.setRootSignatureCommand] else []) ++
          s.m_ShaderResourceCache.pendingTransitions.map Command.TransitionResource ++
          (if CommitResources then
            [Command.CommitDescriptorHandles p.m_Desc.IsComputePipeline
              s.m_ShaderResourceCache.descriptorHandles]
           else [])) := by
  obtain ⟨c, hc⟩ := verifyCompatible_total cfg heap this s p q hp hq
  cases hr : c.result with
  | true =>
    exact ⟨_, [],
      commit_skip cfg heap this pShaderResourceBinding Ctx CommitResources true p s c hp hs hc hr,
      by simp, List.Pairwise.nil, fun h => absurd rfl h⟩
  | false =>
    refine ⟨_, _,
      commit_run cfg heap this pShaderResourceBinding Ctx CommitResources true p s c hp hs hc hr,
      ?_, ?_, fun _ => rfl⟩
    · simp only [commitResolved_commands]
      simp
    · apply TransitionsPrecedeCommits_recorded
      · intro x hx
        split at hx
        · simp only [List.mem_singleton] at hx
          rw [hx]
          exact (setRootSignatureCommand_kind p).2.1
        · simp at hx
      · intro x hx
        split at hx
        · simp only [List.mem_singleton] at hx
          rw [hx]
          rfl
        · simp at hx

/-- Witness for C4, amended: the release build, the pipeline state at address
200 of `exHeap4` and its SRB at address 20, both flags set. -/
theorem CommitAndTransitionShaderResources_transitions_precede_commit_witness :
    ∃ out new,
      PipelineStateD3D12Impl.CommitAndTransitionShaderResources releaseBuild exHeap4 200
        (some 20) { commands := [] } true true = some out ∧
      out.Ctx.commands = [] ++ new ∧
      TransitionsPrecedeCommits new ∧
      (out.ret ≠ none →
        new = [Command.SetGraphicsRootSignature 502] ++ [Command.TransitionResource 41] ++
          [Command.CommitDescriptorHandles false [61, 62]]) :=
  CommitAndTransitionShaderResources_transitions_precede_commit releaseBuild exHeap4 200
    (some 20) { commands := [] } true _ _ exBoundSRB rfl rfl rfl

/-- C5: over every sequence of `CommitAndTransitionShaderResources` calls, each
made on the heap the previous call left, `InitializeStaticResources` runs on a
given SRB at most once in total.  It runs only while the statics-initialized
flag of the SRB is not set: it does not run at all in a sequence that starts
with the flag set, a single call on a heap in which the flag is set neither
runs it nor clears the flag, and the call that returns the cache of an SRB
whose flag is not set runs it exactly once and sets the flag. -/
theorem InitializeStaticResources_at_most_once (cfg : BuildConfig) (heap : Heap) (s : Nat)
    (calls : List CommitCall) :
    initCount s (runCommits cfg heap calls).2.flatten ≤ 1 ∧
    (heap.staticsInitialized s = true →
      initCount s (runCommits cfg heap calls).2.flatten = 0) ∧
    (∀ (c : CommitCall) (out : CommitOutcome),
      PipelineStateD3D12Impl.CommitAndTransitionShaderResources cfg heap c.this
        c.pShaderResourceBinding c.Ctx c.CommitResources c.TransitionResources = some out →
      (heap.staticsInitialized s = true →
        initCount s out.events = 0 ∧ out.heap.staticsInitialized s = true) ∧
      (out.ret = some s → heap.staticsInitialized s = false →
        initCount s out.events = 1 ∧ out.heap.staticsInitialized s = true)) := by
  refine ⟨(runCommits_init cfg s calls heap).1, (runCommits_init cfg s calls heap).2, ?_⟩
  intro c out h
  exact ⟨(commit_step_init cfg heap c.this c.pShaderResourceBinding c.Ctx c.CommitResources
      c.TransitionResources out s h).2.1,
    commit_first_init cfg heap c.this c.pShaderResourceBinding c.Ctx c.CommitResources
      c.TransitionResources out s h⟩

/-- C6 as stated fails: without `VERIFY_SHADER_BINDINGS` the pipeline state at
address 100 accepts the SRB at address 20, whose pipeline state (address 200)
is not compatible with it: the call returns the cache, records commands and
runs the static-resource initialization of the SRB. -/
theorem CommitAndTransitionShaderResources_incompatible_not_skipped :
    PipelineStateD3D12Impl.IsCompatibleWith releaseBuild exHeap4 100 200 =
      some { result := false, events := [] } ∧
    (exHeap4.srbs 20).map (fun s => s.m_pPSO) = some 200 ∧
    ∃ out, PipelineStateD3D12Impl.CommitAndTransitionShaderResources releaseBuild exHeap4 100
        (some 20) { commands := [] } true true = some out ∧
      out.ret = some 20 ∧
      out.Ctx.commands =
        [Command.SetGraphicsRootSignature 501, Command.TransitionResource 41,
         Command.CommitDescriptorHandles false [61, 62]] ∧
      out.events = [Event.InitializeStaticResources 20 100] :=
  ⟨by decide, by decide, _, rfl, rfl, rfl, rfl⟩

/-- C6, amended: in a build with `VERIFY_SHADER_BINDINGS`, a call with an SRB
whose pipeline state is not compatible with the pipeline state is skipped: it
returns null, leaves the context and the heap as they were, logs the error and
runs no static-resource initialization. -/
theorem CommitAndTransitionShaderResources_incompatible_skipped (cfg : BuildConfig)
    (heap : Heap) (this : Nat) (pShaderResourceBinding : Option Nat) (Ctx : CommandContext)
    (CommitResources TransitionResources : Bool)
    (p : PipelineStateD3D12Impl) (s : ShaderResourceBindingD3D12Impl) (c : CompatResult)
    (hver : cfg.VERIFY_SHADER_BINDINGS = true)
    (hp : heap.psos this = some p)
    (hs : heap.srbs (p.resolveSRB pShaderResourceBinding) = some s)
    (hc : PipelineStateD3D12Impl.IsCompatibleWith cfg heap this s.m_pPSO = some c)
    (hr : c.result = false) :
    ∃ out,
      PipelineStateD3D12Impl.CommitAndTransitionShaderResources cfg heap this
        pShaderResourceBinding Ctx CommitResources TransitionResources = some out ∧
      out.ret = none ∧ out.Ctx = Ctx ∧ out.heap = heap ∧
      Event.LogError Message.IncompatibleSRB ∈ out.events ∧
      ∀ a, initCount a out.events = 0 := by
  have hv := verifyCompatible_on cfg heap this s c hver hc
  refine ⟨_, commit_skip cfg heap this pShaderResourceBinding Ctx CommitResources
    TransitionResources p s _ hp hs hv (by simp [hr]), rfl, rfl, rfl, by simp, ?_⟩
  intro a
  rw [initCount_append, initCount_append, initCount_verifyNullSRB,
    initCount_verifyCompatible cfg heap this s _ a hv]
  rfl

/-- Witness for C6, amended: the debug build with binding verification, the
pipeline state at address 100 of `exHeap4` and the SRB at address 20 of the
pipeline state at address 200. -/
theorem CommitAndTransitionShaderResources_incompatible_skipped_witness :
    ∃ out,
      PipelineStateD3D12Impl.CommitAndTransitionShaderResources debugBuild exHeap4 100
        (some 20) { commands := [] } true true = some out ∧
      out.ret = none ∧ out.Ctx = { commands := [] } ∧ out.heap = exHeap4 ∧
      Event.LogError Message.IncompatibleSRB ∈ out.events ∧
      ∀ a, initCount a out.events = 0 :=
  CommitAndTransitionShaderResources_incompatible_skipped debugBuild exHeap4 100 (some 20)
    { commands := [] } true true _ exBoundSRB { result := false, events := [] }
    rfl rfl rfl (by decide) rfl

/-! ## Symmetry of `IsCompatibleWith` -/

theorem IsCompatibleShaders_comm (a b : PipelineStateD3D12Impl) :
    a.IsCompatibleShaders b = b.IsCompatibleShaders a := by
  unfold PipelineStateD3D12Impl.IsCompatibleShaders PipelineStateD3D12Impl.m_NumShaders
  by_cases hl : a.m_ppShaders.length = b.m_ppShaders.length
  · rw [hl]
    simp only [bne_self_eq_false, Bool.false_eq_true, if_false]
    generalize a.m_ppShaders = l1
    generalize b.m_ppShaders = l2
    induction l1 generalizing l2 with
    | nil => cases l2 <;> simp
    | cons x xs ih =>
      cases l2 with
      | nil => simp
      | cons y ys =>
        simp only [List.zip_cons_cons, List.all_cons, ih ys]
        congr 1
        simp only [ShaderResourcesD3D12.IsCompatibleWith]
        rw [Bool.beq_comm]
        congr 1
        exact decide_eq_decide.mpr ⟨Eq.symm, Eq.symm⟩
  · have hl' : ¬ b.m_ppShaders.length = a.m_ppShaders.length := fun h => hl h.symm
    simp [hl, hl']

theorem IsSameAs_comm (a b : RootSignature) : a.IsSameAs b = b.IsSameAs a := by
  unfold RootSignature.IsSameAs
  exact Bool.beq_comm

theorem IsCompatibleWith_comm (cfg : BuildConfig) (heap : Heap) (A B : Nat) :
    PipelineStateD3D12Impl.IsCompatibleWith cfg heap A B =
      PipelineStateD3D12Impl.IsCompatibleWith cfg heap B A := by
  by_cases hAB : B = A
  · subst hAB
    rfl
  · have hBA : ¬ A = B := fun h => hAB h.symm
    cases ha : heap.psos A with
    | none =>
      cases hb : heap.psos B <;>
        simp [PipelineStateD3D12Impl.IsCompatibleWith, hAB, hBA, ha, hb]
    | some a =>
      cases hb : heap.psos B with
      | none => simp [PipelineStateD3D12Impl.IsCompatibleWith, hAB, hBA, ha, hb]
      | some b =>
        rw [IsCompatibleWith_ne cfg heap A B a b hAB ha hb,
          IsCompatibleWith_ne cfg heap B A b a hBA hb ha,
          IsSameAs_comm b.m_RootSig a.m_RootSig, IsCompatibleShaders_comm b a]
        have hd : decide (b.m_ShaderResourceLayoutHash = a.m_ShaderResourceLayoutHash) =
            decide (a.m_ShaderResourceLayoutHash = b.m_ShaderResourceLayoutHash) :=
          decide_eq_decide.mpr ⟨Eq.symm, Eq.symm⟩
        rw [hd]

/-- C11: `IsCompatibleWith` is symmetric.  For all addresses A and B, whatever
the heap holds and in every build, `IsCompatibleWith(A, B)` and
`IsCompatibleWith(B, A)` give the same answer (and raise the same
assertions). -/
theorem IsCompatibleWith_symmetric (cfg : BuildConfig) (heap : Heap) (A B : Nat) :
    PipelineStateD3D12Impl.IsCompatibleWith cfg heap A B =
      PipelineStateD3D12Impl.IsCompatibleWith cfg heap B A ∧
    (PipelineStateD3D12Impl.IsCompatibleWith cfg heap A B).map (fun r => r.result) =
      (PipelineStateD3D12Impl.IsCompatibleWith cfg heap B A).map (fun r => r.result) := by
  have h := IsCompatibleWith_comm cfg heap A B
  exact ⟨h, by rw [h]⟩

/-! ## The construction state machine -/

/-- The three ways the constructor ends: before the native creation call, at a
failed creation call, or in `finishConstruction` after a successful one. -/
theorem construct_cases (dev : RenderDeviceD3D12Impl) (heap : Heap) (this : Nat)
    (desc : PipelineStateDesc) :
    (PipelineStateD3D12Impl.nativePipelineCreation dev desc = none ∧
      (PipelineStateD3D12Impl.construct dev heap this desc).status =
        (if desc.IsComputePipeline then ConstructionStatus.ComputeShaderNotSet
         else ConstructionStatus.UnexpectedShaderType) ∧
      (PipelineStateD3D12Impl.construct dev heap this desc).heap = heap ∧
      (PipelineStateD3D12Impl.construct dev heap this desc).steps = desc.layoutSteps) ∨
    (∃ r, PipelineStateD3D12Impl.nativePipelineCreation dev desc = some r ∧
      FAILED r.1 = true ∧
      (PipelineStateD3D12Impl.construct dev heap this desc).status =
        ConstructionStatus.FailedToCreatePipelineState ∧
      (PipelineStateD3D12Impl.construct dev heap this desc).heap = heap ∧
      (PipelineStateD3D12Impl.construct dev heap this desc).steps =
        desc.layoutSteps ++ [desc.creationStep]) ∨
    (∃ r, PipelineStateD3D12Impl.nativePipelineCreation dev desc = some r ∧
      FAILED r.1 = false ∧
      PipelineStateD3D12Impl.construct dev heap this desc =
        finishConstruction dev heap this desc desc.GetShaders
          (parseLayouts desc.GetShaders
            (RootSignature.empty.AllocateStaticSamplers desc.GetShaders)).1
          ((parseLayouts desc.GetShaders
            (RootSignature.empty.AllocateStaticSamplers desc.GetShaders)).2.Finalize dev)
          r.2 (desc.layoutSteps ++ [desc.creationStep])) := by
  unfold PipelineStateD3D12Impl.construct PipelineStateD3D12Impl.nativePipelineCreation
    PipelineStateDesc.layoutSteps PipelineStateDesc.creationStep
  cases hc : desc.IsComputePipeline with
  | true =>
    simp only [if_true]
    cases hcs : desc.ComputePipeline.pCS with
    | none => exact Or.inl ⟨rfl, rfl, rfl, rfl⟩
    | some cs =>
      simp only
      cases hf : FAILED (dev.CreateComputePipelineState
          { pRootSignature := ((parseLayouts desc.GetShaders
              (RootSignature.empty.AllocateStaticSamplers desc.GetShaders)).2.Finalize
                dev).d3d12RootSignature
            CS := { pShaderBytecode := cs.byteCodePointer, BytecodeLength := cs.byteCodeLength }
            NodeMask := 0, CachedBlobSizeInBytes := 0, Flags := 0 }).1 with
      | true => exact Or.inr (Or.inl ⟨_, rfl, hf, by simp, by simp, by simp⟩)
      | false => exact Or.inr (Or.inr ⟨_, rfl, hf, by simp⟩)
  | false =>
    simp only [Bool.false_eq_true, if_false]
    cases hbc : setShaderBytecodes desc.GetShaders D3D12_GRAPHICS_PIPELINE_STATE_DESC.zero with
    | none => exact Or.inl ⟨rfl, rfl, rfl, rfl⟩
    | some d0 =>
      simp only
      cases hf : FAILED (dev.CreateGraphicsPipelineState
          (fillGraphicsDesc dev ((parseLayouts desc.GetShaders
              (RootSignature.empty.AllocateStaticSamplers desc.GetShaders)).2.Finalize dev)
            desc.GraphicsPipeline d0)).1 with
      | true => exact Or.inr (Or.inl ⟨_, rfl, hf, by simp, by simp, by simp⟩)
      | false => exact Or.inr (Or.inr ⟨_, rfl, hf, by simp⟩)

theorem layoutSteps_phase (desc : PipelineStateDesc) :
    ∀ s ∈ desc.layoutSteps, s.phase ≤ 2 := by
  intro s hs
  simp only [PipelineStateDesc.layoutSteps, List.mem_append, List.mem_singleton,
    List.mem_map] at hs
  rcases hs with (rfl | ⟨i, -, rfl⟩) | rfl <;> simp [ConstructionStep.phase]

theorem creationStep_phase (desc : PipelineStateDesc) : desc.creationStep.phase = 3 := by
  unfold PipelineStateDesc.creationStep
  split <;> rfl

/-- C12: a compute pipeline description whose compute shader is not set makes
the construction fail with the error "Compute shader is not set in the
pipeline desc": the constructor stops after finalizing the (empty) root
signature, no native pipeline object is created, no default SRB is allocated
and the heap is left as it was, so no pipeline state is handed to the
caller. -/
theorem construct_compute_shader_not_set (dev : RenderDeviceD3D12Impl) (heap : Heap)
    (this : Nat) (desc : PipelineStateDesc)
    (hc : desc.IsComputePipeline = true) (hcs : desc.ComputePipeline.pCS = none) :
    (PipelineStateD3D12Impl.construct dev heap this desc).status =
      ConstructionStatus.ComputeShaderNotSet ∧
    (PipelineStateD3D12Impl.construct dev heap this desc).heap = heap ∧
    (PipelineStateD3D12Impl.construct dev heap this desc).steps =
      [ConstructionStep.AllocateStaticSamplers, ConstructionStep.FinalizeRootSignature] ∧
    PipelineStateD3D12Impl.nativePipelineCreation dev desc = none ∧
    (∀ s ∈ (PipelineStateD3D12Impl.construct dev heap this desc).steps,
      s ≠ ConstructionStep.CreateComputePipelineState ∧
      s ≠ ConstructionStep.CreateGraphicsPipelineState ∧
      ∀ a, s ≠ ConstructionStep.AllocateDefaultSRB a) := by
  have hsteps : (PipelineStateD3D12Impl.construct dev heap this desc).steps =
      [ConstructionStep.AllocateStaticSamplers, ConstructionStep.FinalizeRootSignature] := by
    simp [PipelineStateD3D12Impl.construct, hc, hcs, PipelineStateDesc.GetShaders]
  refine ⟨?_, ?_, hsteps, ?_, ?_⟩
  · simp [PipelineStateD3D12Impl.construct, hc, hcs]
  · simp [PipelineStateD3D12Impl.construct, hc, hcs]
  · simp [PipelineStateD3D12Impl.nativePipelineCreation, hc, hcs]
  · intro s hs
    rw [hsteps] at hs
    simp only [List.mem_cons, List.mem_singleton, List.not_mem_nil, or_false] at hs
    rcases hs with rfl | rfl <;> simp

/-- Witness for C12: the compute description `exComputeDescNoCS` on the example
device. -/
theorem construct_compute_shader_not_set_witness :
    (PipelineStateD3D12Impl.construct exDevice exHeap1 150 exComputeDescNoCS).status =
      ConstructionStatus.ComputeShaderNotSet ∧
    (PipelineStateD3D12Impl.construct exDevice exHeap1 150 exComputeDescNoCS).heap = exHeap1 ∧
    (PipelineStateD3D12Impl.construct exDevice exHeap1 150 exComputeDescNoCS).steps =
      [ConstructionStep.AllocateStaticSamplers, ConstructionStep.FinalizeRootSignature] ∧
    PipelineStateD3D12Impl.nativePipelineCreation exDevice exComputeDescNoCS = none ∧
    (∀ s ∈ (PipelineStateD3D12Impl.construct exDevice exHeap1 150 exComputeDescNoCS).steps,
      s ≠ ConstructionStep.CreateComputePipelineState ∧
      s ≠ ConstructionStep.CreateGraphicsPipelineState ∧
      ∀ a, s ≠ ConstructionStep.AllocateDefaultSRB a) :=
  construct_compute_shader_not_set exDevice exHeap1 150 exComputeDescNoCS rfl rfl

/-- C13: when the backend reports failure for the native pipeline object
(`FAILED(hr)` for the `HRESULT` of `CreateComputePipelineState` or
`CreateGraphicsPipelineState`), the construction ends with the error "Failed
to create pipeline state" and the creation call is its last step: nothing is
named, the SRB memory allocator is not initialized, the default SRB is not
allocated, the hash is not published and the heap is left as it was, so no
partially constructed pipeline state can be observed. -/
theorem construct_native_creation_failed (dev : RenderDeviceD3D12Impl) (heap : Heap)
    (this : Nat) (desc : PipelineStateDesc) (r : Int × Nat)
    (hcall : PipelineStateD3D12Impl.nativePipelineCreation dev desc = some r)
    (hfail : FAILED r.1 = true) :
    (PipelineStateD3D12Impl.construct dev heap this desc).status =
      ConstructionStatus.FailedToCreatePipelineState ∧
    (PipelineStateD3D12Impl.construct dev heap this desc).heap = heap ∧
    (PipelineStateD3D12Impl.construct dev heap this desc).steps =
      desc.layoutSteps ++ [desc.creationStep] ∧
    (∀ s ∈ (PipelineStateD3D12Impl.construct dev heap this desc).steps,
      s.phase ≤ 3 ∧ s ≠ ConstructionStep.GetHash ∧
      (∀ a, s ≠ ConstructionStep.AllocateDefaultSRB a) ∧
      (∀ a, s ≠ ConstructionStep.InitializeSRBMemAllocator a)) := by
  rcases construct_cases dev heap this desc with
    ⟨hn, -⟩ | ⟨r', hr', -, hst, hh, hsteps⟩ | ⟨r', hr', hf', -⟩
  · rw [hn] at hcall
    cases hcall
  · refine ⟨hst, hh, hsteps, ?_⟩
    intro s hs
    rw [hsteps] at hs
    have hph : s.phase ≤ 3 := by
      rcases List.mem_append.mp hs with h | h
      · exact Nat.le_succ_of_le (layoutSteps_phase desc s h)
      · rw [List.mem_singleton.mp h, creationStep_phase]
    refine ⟨hph, ?_, ?_, ?_⟩
    · intro h
      rw [h] at hph
      simp [ConstructionStep.phase] at hph
    · intro a h
      rw [h] at hph
      simp [ConstructionStep.phase] at hph
    · intro a h
      rw [h] at hph
      simp [ConstructionStep.phase] at hph
  · rw [hr'] at hcall
    cases hcall
    rw [hfail] at hf'
    cases hf'

/-- Witness for C13: the graphics description `exDesc [exCB]` on a device whose
pipeline creation fails with `E_FAIL`. -/
theorem construct_native_creation_failed_witness :
    (PipelineStateD3D12Impl.construct exFailingDevice exHeap1 150 (exDesc [exCB])).status =
      ConstructionStatus.FailedToCreatePipelineState ∧
    (PipelineStateD3D12Impl.construct exFailingDevice exHeap1 150 (exDesc [exCB])).heap =
      exHeap1 ∧
    (PipelineStateD3D12Impl.construct exFailingDevice exHeap1 150 (exDesc [exCB])).steps =
      (exDesc [exCB]).layoutSteps ++ [(exDesc [exCB]).creationStep] ∧
    (∀ s ∈ (PipelineStateD3D12Impl.construct exFailingDevice exHeap1 150 (exDesc [exCB])).steps,
      s.phase ≤ 3 ∧ s ≠ ConstructionStep.GetHash ∧
      (∀ a, s ≠ ConstructionStep.AllocateDefaultSRB a) ∧
      (∀ a, s ≠ ConstructionStep.InitializeSRBMemAllocator a)) :=
  construct_native_creation_failed exFailingDevice exHeap1 150 (exDesc [exCB])
    (-2147467259, 0) rfl (by decide)

theorem pairwise_phase_append (l1 l2 : List ConstructionStep) (k : Nat)
    (h1 : l1.Pairwise (fun x y => x.phase ≤ y.phase))
    (h2 : l2.Pairwise (fun x y => x.phase ≤ y.phase))
    (hle : ∀ x ∈ l1, x.phase ≤ k) (hge : ∀ y ∈ l2, k ≤ y.phase) :
    (l1 ++ l2).Pairwise (fun x y => x.phase ≤ y.phase) := by
  rw [List.pairwise_append]
  exact ⟨h1, h2, fun x hx y hy => Nat.le_trans (hle x hx) (hge y hy)⟩

theorem pairwise_phase_const (l : List ConstructionStep) (k : Nat)
    (h : ∀ x ∈ l, x.phase = k) : l.Pairwise (fun x y => x.phase ≤ y.phase) := by
  induction l with
  | nil => exact List.Pairwise.nil
  | cons x xs ih =>
    refine List.Pairwise.cons ?_ (ih (fun y hy => h y (List.mem_cons_of_mem _ hy)))
    intro y hy
    rw [h x (List.mem_cons_self _ _), h y (List.mem_cons_of_mem _ hy)]

theorem layoutSteps_pairwise (desc : PipelineStateDesc) :
    desc.layoutSteps.Pairwise (fun x y => x.phase ≤ y.phase) := by
  unfold PipelineStateDesc.layoutSteps
  refine pairwise_phase_append _ _ 2 (pairwise_phase_append _ _ 1 ?_ ?_ ?_ ?_) ?_ ?_ ?_
  · exact pairwise_phase_const _ 0 (by simp [ConstructionStep.phase])
  · exact pairwise_phase_const _ 1 (by
      intro x hx
      obtain ⟨i, -, rfl⟩ := List.mem_map.mp hx
      rfl)
  · simp [ConstructionStep.phase]
  · intro x hx
    obtain ⟨i, -, rfl⟩ := List.mem_map.mp hx
    exact Nat.le_refl _
  · exact pairwise_phase_const _ 2 (by simp [ConstructionStep.phase])
  · intro x hx
    rcases List.mem_append.mp hx with h | h
    · simp only [List.mem_singleton] at h
      subst h
      decide
    · obtain ⟨i, -, rfl⟩ := List.mem_map.mp h
      simp [ConstructionStep.phase]
  · simp [ConstructionStep.phase]

theorem presize_steps (dev : RenderDeviceD3D12Impl) (desc : PipelineStateDesc)
    (layouts : List (List ResourceSlot)) (rs : RootSignature) :
    (presizeSRBMemAllocator dev desc layouts rs).2.Pairwise (fun x y => x.phase ≤ y.phase) ∧
    (∀ s ∈ (presizeSRBMemAllocator dev desc layouts rs).2, 5 ≤ s.phase ∧ s.phase ≤ 7) := by
  unfold presizeSRBMemAllocator
  split
  · constructor
    · refine pairwise_phase_append _ _ 5 (pairwise_phase_const _ 5 ?_) ?_ ?_ ?_
      · intro x hx
        obtain ⟨i, -, rfl⟩ := List.mem_map.mp hx
        rfl
      · simp [ConstructionStep.phase]
      · intro x hx
        obtain ⟨i, -, rfl⟩ := List.mem_map.mp hx
        exact Nat.le_refl _
      · simp [ConstructionStep.phase]
    · intro s hs
      rcases List.mem_append.mp hs with h | h
      · obtain ⟨i, -, rfl⟩ := List.mem_map.mp h
        simp [ConstructionStep.phase]
      · simp only [List.mem_cons, List.mem_singleton, List.not_mem_nil, or_false] at h
        rcases h with rfl | rfl <;> simp [ConstructionStep.phase]
  · exact ⟨List.Pairwise.nil, by simp⟩

/-- The steps of a successful construction. -/
theorem construct_built_steps (dev : RenderDeviceD3D12Impl) (heap : Heap) (this : Nat)
    (desc : PipelineStateDesc)
    (h : (PipelineStateD3D12Impl.construct dev heap this desc).status = ConstructionStatus.built) :
    (PipelineStateD3D12Impl.construct dev heap this desc).steps =
      desc.layoutSteps ++ [desc.creationStep] ++
        (if desc.Name ≠ "" then [ConstructionStep.SetName] else []) ++
        (presizeSRBMemAllocator dev desc
          (parseLayouts desc.GetShaders
            (RootSignature.empty.AllocateStaticSamplers desc.GetShaders)).1
          ((parseLayouts desc.GetShaders
            (RootSignature.empty.AllocateStaticSamplers desc.GetShaders)).2.Finalize dev)).2 ++
        [ConstructionStep.AllocateDefaultSRB dev.SRBAllocatorNext, ConstructionStep.GetHash] := by
  rcases construct_cases dev heap this desc with
    ⟨-, hst, -⟩ | ⟨r', -, -, hst, -⟩ | ⟨r', -, -, heq⟩
  · rw [hst] at h
    split at h <;> cases h
  · rw [hst] at h
    cases h
  · rw [heq]
    rfl

/-- C14: in every successful construction the steps run in the fixed order of
the state machine.  The static samplers are collected and the layouts of the
shader stages are parsed, one per stage and in stage order; then the root
signature is finalized, exactly once; then the native pipeline object is
created; then, after the optional naming and the optional sizing of the SRB
memory allocator, the default SRB is allocated and the hash is published.  No
step of a later phase comes before a step of an earlier phase; in particular
the finalization precedes the query of the resource-cache size, the
initialization of the SRB memory allocator and the allocation of the default
SRB. -/
theorem construct_steps_in_order (dev : RenderDeviceD3D12Impl) (heap : Heap) (this : Nat)
    (desc : PipelineStateDesc)
    (h : (PipelineStateD3D12Impl.construct dev heap this desc).status = ConstructionStatus.built) :
    ∃ sizing : List ConstructionStep,
      (PipelineStateD3D12Impl.construct dev heap this desc).steps =
        [ConstructionStep.AllocateStaticSamplers] ++
        (List.range desc.GetShaders.length).map ConstructionStep.InitializeShaderResourceLayout ++
        [ConstructionStep.FinalizeRootSignature] ++ [desc.creationStep] ++
        (if desc.Name ≠ "" then [ConstructionStep.SetName] else []) ++ sizing ++
        [ConstructionStep.AllocateDefaultSRB dev.SRBAllocatorNext, ConstructionStep.GetHash] ∧
      (∀ s ∈ sizing, 5 ≤ s.phase ∧ s.phase ≤ 7) ∧
      (PipelineStateD3D12Impl.construct dev heap this desc).steps.Pairwise
        (fun x y => x.phase ≤ y.phase) ∧
      (PipelineStateD3D12Impl.construct dev heap this desc).steps.countP
        (fun s => s.phase == 2) = 1 ∧
      (PipelineStateD3D12Impl.construct dev heap this desc).steps.countP
        (fun s => s.phase == 3) = 1 ∧
      (PipelineStateD3D12Impl.construct dev heap this desc).steps.countP
        (fun s => s.phase == 8) = 1 := by
  have hsteps := construct_built_steps dev heap this desc h
  obtain ⟨hsp, hsb⟩ := presize_steps dev desc
    (parseLayouts desc.GetShaders
      (RootSignature.empty.AllocateStaticSamplers desc.GetShaders)).1
    ((parseLayouts desc.GetShaders
      (RootSignature.empty.AllocateStaticSamplers desc.GetShaders)).2.Finalize dev)
  have hname : ∀ s ∈ (if desc.Name ≠ "" then [ConstructionStep.SetName] else []),
      s.phase = 4 := by
    intro s hs
    split at hs
    · rw [List.mem_singleton.mp hs]
      rfl
    · cases hs
  have hcount : ∀ (k : Nat) (l : List ConstructionStep), (∀ s ∈ l, s.phase ≠ k) →
      l.countP (fun s => s.phase == k) = 0 := by
    intro k l hl
    rw [List.countP_eq_zero]
    intro s hs
    simpa using hl s hs
  have hphase3 := creationStep_phase desc
  have hc0 := fun k (hk : 2 < k) => hcount k desc.layoutSteps
    (fun s hs => by have := layoutSteps_phase desc s hs; omega)
  have hcn := fun k (hk : k ≠ 4) => hcount k _ (fun s hs => by rw [hname s hs]; exact Ne.symm hk)
  have hcs := fun k (hk : k < 5 ∨ 7 < k) => hcount k _
    (fun s hs => by have := hsb s hs; omega)
  refine ⟨_, hsteps, hsb, ?_, ?_, ?_, ?_⟩
  · rw [hsteps]
    refine pairwise_phase_append _ _ 8 (pairwise_phase_append _ _ 5
      (pairwise_phase_append _ _ 4 (pairwise_phase_append _ _ 3
        (layoutSteps_pairwise desc) ?_ ?_ ?_) ?_ ?_ ?_) hsp ?_ ?_) ?_ ?_ ?_
    · exact pairwise_phase_const _ 3 (by simp [hphase3])
    · intro x hx
      exact Nat.le_succ_of_le (layoutSteps_phase desc x hx)
    · simp [hphase3]
    · exact pairwise_phase_const _ 4 hname
    · intro x hx
      rcases List.mem_append.mp hx with hx | hx
      · have := layoutSteps_phase desc x hx
        omega
      · rw [List.mem_singleton.mp hx, hphase3]
        decide
    · intro y hy
      rw [hname y hy]
    · intro x hx
      rcases List.mem_append.mp hx with hx | hx
      · rcases List.mem_append.mp hx with hx | hx
        · have := layoutSteps_phase desc x hx
          omega
        · rw [List.mem_singleton.mp hx, hphase3]
          decide
      · rw [hname x hx]
        decide
    · intro y hy
      exact (hsb y hy).1
    · refine List.Pairwise.cons ?_ (List.pairwise_singleton _ _)
      intro y hy
      rw [List.mem_singleton.mp hy]
      simp [ConstructionStep.phase]
    · intro x hx
      rcases List.mem_append.mp hx with hx | hx
      · rcases List.mem_append.mp hx with hx | hx
        · rcases List.mem_append.mp hx with hx | hx
          · have := layoutSteps_phase desc x hx
            omega
          · rw [List.mem_singleton.mp hx, hphase3]
            decide
        · rw [hname x hx]
          decide
      · have := (hsb x hx).2
        omega
    · intro y hy
      simp only [List.mem_cons, List.mem_singleton, List.not_mem_nil, or_false] at hy
      rcases hy with rfl | rfl <;> simp [ConstructionStep.phase]
  · rw [hsteps]
    simp only [List.countP_append, hcn 2 (by decide), hcs 2 (by decide)]
    have h2 : desc.layoutSteps.countP (fun s => s.phase == 2) = 1 := by
      simp [PipelineStateDesc.layoutSteps, List.countP_append, List.countP_cons,
        ConstructionStep.phase, List.countP_map, Function.comp_def]
    have hc : [desc.creationStep].countP (fun s => s.phase == 2) = 0 := by
      simp [List.countP_cons, hphase3]
    have hd : [ConstructionStep.AllocateDefaultSRB dev.SRBAllocatorNext,
        ConstructionStep.GetHash].countP (fun s => s.phase == 2) = 0 := by
      simp [List.countP_cons, ConstructionStep.phase]
    rw [h2, hc, hd]
  · rw [hsteps]
    simp only [List.countP_append, hc0 3 (by decide), hcn 3 (by decide), hcs 3 (by decide)]
    have hc : [desc.creationStep].countP (fun s => s.phase == 3) = 1 := by
      simp [List.countP_cons, hphase3]
    have hd : [ConstructionStep.AllocateDefaultSRB dev.SRBAllocatorNext,
        ConstructionStep.GetHash].countP (fun s => s.phase == 3) = 0 := by
      simp [List.countP_cons, ConstructionStep.phase]
    rw [hc, hd]
  · rw [hsteps]
    simp only [List.countP_append, hc0 8 (by decide), hcn 8 (by decide), hcs 8 (by decide)]
    have hc : [desc.creationStep].countP (fun s => s.phase == 8) = 0 := by
      simp [List.countP_cons, hphase3]
    have hd : [ConstructionStep.AllocateDefaultSRB dev.SRBAllocatorNext,
        ConstructionStep.GetHash].countP (fun s => s.phase == 8) = 1 := by
      simp [List.countP_cons, ConstructionStep.phase]
    rw [hc, hd]

/-- Witness for C14: the construction of the named, batched description
`exDescBatched` (vertex and pixel shader) on the example device. -/
theorem construct_steps_in_order_witness :
    (PipelineStateD3D12Impl.construct exDevice Heap.empty 100 exDescBatched).steps =
      [ConstructionStep.AllocateStaticSamplers,
       ConstructionStep.InitializeShaderResourceLayout 0,
       ConstructionStep.InitializeShaderResourceLayout 1,
       ConstructionStep.FinalizeRootSignature,
       ConstructionStep.CreateGraphicsPipelineState,
       ConstructionStep.SetName,
       ConstructionStep.GetRequiredMemorySize 0,
       ConstructionStep.GetRequiredMemorySize 1,
       ConstructionStep.GetResourceCacheRequiredMemSize,
       ConstructionStep.InitializeSRBMemAllocator
         { SRBAllocationGranularity := 4, ShaderVariableDataAllocatorCount := 2,
           ShaderVariableDataSizes := [16, 32, 0, 0, 0],
           ResourceCacheDataAllocatorCount := 1, ResourceCacheDataSizes := [96] },
       ConstructionStep.AllocateDefaultSRB 7,
       ConstructionStep.GetHash] ∧
    ∃ sizing : List ConstructionStep,
      (PipelineStateD3D12Impl.construct exDevice Heap.empty 100 exDescBatched).steps =
        [ConstructionStep.AllocateStaticSamplers] ++
        (List.range exDescBatched.GetShaders.length).map
          ConstructionStep.InitializeShaderResourceLayout ++
        [ConstructionStep.FinalizeRootSignature] ++ [exDescBatched.creationStep] ++
        (if exDescBatched.Name ≠ "" then [ConstructionStep.SetName] else []) ++ sizing ++
        [ConstructionStep.AllocateDefaultSRB exDevice.SRBAllocatorNext, ConstructionStep.GetHash] ∧
      (∀ s ∈ sizing, 5 ≤ s.phase ∧ s.phase ≤ 7) ∧
      (PipelineStateD3D12Impl.construct exDevice Heap.empty 100 exDescBatched).steps.Pairwise
        (fun x y => x.phase ≤ y.phase) ∧
      (PipelineStateD3D12Impl.construct exDevice Heap.empty 100 exDescBatched).steps.countP
        (fun s => s.phase == 2) = 1 ∧
      (PipelineStateD3D12Impl.construct exDevice Heap.empty 100 exDescBatched).steps.countP
        (fun s => s.phase == 3) = 1 ∧
      (PipelineStateD3D12Impl.construct exDevice Heap.empty 100 exDescBatched).steps.countP
        (fun s => s.phase == 8) = 1 :=
  ⟨by decide, construct_steps_in_order exDevice Heap.empty 100 exDescBatched (by decide)⟩

/-! ## Presizing of the SRB memory allocator -/

/-- C20 as stated fails: the description `exDesc [exCB]` has an SRB allocation
granularity of 1; its construction succeeds, but the SRB memory allocator is
never initialized and no size is queried. -/
theorem construct_granularity_one_not_presized :
    (exDesc [exCB]).SRBAllocationGranularity = 1 ∧
    (PipelineStateD3D12Impl.construct exDevice Heap.empty 100 (exDesc [exCB])).status =
      ConstructionStatus.built ∧
    ((PipelineStateD3D12Impl.construct exDevice Heap.empty 100 (exDesc [exCB])).heap.psos
      100).map (fun p => p.m_SRBMemAllocator) = some none ∧
    (PipelineStateD3D12Impl.construct exDevice Heap.empty 100 (exDesc [exCB])).steps =
      [ConstructionStep.AllocateStaticSamplers,
       ConstructionStep.InitializeShaderResourceLayout 0,
       ConstructionStep.FinalizeRootSignature,
       ConstructionStep.CreateGraphicsPipelineState,
       ConstructionStep.AllocateDefaultSRB 7,
       ConstructionStep.GetHash] := by
  decide

/-- C20, amended: a successful construction presizes the SRB memory allocator
exactly when the SRB allocation granularity of the description is greater
than 1.  It then calls `Initialize` once, with the granularity, one layout
size per shader stage (`GetRequiredMemorySize` of the layout of the stage
for the variable types static, mutable and dynamic; the entries of the
`MaxShadersInPipeline` array beyond the stages are zero) and exactly one
resource-cache size, `GetResourceCacheRequiredMemSize` of the finalized root
signature.  With a granularity of 0 or 1 the allocator is left
uninitialized and no size is queried. -/
theorem construct_presizes_allocator (dev : RenderDeviceD3D12Impl) (heap : Heap) (this : Nat)
    (desc : PipelineStateDesc)
    (h : (PipelineStateD3D12Impl.construct dev heap this desc).status = ConstructionStatus.built) :
    ∃ pso, (PipelineStateD3D12Impl.construct dev heap this desc).heap.psos this = some pso ∧
      pso.m_RootSig.finalized = true ∧
      (1 < desc.SRBAllocationGranularity →
        pso.m_SRBMemAllocator = some
          { SRBAllocationGranularity := desc.SRBAllocationGranularity
            ShaderVariableDataAllocatorCount := desc.GetShaders.length
            ShaderVariableDataSizes :=
              desc.GetShaders.map (fun sh => dev.GetRequiredMemorySize sh.resources
                [SHADER_VARIABLE_TYPE.STATIC, SHADER_VARIABLE_TYPE.MUTABLE,
                 SHADER_VARIABLE_TYPE.DYNAMIC]) ++
              List.replicate (dev.MaxShadersInPipeline - desc.GetShaders.length) 0
            ResourceCacheDataAllocatorCount := 1
            ResourceCacheDataSizes := [dev.GetResourceCacheRequiredMemSize pso.m_RootSig] } ∧
        (PipelineStateD3D12Impl.construct dev heap this desc).steps.countP
          (fun s => s.phase == 7) = 1 ∧
        ∀ a, ConstructionStep.InitializeSRBMemAllocator a ∈
            (PipelineStateD3D12Impl.construct dev heap this desc).steps →
          some a = pso.m_SRBMemAllocator) ∧
      (desc.SRBAllocationGranularity ≤ 1 →
        pso.m_SRBMemAllocator = none ∧
        ∀ s ∈ (PipelineStateD3D12Impl.construct dev heap this desc).steps,
          s.phase < 5 ∨ 7 < s.phase) := by
  have hsteps := construct_built_steps dev heap this desc h
  obtain ⟨pd, st, heq⟩ := construct_built_eq dev heap this desc h
  have hpso := finishConstruction_pso dev heap this desc desc.GetShaders
    (parseLayouts desc.GetShaders
      (RootSignature.empty.AllocateStaticSamplers desc.GetShaders)).1
    ((parseLayouts desc.GetShaders
      (RootSignature.empty.AllocateStaticSamplers desc.GetShaders)).2.Finalize dev) pd st
  rw [← heq] at hpso
  have hname : ∀ s ∈ (if desc.Name ≠ "" then [ConstructionStep.SetName] else []),
      s.phase = 4 := by
    intro s hs
    split at hs
    · rw [List.mem_singleton.mp hs]
      rfl
    · cases hs
  have hother : ∀ s ∈ desc.layoutSteps ++ [desc.creationStep] ++
      (if desc.Name ≠ "" then [ConstructionStep.SetName] else []), s.phase < 5 := by
    intro s hs
    rcases List.mem_append.mp hs with hs | hs
    · rcases List.mem_append.mp hs with hs | hs
      · have := layoutSteps_phase desc s hs
        omega
      · rw [List.mem_singleton.mp hs, creationStep_phase]
        decide
    · rw [hname s hs]
      decide
  have hlast : ∀ s ∈ [ConstructionStep.AllocateDefaultSRB dev.SRBAllocatorNext,
      ConstructionStep.GetHash], 7 < s.phase := by
    intro s hs
    simp only [List.mem_cons, List.mem_singleton, List.not_mem_nil, or_false] at hs
    rcases hs with rfl | rfl <;> simp [ConstructionStep.phase]
  refine ⟨_, hpso, rfl, ?_, ?_⟩
  · intro hg
    have hpre : presizeSRBMemAllocator dev desc
        (parseLayouts desc.GetShaders
          (RootSignature.empty.AllocateStaticSamplers desc.GetShaders)).1
        ((parseLayouts desc.GetShaders
          (RootSignature.empty.AllocateStaticSamplers desc.GetShaders)).2.Finalize dev) =
        (some
          { SRBAllocationGranularity := desc.SRBAllocationGranularity
            ShaderVariableDataAllocatorCount := desc.GetShaders.length
            ShaderVariableDataSizes :=
              desc.GetShaders.map (fun sh => dev.GetRequiredMemorySize sh.resources
                [SHADER_VARIABLE_TYPE.STATIC, SHADER_VARIABLE_TYPE.MUTABLE,
                 SHADER_VARIABLE_TYPE.DYNAMIC]) ++
              List.replicate (dev.MaxShadersInPipeline - desc.GetShaders.length) 0
            ResourceCacheDataAllocatorCount := 1
            ResourceCacheDataSizes := [dev.GetResourceCacheRequiredMemSize
              ((parseLayouts desc.GetShaders
                (RootSignature.empty.AllocateStaticSamplers desc.GetShaders)).2.Finalize dev)] },
         (List.range desc.GetShaders.length).map ConstructionStep.GetRequiredMemorySize ++
           [ConstructionStep.GetResourceCacheRequiredMemSize,
            ConstructionStep.InitializeSRBMemAllocator
              { SRBAllocationGranularity := desc.SRBAllocationGranularity
                ShaderVariableDataAllocatorCount := desc.GetShaders.length
                ShaderVariableDataSizes :=
                  desc.GetShaders.map (fun sh => dev.GetRequiredMemorySize sh.resources
                    [SHADER_VARIABLE_TYPE.STATIC, SHADER_VARIABLE_TYPE.MUTABLE,
                     SHADER_VARIABLE_TYPE.DYNAMIC]) ++
                  List.replicate (dev.MaxShadersInPipeline - desc.GetShaders.length) 0
                ResourceCacheDataAllocatorCount := 1
                ResourceCacheDataSizes := [dev.GetResourceCacheRequiredMemSize
                  ((parseLayouts desc.GetShaders
                    (RootSignature.empty.AllocateStaticSamplers desc.GetShaders)).2.Finalize
                      dev)] }]) := by
      simp [presizeSRBMemAllocator, hg, parseLayouts_layouts]
    refine ⟨by rw [hpre], ?_, ?_⟩
    · rw [hsteps, hpre]
      have h1 : (desc.layoutSteps ++ [desc.creationStep] ++
          (if desc.Name ≠ "" then [ConstructionStep.SetName] else [])).countP
            (fun s => s.phase == 7) = 0 := by
        rw [List.countP_eq_zero]
        intro s hs
        have := hother s hs
        simp only [beq_iff_eq]
        omega
      simp only [List.countP_append, h1]
      simp [List.countP_cons, ConstructionStep.phase, List.countP_map, Function.comp_def]
    · intro a ha
      rw [hsteps, hpre] at ha
      rcases List.mem_append.mp ha with ha | ha
      · rcases List.mem_append.mp ha with ha | ha
        · have := hother _ ha
          simp [ConstructionStep.phase] at this
        · simp only [List.mem_append, List.mem_map, List.mem_cons, List.mem_singleton,
            List.not_mem_nil, or_false] at ha
          rcases ha with ⟨i, -, hi⟩ | hi | hi
          · cases hi
          · cases hi
          · cases hi
            simp [hpre]
      · have := hlast _ ha
        simp [ConstructionStep.phase] at this
  · intro hg
    have hpre : presizeSRBMemAllocator dev desc
        (parseLayouts desc.GetShaders
          (RootSignature.empty.AllocateStaticSamplers desc.GetShaders)).1
        ((parseLayouts desc.GetShaders
          (RootSignature.empty.AllocateStaticSamplers desc.GetShaders)).2.Finalize dev) =
        (none, []) := by
      simp [presizeSRBMemAllocator, Nat.not_lt.mpr hg]
    refine ⟨by rw [hpre], ?_⟩
    intro s hs
    rw [hsteps, hpre] at hs
    rcases List.mem_append.mp hs with hs | hs
    · rcases List.mem_append.mp hs with hs | hs
      · exact Or.inl (hother s hs)
      · cases hs
    · exact Or.inr (hlast s hs)

/-- Witness for C20, amended: the construction of `exDescBatched`, whose SRB
allocation granularity is 4, on the example device. -/
theorem construct_presizes_allocator_witness :
    ∃ pso, (PipelineStateD3D12Impl.construct exDevice Heap.empty 100 exDescBatched).heap.psos
        100 = some pso ∧
      pso.m_RootSig.finalized = true ∧
      (1 < exDescBatched.SRBAllocationGranularity →
        pso.m_SRBMemAllocator = some
          { SRBAllocationGranularity := exDescBatched.SRBAllocationGranularity
            ShaderVariableDataAllocatorCount := exDescBatched.GetShaders.length
            ShaderVariableDataSizes :=
              exDescBatched.GetShaders.map (fun sh => exDevice.GetRequiredMemorySize sh.resources
                [SHADER_VARIABLE_TYPE.STATIC, SHADER_VARIABLE_TYPE.MUTABLE,
                 SHADER_VARIABLE_TYPE.DYNAMIC]) ++
              List.replicate (exDevice.MaxShadersInPipeline - exDescBatched.GetShaders.length) 0
            ResourceCacheDataAllocatorCount := 1
            ResourceCacheDataSizes := [exDevice.GetResourceCacheRequiredMemSize pso.m_RootSig] } ∧
        (PipelineStateD3D12Impl.construct exDevice Heap.empty 100 exDescBatched).steps.countP
          (fun s => s.phase == 7) = 1 ∧
        ∀ a, ConstructionStep.InitializeSRBMemAllocator a ∈
            (PipelineStateD3D12Impl.construct exDevice Heap.empty 100 exDescBatched).steps →
          some a = pso.m_SRBMemAllocator) ∧
      (exDescBatched.SRBAllocationGranularity ≤ 1 →
        pso.m_SRBMemAllocator = none ∧
        ∀ s ∈ (PipelineStateD3D12Impl.construct exDevice Heap.empty 100 exDescBatched).steps,
          s.phase < 5 ∨ 7 < s.phase) :=
  construct_presizes_allocator exDevice Heap.empty 100 exDescBatched (by decide)

/-! ## `BindShaderResources` -/

/-- C19: `BindShaderResources(pResourceMapping, Flags)` forwards the same
mapping and the same flags to the shaders of the pipeline and to nothing
else.  Every call it makes goes to the shader held by the member it goes
through, with the mapping and the flags unchanged.  For a compute pipeline
only `m_pCS` is called, once, and only if it is set.  For a graphics pipeline
the members called are exactly the set ones among vertex, pixel, geometry,
domain and hull shader, each once and in that order, and never the compute
shader. -/
theorem BindShaderResources_forwards (p : PipelineStateD3D12Impl)
    (pResourceMapping Flags : Nat) :
    (∀ c ∈ p.BindShaderResources pResourceMapping Flags,
      c.pResourceMapping = pResourceMapping ∧ c.Flags = Flags ∧
      p.shaderOf c.member = some c.shader) ∧
    (p.m_Desc.IsComputePipeline = true →
      ((p.BindShaderResources pResourceMapping Flags).map (fun c => c.member)).Sublist
        [ShaderMember.m_pCS] ∧
      ∀ m, m ∈ (p.BindShaderResources pResourceMapping Flags).map (fun c => c.member) ↔
        (m = ShaderMember.m_pCS ∧ (p.shaderOf m).isSome = true)) ∧
    (p.m_Desc.IsComputePipeline = false →
      ((p.BindShaderResources pResourceMapping Flags).map (fun c => c.member)).Sublist
        [ShaderMember.m_pVS, ShaderMember.m_pPS, ShaderMember.m_pGS, ShaderMember.m_pDS,
         ShaderMember.m_pHS] ∧
      ∀ m, m ∈ (p.BindShaderResources pResourceMapping Flags).map (fun c => c.member) ↔
        (m ≠ ShaderMember.m_pCS ∧ (p.shaderOf m).isSome = true)) := by
  have hbind : ∀ m, ∀ c ∈ p.bindIfSet m pResourceMapping Flags,
      c.pResourceMapping = pResourceMapping ∧ c.Flags = Flags ∧
      p.shaderOf c.member = some c.shader := by
    intro m c hc
    unfold PipelineStateD3D12Impl.bindIfSet at hc
    split at hc
    · rename_i sh hsh
      rw [List.mem_singleton.mp hc]
      exact ⟨rfl, rfl, hsh⟩
    · cases hc
  have hmem : ∀ m, (p.bindIfSet m pResourceMapping Flags).map (fun c => c.member) =
      if (p.shaderOf m).isSome then [m] else [] := by
    intro m
    unfold PipelineStateD3D12Impl.bindIfSet
    cases p.shaderOf m <;> rfl
  refine ⟨?_, ?_, ?_⟩
  · intro c hc
    unfold PipelineStateD3D12Impl.BindShaderResources at hc
    split at hc
    · exact hbind _ c hc
    · simp only [List.mem_append] at hc
      rcases hc with (((hc | hc) | hc) | hc) | hc <;> exact hbind _ c hc
  · intro hcompute
    simp only [PipelineStateD3D12Impl.BindShaderResources, hcompute, if_true, hmem]
    cases hcs : (p.shaderOf ShaderMember.m_pCS).isSome
    · refine ⟨by decide, ?_⟩
      intro m
      cases m <;> simp [hcs]
    · refine ⟨by decide, ?_⟩
      intro m
      cases m <;> simp [hcs]
  · intro hgraphics
    simp only [PipelineStateD3D12Impl.BindShaderResources, hgraphics, Bool.false_eq_true,
      if_false, List.map_append, hmem]
    cases hv : (p.shaderOf ShaderMember.m_pVS).isSome <;>
    cases hp : (p.shaderOf ShaderMember.m_pPS).isSome <;>
    cases hg : (p.shaderOf ShaderMember.m_pGS).isSome <;>
    cases hd : (p.shaderOf ShaderMember.m_pDS).isSome <;>
    cases hh : (p.shaderOf ShaderMember.m_pHS).isSome <;>
    (refine ⟨by decide, ?_⟩
     intro m
     cases m <;> simp [hv, hp, hg, hd, hh])

/-! ## The report for a null SRB -/

theorem GetTotalSrvCbvUavSlots_ne_zero (rs : RootSignature) (t : SHADER_VARIABLE_TYPE) :
    rs.GetTotalSrvCbvUavSlots t ≠ 0 ↔
      ∃ x ∈ rs.tuples, x.kind ≠ ResourceKind.Sampler ∧ x.variableType = t ∧ x.arraySize ≠ 0 := by
  unfold RootSignature.GetTotalSrvCbvUavSlots
  rw [Ne, List.sum_eq_zero_iff]
  constructor
  · intro h
    by_contra hne
    apply h
    intro n hn
    obtain ⟨x, hx, rfl⟩ := List.mem_map.mp hn
    rw [List.mem_filter] at hx
    by_contra h0
    apply hne
    refine ⟨x, hx.1, ?_, ?_, h0⟩
    · intro hk
      have := hx.2
      simp [hk, ResourceKind.isSrvCbvUav] at this
    · have := hx.2
      simp only [Bool.and_eq_true, decide_eq_true_eq] at this
      exact this.2
  · rintro ⟨x, hx, hk, ht, h0⟩ h
    apply h0
    apply h
    apply List.mem_map.mpr
    refine ⟨x, List.mem_filter.mpr ⟨hx, ?_⟩, rfl⟩
    simp only [Bool.and_eq_true, decide_eq_true_eq]
    refine ⟨?_, ht⟩
    cases hkk : x.kind <;> simp_all [ResourceKind.isSrvCbvUav]

theorem verifyNullSRB_mem (p : PipelineStateD3D12Impl) (cfg : BuildConfig)
    (pSRB : Option Nat) :
    Event.LogError Message.NoSRBForMutableOrDynamic ∈ p.verifyNullSRB cfg pSRB ↔
      (cfg.VERIFY_SHADER_BINDINGS = true ∧ pSRB = none ∧
        (p.m_RootSig.GetTotalSrvCbvUavSlots SHADER_VARIABLE_TYPE.MUTABLE ≠ 0 ∨
         p.m_RootSig.GetTotalSrvCbvUavSlots SHADER_VARIABLE_TYPE.DYNAMIC ≠ 0)) := by
  unfold PipelineStateD3D12Impl.verifyNullSRB
  split
  · rename_i h
    simp only [Bool.and_eq_true, Bool.or_eq_true, bne_iff_ne, ne_eq, Option.isNone_iff_eq_none]
      at h
    simp only [List.mem_singleton, true_iff]
    exact ⟨h.1.1, h.1.2, h.2⟩
  · rename_i h
    simp only [Bool.and_eq_true, Bool.or_eq_true, bne_iff_ne, ne_eq, Option.isNone_iff_eq_none]
      at h
    simp only [List.not_mem_nil, false_iff]
    rintro ⟨h1, h2, h3⟩
    exact h ⟨⟨h1, h2⟩, h3⟩

theorem commitResolved_no_report (p : PipelineStateD3D12Impl) (cfg : BuildConfig) (heap : Heap)
    (this r : Nat) (s : ShaderResourceBindingD3D12Impl) (Ctx : CommandContext)
    (commit transition : Bool) :
    Event.LogError Message.NoSRBForMutableOrDynamic ∉
      (p.commitResolved cfg heap this r s Ctx commit transition).events := by
  rw [commitResolved_events]
  intro h
  simp only [List.mem_append] at h
  rcases h with (h | h) | h <;> split at h <;> simp at h

/-- C18 as stated fails: with binding verification enabled, the pipeline state
at address 100 of `exHeapSampler` declares a mutable sampler and nothing else,
yet the call with a null SRB logs no error. -/
theorem CommitAndTransitionShaderResources_mutable_sampler_no_report :
    debugBuild.VERIFY_SHADER_BINDINGS = true ∧
    (exHeapSampler.psos 100).map (fun p => p.m_RootSig.tuples) =
      some [{ kind := ResourceKind.Sampler, visibility := 1,
              variableType := SHADER_VARIABLE_TYPE.MUTABLE, arraySize := 1 }] ∧
    ∃ out, PipelineStateD3D12Impl.CommitAndTransitionShaderResources debugBuild exHeapSampler
        100 none { commands := [] } true false = some out ∧
      out.events = [Event.InitializeStaticResources 7 100,
                    Event.dbgVerifyResourceBindings 7 100] ∧
      Event.LogError Message.NoSRBForMutableOrDynamic ∉ out.events :=
  ⟨rfl, by decide, _, rfl, rfl, by decide⟩

/-- C18, amended: with binding verification enabled, a call with a null SRB on
a built pipeline state logs the error "contains mutable/dynamic shader
variables ... but none is provided" if and only if the root signature has at
least one mutable or dynamic constant-buffer, shader-resource or
unordered-access slot (`GetTotalSrvCbvUavSlots` is not zero for the mutable or
the dynamic variable type); sampler slots do not count.  A pipeline state
with only static resources or with no resources never triggers the report,
and without binding verification nothing is reported. -/
theorem CommitAndTransitionShaderResources_null_report (cfg : BuildConfig) (heap : Heap)
    (this : Nat) (Ctx : CommandContext) (CommitResources TransitionResources : Bool)
    (hb : BuiltPSO heap this) :
    ∃ p out, heap.psos this = some p ∧
      PipelineStateD3D12Impl.CommitAndTransitionShaderResources cfg heap this none Ctx
        CommitResources TransitionResources = some out ∧
      (Event.LogError Message.NoSRBForMutableOrDynamic ∈ out.events ↔
        (cfg.VERIFY_SHADER_BINDINGS = true ∧
          ∃ x ∈ p.m_RootSig.tuples, x.kind ≠ ResourceKind.Sampler ∧
            (x.variableType = SHADER_VARIABLE_TYPE.MUTABLE ∨
             x.variableType = SHADER_VARIABLE_TYPE.DYNAMIC) ∧ x.arraySize ≠ 0)) ∧
      ((∀ x ∈ p.m_RootSig.tuples, x.variableType = SHADER_VARIABLE_TYPE.STATIC) →
        Event.LogError Message.NoSRBForMutableOrDynamic ∉ out.events) := by
  obtain ⟨p, d, hp, hd, hown⟩ := hb
  have hc := verifyCompatible_self cfg heap this d hown
  have h1 := commit_run cfg heap this none Ctx CommitResources TransitionResources p d _
    hp hd hc rfl
  have hiff : Event.LogError Message.NoSRBForMutableOrDynamic ∈
      p.verifyNullSRB cfg none ++ ([] : List Event) ++
        (p.commitResolved cfg heap this (p.resolveSRB none) d Ctx CommitResources
          TransitionResources).events ↔
      (cfg.VERIFY_SHADER_BINDINGS = true ∧
        ∃ x ∈ p.m_RootSig.tuples, x.kind ≠ ResourceKind.Sampler ∧
          (x.variableType = SHADER_VARIABLE_TYPE.MUTABLE ∨
           x.variableType = SHADER_VARIABLE_TYPE.DYNAMIC) ∧ x.arraySize ≠ 0) := by
    simp only [List.append_nil, List.mem_append, verifyNullSRB_mem,
      GetTotalSrvCbvUavSlots_ne_zero]
    constructor
    · rintro (⟨hv, -, h | h⟩ | h)
      · obtain ⟨x, hx, hk, ht, h0⟩ := h
        exact ⟨hv, x, hx, hk, Or.inl ht, h0⟩
      · obtain ⟨x, hx, hk, ht, h0⟩ := h
        exact ⟨hv, x, hx, hk, Or.inr ht, h0⟩
      · exact absurd h (commitResolved_no_report p cfg heap this _ d Ctx CommitResources
          TransitionResources)
    · rintro ⟨hv, x, hx, hk, ht | ht, h0⟩
      · exact Or.inl ⟨hv, trivial, Or.inl ⟨x, hx, hk, ht, h0⟩⟩
      · exact Or.inl ⟨hv, trivial, Or.inr ⟨x, hx, hk, ht, h0⟩⟩
  refine ⟨p, _, hp, h1, hiff, ?_⟩
  intro hstatic hmem
  obtain ⟨-, x, hx, -, ht, -⟩ := hiff.mp hmem
  rw [hstatic x hx] at ht
  rcases ht with ht | ht <;> cases ht

/-- Witness for C18, amended: the debug build and the pipeline state at address
200 of `exHeap4`, which declares a mutable texture. -/
theorem CommitAndTransitionShaderResources_null_report_witness :
    ∃ p out, exHeap4.psos 200 = some p ∧
      PipelineStateD3D12Impl.CommitAndTransitionShaderResources debugBuild exHeap4 200 none
        { commands := [] } true false = some out ∧
      (Event.LogError Message.NoSRBForMutableOrDynamic ∈ out.events ↔
        (debugBuild.VERIFY_SHADER_BINDINGS = true ∧
          ∃ x ∈ p.m_RootSig.tuples, x.kind ≠ ResourceKind.Sampler ∧
            (x.variableType = SHADER_VARIABLE_TYPE.MUTABLE ∨
             x.variableType = SHADER_VARIABLE_TYPE.DYNAMIC) ∧ x.arraySize ≠ 0)) ∧
      ((∀ x ∈ p.m_RootSig.tuples, x.variableType = SHADER_VARIABLE_TYPE.STATIC) →
        Event.LogError Message.NoSRBForMutableOrDynamic ∉ out.events) :=
  CommitAndTransitionShaderResources_null_report debugBuild exHeap4 200 { commands := [] }
    true false ⟨_, _, rfl, rfl, rfl⟩

/-! ## Fixed-block allocator -/

theorem Free_Allocate (a : FixedBlockMemoryAllocator) (b : Block) :
    (a.Free b).Allocate = (b, a) := rfl

theorem Allocate_of_freeList (a : FixedBlockMemoryAllocator) (b : Block) (rest : List Block)
    (h : a.freeList = b :: rest) : a.Allocate = (b, { a with freeList := rest }) := by
  unfold FixedBlockMemoryAllocator.Allocate
  rw [h]

theorem AllocateN_length (n : Nat) :
    ∀ a : FixedBlockMemoryAllocator, (a.AllocateN n).1.length = n := by
  induction n with
  | zero => intro a; rfl
  | succ n ih =>
    intro a
    simp [FixedBlockMemoryAllocator.AllocateN, ih]

theorem AllocateN_succ_last (n : Nat) :
    ∀ a : FixedBlockMemoryAllocator,
      a.AllocateN (n + 1) =
        ((a.AllocateN n).1 ++ [(a.AllocateN n).2.Allocate.1], (a.AllocateN n).2.Allocate.2) := by
  induction n with
  | zero => intro a; rfl
  | succ n ih =>
    intro a
    rw [FixedBlockMemoryAllocator.AllocateN, ih a.Allocate.2]
    rfl

theorem FreeAll_cons (a : FixedBlockMemoryAllocator) (b : Block) (bs : List Block) :
    a.FreeAll (b :: bs) = (a.Free b).FreeAll bs := rfl

/-- Blocks freed one after the other come back in the opposite order, and the
allocator is then what it was before the frees. -/
theorem FreeAll_AllocateN (bs : List Block) :
    ∀ a : FixedBlockMemoryAllocator, (a.FreeAll bs).AllocateN bs.length = (bs.reverse, a) := by
  induction bs with
  | nil => intro a; rfl
  | cons b bs ih =>
    intro a
    rw [FreeAll_cons, List.length_cons, AllocateN_succ_last, ih (a.Free b), Free_Allocate]
    simp

/-- Allocating, freeing in reverse order and allocating again returns the same
blocks in the same order. -/
theorem AllocateN_FreeAll_reverse (a : FixedBlockMemoryAllocator) (n : Nat) :
    ((a.AllocateN n).2.FreeAll (a.AllocateN n).1.reverse).AllocateN n =
      ((a.AllocateN n).1, (a.AllocateN n).2) := by
  have h := FreeAll_AllocateN (a.AllocateN n).1.reverse (a.AllocateN n).2
  rw [List.length_reverse, AllocateN_length, List.reverse_reverse] at h
  exact h

theorem AllocatorInv_new (BlockSize NumBlocksInPage : Nat) :
    AllocatorInv (FixedBlockMemoryAllocator.new BlockSize NumBlocksInPage) [] := by
  simp [AllocatorInv, FixedBlockMemoryAllocator.new]

/-- `Allocate` never returns a live block, and keeps the invariant. -/
theorem AllocatorInv_Allocate (a : FixedBlockMemoryAllocator) (live : List Block)
    (h : AllocatorInv a live) :
    a.Allocate.1 ∉ live ∧ AllocatorInv a.Allocate.2 (a.Allocate.1 :: live) := by
  obtain ⟨hl, hf, hd, hcl, hcf⟩ := h
  unfold FixedBlockMemoryAllocator.Allocate
  cases hfl : a.freeList with
  | nil =>
    simp only
    split
    · rename_i hnew
      have hnot : ({ page := a.numPages, index := 0 } : Block) ∉ live := by
        intro hm
        have := hcl _ hm
        simp only [FixedBlockMemoryAllocator.Carved] at this
        omega
      refine ⟨hnot, List.nodup_cons.mpr ⟨hnot, hl⟩, by simp [hfl], by simp [hfl], ?_, by simp [hfl]⟩
      intro b hb
      rcases List.mem_cons.mp hb with rfl | hb
      · simp [FixedBlockMemoryAllocator.Carved]
      · have := hcl b hb
        simp only [FixedBlockMemoryAllocator.Carved] at this ⊢
        omega
    · rename_i hnew
      have hnot : ({ page := a.numPages - 1, index := a.carved } : Block) ∉ live := by
        intro hm
        have := hcl _ hm
        simp only [FixedBlockMemoryAllocator.Carved] at this
        omega
      refine ⟨hnot, List.nodup_cons.mpr ⟨hnot, hl⟩, by simp [hfl], by simp [hfl], ?_, by simp [hfl]⟩
      intro b hb
      rcases List.mem_cons.mp hb with rfl | hb
      · simp only [FixedBlockMemoryAllocator.Carved]
        omega
      · have := hcl b hb
        simp only [FixedBlockMemoryAllocator.Carved] at this ⊢
        omega
  | cons b rest =>
    simp only
    rw [hfl] at hf hd hcf
    have hb : b ∉ live := hd b (List.mem_cons_self _ _)
    obtain ⟨hbr, hr⟩ := List.nodup_cons.mp hf
    refine ⟨hb, List.nodup_cons.mpr ⟨hb, hl⟩, hr, ?_, ?_, ?_⟩
    · intro x hx hxl
      rcases List.mem_cons.mp hxl with rfl | hxl
      · exact hbr hx
      · exact hd x (List.mem_cons_of_mem _ hx) hxl
    · intro x hx
      rcases List.mem_cons.mp hx with rfl | hx
      · exact hcf _ (List.mem_cons_self _ _)
      · exact hcl x hx
    · intro x hx
      exact hcf x (List.mem_cons_of_mem _ hx)

/-- Freeing a live block keeps the invariant. -/
theorem AllocatorInv_Free (a : FixedBlockMemoryAllocator) (live : List Block) (b : Block)
    (h : AllocatorInv a live) (hb : b ∈ live) :
    AllocatorInv (a.Free b) (live.erase b) := by
  obtain ⟨hl, hf, hd, hcl, hcf⟩ := h
  have hbf : b ∉ a.freeList := fun hm => hd b hm hb
  refine ⟨hl.erase b, List.nodup_cons.mpr ⟨hbf, hf⟩, ?_, ?_, ?_⟩
  · intro x hx hxl
    rcases List.mem_cons.mp hx with rfl | hx
    · exact (List.Nodup.not_mem_erase hl) hxl
    · exact hd x hx (List.mem_of_mem_erase hxl)
  · intro x hx
    exact hcl x (List.mem_of_mem_erase hx)
  · intro x hx
    rcases List.mem_cons.mp hx with rfl | hx
    · exact hcl _ hb
    · exact hcf x hx

/-- Every run of client operations keeps the invariant. -/
theorem runOps_inv (ops : List AllocatorOp) :
    ∀ (a : FixedBlockMemoryAllocator) (live : List Block) (a' : FixedBlockMemoryAllocator)
      (live' : List Block),
      AllocatorInv a live → runOps a live ops = some (a', live') → AllocatorInv a' live' := by
  induction ops with
  | nil =>
    intro a live a' live' h hr
    simp only [runOps, Option.some.injEq, Prod.mk.injEq] at hr
    rw [← hr.1, ← hr.2]
    exact h
  | cons op ops ih =>
    intro a live a' live' h hr
    cases op with
    | Allocate =>
      simp only [runOps] at hr
      exact ih _ _ _ _ (AllocatorInv_Allocate a live h).2 hr
    | Free b =>
      simp only [runOps] at hr
      split at hr
      · rename_i hb
        exact ih _ _ _ _ (AllocatorInv_Free a live b h hb) hr
      · cases hr

set_option maxRecDepth 1000000 in
/-- The test `AllocDealloc` on the allocator: with 32-byte blocks and 16 blocks
per page it makes 240 `EXPECT_EQ` checks and all of them hold. -/
theorem AllocDealloc_passes :
    (AllocDealloc 32 16).expectations = List.replicate 240 true := by
  decide

/-- C15: reuse is LIFO.  A block that is freed is the block the next `Allocate`
returns, and the allocator is then what it was before the `Free`; with a
non-empty free list `Allocate` returns its head, the most recently freed block
not yet issued again, and carves nothing; after freeing the blocks `bs` in
order, the next `bs.length` calls of `Allocate` return them in the opposite
order.  With 16 blocks per page and 16 live blocks, freeing the blocks 0, 5
and 10 and allocating three times returns the blocks 10, 5 and 0. -/
theorem FixedBlockMemoryAllocator_LIFO (a : FixedBlockMemoryAllocator) (b : Block)
    (bs : List Block) :
    (a.Free b).Allocate = (b, a) ∧
    (∀ rest, a.freeList = b :: rest → a.Allocate = (b, { a with freeList := rest })) ∧
    (a.FreeAll bs).AllocateN bs.length = (bs.reverse, a) ∧
    ((FixedBlockMemoryAllocator.new 32 16).AllocateN 16).1 =
      (List.range 16).map (fun i => { page := 0, index := i }) ∧
    ((exAllocator16.FreeAll [{ page := 0, index := 0 }, { page := 0, index := 5 },
        { page := 0, index := 10 }]).AllocateN 3).1 =
      [{ page := 0, index := 10 }, { page := 0, index := 5 }, { page := 0, index := 0 }] := by
  refine ⟨rfl, fun rest h => Allocate_of_freeList a b rest h, FreeAll_AllocateN bs a, ?_, ?_⟩
  · decide
  · decide

/-- C16: for every state of the allocator and every number `n` of blocks:
allocating `n` blocks, freeing them in reverse order and allocating `n`
blocks again returns the same blocks in the same order, the i-th new block
being the i-th original one, and the allocator ends as it was after the first
`n` allocations.  On the first page (a new allocator with 16 blocks per page)
and on a second page opened after the first one is full, the blocks are the
first `n` blocks of that page, for every n below 16. -/
theorem FixedBlockMemoryAllocator_reverse_free_roundtrip (a : FixedBlockMemoryAllocator)
    (n : Nat) :
    ((a.AllocateN n).2.FreeAll (a.AllocateN n).1.reverse).AllocateN n =
      ((a.AllocateN n).1, (a.AllocateN n).2) ∧
    (∀ k, k < 16 →
      ((FixedBlockMemoryAllocator.new 32 16).AllocateN k).1 =
        (List.range k).map (fun i => { page := 0, index := i }) ∧
      (exAllocator16.AllocateN k).1 =
        (List.range k).map (fun i => { page := 1, index := i })) := by
  refine ⟨AllocateN_FreeAll_reverse a n, ?_⟩
  decide

/-- C17: allocate `n` blocks, free all of them in an arbitrary order `fs` and
allocate `n` more: the new blocks are the freed blocks (in the opposite order
of the frees), so the set of new addresses is the set of freed addresses, and
the allocator ends as it was after the first `n` allocations, nothing new
carved.  And in every sequence of `Allocate` and `Free` calls on a new
allocator in which only live blocks are freed, the live blocks are pairwise
distinct and the next `Allocate` returns a block that is not live. -/
theorem FixedBlockMemoryAllocator_no_duplicate_issue (a : FixedBlockMemoryAllocator)
    (n : Nat) (fs : List Block) (BlockSize NumBlocksInPage : Nat) (ops : List AllocatorOp)
    (a' : FixedBlockMemoryAllocator) (live : List Block)
    (hperm : fs.Perm (a.AllocateN n).1)
    (hrun : runOps (FixedBlockMemoryAllocator.new BlockSize NumBlocksInPage) [] ops =
      some (a', live)) :
    (((a.AllocateN n).2.FreeAll fs).AllocateN n = (fs.reverse, (a.AllocateN n).2) ∧
      (((a.AllocateN n).2.FreeAll fs).AllocateN n).1.Perm (a.AllocateN n).1) ∧
    (live.Nodup ∧ a'.Allocate.1 ∉ live) := by
  have hlen : fs.length = n := by rw [hperm.length_eq, AllocateN_length]
  have h1 := FreeAll_AllocateN fs (a.AllocateN n).2
  rw [hlen] at h1
  have hinv := runOps_inv ops _ _ _ _ (AllocatorInv_new BlockSize NumBlocksInPage) hrun
  refine ⟨⟨h1, ?_⟩, hinv.1, (AllocatorInv_Allocate a' live hinv).1⟩
  rw [h1]
  exact (List.reverse_perm fs).trans hperm

/-- Witness for C17: on the allocator of the test with page 0 full, three more
blocks are allocated and freed in the order 1, 2, 0; and a run of the
operations allocate, allocate, free, allocate, allocate on a new allocator. -/
theorem FixedBlockMemoryAllocator_no_duplicate_issue_witness :
    (((exAllocator16.AllocateN 3).2.FreeAll
        [{ page := 1, index := 1 }, { page := 1, index := 2 },
         { page := 1, index := 0 }]).AllocateN 3 =
      ([{ page := 1, index := 0 }, { page := 1, index := 2 }, { page := 1, index := 1 }],
        (exAllocator16.AllocateN 3).2) ∧
      (((exAllocator16.AllocateN 3).2.FreeAll
        [{ page := 1, index := 1 }, { page := 1, index := 2 },
         { page := 1, index := 0 }]).AllocateN 3).1.Perm (exAllocator16.AllocateN 3).1) ∧
    (([{ page := 1, index := 0 }, { page := 0, index := 0 }, { page := 0, index := 1 }] :
        List Block).Nodup ∧
      ({ BlockSize := 32, NumBlocksInPage := 2, freeList := [], numPages := 2, carved := 1 } :
        FixedBlockMemoryAllocator).Allocate.1 ∉
      ([{ page := 1, index := 0 }, { page := 0, index := 0 }, { page := 0, index := 1 }] :
        List Block)) :=
  FixedBlockMemoryAllocator_no_duplicate_issue exAllocator16 3
    [{ page := 1, index := 1 }, { page := 1, index := 2 }, { page := 1, index := 0 }]
    32 2
    [AllocatorOp.Allocate, AllocatorOp.Allocate, AllocatorOp.Free { page := 0, index := 0 },
     AllocatorOp.Allocate, AllocatorOp.Allocate]
    _ _ (by decide) rfl

/-! ## Facts about the primitive topology table -/

/-- Reading a list after a run of assignments of the same value. -/
theorem foldl_set_getElem? {α : Type} (v : α) (l : List Nat) (m : List α) (i : Nat) :
    (l.foldl (fun m t => m.set t v) m)[i]? =
      if i ∈ l then (m[i]?).map (fun _ => v) else m[i]? := by
  induction l generalizing m with
  | nil => simp
  | cons t l ih =>
    rw [List.foldl_cons, ih, List.getElem?_set]
    by_cases h1 : i ∈ l
    · by_cases h2 : t = i
      · subst h2
        by_cases h3 : t < m.length
        · simp [h1, h3]
        · simp [h1, h3, List.getElem?_eq_none (Nat.le_of_not_lt h3)]
      · simp [h1, h2]
    · by_cases h2 : t = i
      · subst h2
        by_cases h3 : t < m.length
        · simp [h1, h3]
        · simp [h1, h3, List.getElem?_eq_none (Nat.le_of_not_lt h3)]
      · have : ¬ i = t := fun h => h2 h.symm
        simp [h1, h2, this]

/-- Every entry of the table, for any numbering: the last assignment to an
index decides, and an index never assigned holds nothing. -/
theorem PrimitiveTopology_table_getElem? (e : PRIMITIVE_TOPOLOGY) (t : Nat) :
    (PrimitiveTopology_To_D3D12_PRIMITIVE_TOPOLOGY_TYPE e)[t]? =
      if t < e.NUM_TOPOLOGIES then
        if e.CONTROL_POINT_PATCHLIST_1 ≤ t then some (some D3D12_PRIMITIVE_TOPOLOGY_TYPE.PATCH)
        else if t = e.LINE_LIST then some (some D3D12_PRIMITIVE_TOPOLOGY_TYPE.LINE)
        else if t = e.POINT_LIST then some (some D3D12_PRIMITIVE_TOPOLOGY_TYPE.POINT)
        else if t = e.TRIANGLE_STRIP then some (some D3D12_PRIMITIVE_TOPOLOGY_TYPE.TRIANGLE)
        else if t = e.TRIANGLE_LIST then some (some D3D12_PRIMITIVE_TOPOLOGY_TYPE.TRIANGLE)
        else if t = e.UNDEFINED then some (some D3D12_PRIMITIVE_TOPOLOGY_TYPE.UNDEFINED)
        else some none
      else none := by
  unfold PrimitiveTopology_To_D3D12_PRIMITIVE_TOPOLOGY_TYPE
  simp only [foldl_set_getElem?, List.mem_range'_1, List.getElem?_set, List.length_set,
    List.length_replicate, List.getElem?_replicate]
  by_cases h : t < e.NUM_TOPOLOGIES
  · by_cases h1 : e.CONTROL_POINT_PATCHLIST_1 ≤ t
    · have h2 : t < e.CONTROL_POINT_PATCHLIST_1 +
          (e.NUM_TOPOLOGIES - e.CONTROL_POINT_PATCHLIST_1) := by omega
      simp only [h, h1, h2, and_self, if_true]
      split_ifs <;> first | rfl | (exfalso; omega)
    · simp only [h, h1, false_and, if_false, if_true]
      split_ifs <;> first | rfl | (exfalso; omega)
  · have h2 : ¬ (e.CONTROL_POINT_PATCHLIST_1 ≤ t ∧ t < e.CONTROL_POINT_PATCHLIST_1 +
          (e.NUM_TOPOLOGIES - e.CONTROL_POINT_PATCHLIST_1)) := by omega
    simp only [h, h2, if_false]
    split_ifs <;> first | rfl | (exfalso; omega)


/-- A run of assignments keeps the length. -/
theorem foldl_set_length {α : Type} (v : α) (l : List Nat) (m : List α) :
    (l.foldl (fun m t => m.set t v) m).length = m.length := by
  induction l generalizing m with
  | nil => rfl
  | cons t l ih => rw [List.foldl_cons, ih, List.length_set]

/-- The table has `NUM_TOPOLOGIES` entries. -/
theorem PrimitiveTopology_table_length (e : PRIMITIVE_TOPOLOGY) :
    (PrimitiveTopology_To_D3D12_PRIMITIVE_TOPOLOGY_TYPE e).length = e.NUM_TOPOLOGIES := by
  unfold PrimitiveTopology_To_D3D12_PRIMITIVE_TOPOLOGY_TYPE
  simp only [foldl_set_length, List.length_set, List.length_replicate]

/-- An entry below the first patch list that is none of the five enumerators
the constructor names is never assigned. -/
theorem PrimitiveTopology_table_unassigned (e : PRIMITIVE_TOPOLOGY) (t : Nat)
    (ht : t < e.NUM_TOPOLOGIES) (hlow : t < e.CONTROL_POINT_PATCHLIST_1)
    (hnot : t ∉ [e.UNDEFINED, e.TRIANGLE_LIST, e.TRIANGLE_STRIP, e.POINT_LIST, e.LINE_LIST]) :
    (PrimitiveTopology_To_D3D12_PRIMITIVE_TOPOLOGY_TYPE e)[t]? = some none := by
  simp only [List.mem_cons, List.mem_singleton, List.not_mem_nil, or_false, not_or] at hnot
  rw [PrimitiveTopology_table_getElem?]
  split_ifs <;> first | rfl | (exfalso; omega)

/-- C21: when the five enumerators that the constructor names are distinct,
are exactly the values below `PRIMITIVE_TOPOLOGY_1_CONTROL_POINT_PATCHLIST`,
and that value is at most `PRIMITIVE_TOPOLOGY_NUM_TOPOLOGIES`, the table has
`NUM_TOPOLOGIES` entries, `UNDEFINED` maps to `UNDEFINED`, `TRIANGLE_LIST` and
`TRIANGLE_STRIP` to `TRIANGLE`, `POINT_LIST` to `POINT`, `LINE_LIST` to `LINE`,
every `t` from the first patch list up to `NUM_TOPOLOGIES` to `PATCH`, and
every entry below `NUM_TOPOLOGIES` is assigned by the constructor. -/
theorem PrimitiveTopology_To_D3D12_PRIMITIVE_TOPOLOGY_TYPE_total (e : PRIMITIVE_TOPOLOGY)
    (hdistinct :
      [e.UNDEFINED, e.TRIANGLE_LIST, e.TRIANGLE_STRIP, e.POINT_LIST, e.LINE_LIST].Nodup)
    (hbelow : ∀ t ∈ [e.UNDEFINED, e.TRIANGLE_LIST, e.TRIANGLE_STRIP, e.POINT_LIST, e.LINE_LIST],
      t < e.CONTROL_POINT_PATCHLIST_1)
    (hcover : ∀ t, t < e.CONTROL_POINT_PATCHLIST_1 →
      t ∈ [e.UNDEFINED, e.TRIANGLE_LIST, e.TRIANGLE_STRIP, e.POINT_LIST, e.LINE_LIST])
    (hnum : e.CONTROL_POINT_PATCHLIST_1 ≤ e.NUM_TOPOLOGIES) :
    (PrimitiveTopology_To_D3D12_PRIMITIVE_TOPOLOGY_TYPE e).length = e.NUM_TOPOLOGIES ∧
    (PrimitiveTopology_To_D3D12_PRIMITIVE_TOPOLOGY_TYPE e)[e.UNDEFINED]? =
      some (some D3D12_PRIMITIVE_TOPOLOGY_TYPE.UNDEFINED) ∧
    (PrimitiveTopology_To_D3D12_PRIMITIVE_TOPOLOGY_TYPE e)[e.TRIANGLE_LIST]? =
      some (some D3D12_PRIMITIVE_TOPOLOGY_TYPE.TRIANGLE) ∧
    (PrimitiveTopology_To_D3D12_PRIMITIVE_TOPOLOGY_TYPE e)[e.TRIANGLE_STRIP]? =
      some (some D3D12_PRIMITIVE_TOPOLOGY_TYPE.TRIANGLE) ∧
    (PrimitiveTopology_To_D3D12_PRIMITIVE_TOPOLOGY_TYPE e)[e.POINT_LIST]? =
      some (some D3D12_PRIMITIVE_TOPOLOGY_TYPE.POINT) ∧
    (PrimitiveTopology_To_D3D12_PRIMITIVE_TOPOLOGY_TYPE e)[e.LINE_LIST]? =
      some (some D3D12_PRIMITIVE_TOPOLOGY_TYPE.LINE) ∧
    (∀ t, e.CONTROL_POINT_PATCHLIST_1 ≤ t → t < e.NUM_TOPOLOGIES →
      (PrimitiveTopology_To_D3D12_PRIMITIVE_TOPOLOGY_TYPE e)[t]? =
        some (some D3D12_PRIMITIVE_TOPOLOGY_TYPE.PATCH)) ∧
    (∀ t, t < e.NUM_TOPOLOGIES →
      ∃ v, (PrimitiveTopology_To_D3D12_PRIMITIVE_TOPOLOGY_TYPE e)[t]? = some (some v)) := by
  have hc := hcover
  simp only [List.nodup_cons, List.mem_cons, List.mem_singleton, List.not_mem_nil, or_false,
    not_or, List.nodup_nil, and_true, not_false_eq_true] at hdistinct
  simp only [List.mem_cons, List.mem_singleton, List.not_mem_nil, or_false, forall_eq_or_imp,
    forall_eq] at hbelow
  obtain ⟨⟨d1, d2, d3, d4⟩, ⟨d5, d6, d7⟩, ⟨d8, d9⟩, d10⟩ := hdistinct
  obtain ⟨b1, b2, b3, b4, b5⟩ := hbelow
  refine ⟨PrimitiveTopology_table_length e, ?_, ?_, ?_, ?_, ?_, ?_, ?_⟩
  · rw [PrimitiveTopology_table_getElem?]
    split_ifs <;> first | rfl | (exfalso; omega)
  · rw [PrimitiveTopology_table_getElem?]
    split_ifs <;> first | rfl | (exfalso; omega)
  · rw [PrimitiveTopology_table_getElem?]
    split_ifs <;> first | rfl | (exfalso; omega)
  · rw [PrimitiveTopology_table_getElem?]
    split_ifs <;> first | rfl | (exfalso; omega)
  · rw [PrimitiveTopology_table_getElem?]
    split_ifs <;> first | rfl | (exfalso; omega)
  · intro t h1 h2
    rw [PrimitiveTopology_table_getElem?]
    simp only [h2, h1, if_true]
  · intro t ht
    rw [PrimitiveTopology_table_getElem?]
    by_cases h1 : e.CONTROL_POINT_PATCHLIST_1 ≤ t
    · exact ⟨D3D12_PRIMITIVE_TOPOLOGY_TYPE.PATCH, by simp only [ht, h1, if_true]⟩
    · have hm := hc t (Nat.lt_of_not_le h1)
      simp only [List.mem_cons, List.mem_singleton, List.not_mem_nil, or_false] at hm
      simp only [ht, h1, if_true, if_false]
      split_ifs
      · exact ⟨_, rfl⟩
      · exact ⟨_, rfl⟩
      · exact ⟨_, rfl⟩
      · exact ⟨_, rfl⟩
      · exact ⟨_, rfl⟩
      · exfalso; omega

/-- Witness for C21: the numbering 0..4 for the named enumerators, the patch
lists from 5, and 37 topologies. -/
theorem PrimitiveTopology_To_D3D12_PRIMITIVE_TOPOLOGY_TYPE_total_witness :
    (PrimitiveTopology_To_D3D12_PRIMITIVE_TOPOLOGY_TYPE exDevice.Topology).length = 37 ∧
    (PrimitiveTopology_To_D3D12_PRIMITIVE_TOPOLOGY_TYPE exDevice.Topology)[0]? =
      some (some D3D12_PRIMITIVE_TOPOLOGY_TYPE.UNDEFINED) ∧
    (PrimitiveTopology_To_D3D12_PRIMITIVE_TOPOLOGY_TYPE exDevice.Topology)[1]? =
      some (some D3D12_PRIMITIVE_TOPOLOGY_TYPE.TRIANGLE) ∧
    (PrimitiveTopology_To_D3D12_PRIMITIVE_TOPOLOGY_TYPE exDevice.Topology)[2]? =
      some (some D3D12_PRIMITIVE_TOPOLOGY_TYPE.TRIANGLE) ∧
    (PrimitiveTopology_To_D3D12_PRIMITIVE_TOPOLOGY_TYPE exDevice.Topology)[3]? =
      some (some D3D12_PRIMITIVE_TOPOLOGY_TYPE.POINT) ∧
    (PrimitiveTopology_To_D3D12_PRIMITIVE_TOPOLOGY_TYPE exDevice.Topology)[4]? =
      some (some D3D12_PRIMITIVE_TOPOLOGY_TYPE.LINE) ∧
    (∀ t, 5 ≤ t → t < 37 →
      (PrimitiveTopology_To_D3D12_PRIMITIVE_TOPOLOGY_TYPE exDevice.Topology)[t]? =
        some (some D3D12_PRIMITIVE_TOPOLOGY_TYPE.PATCH)) ∧
    (∀ t, t < 37 →
      ∃ v, (PrimitiveTopology_To_D3D12_PRIMITIVE_TOPOLOGY_TYPE exDevice.Topology)[t]? =
        some (some v)) :=
  PrimitiveTopology_To_D3D12_PRIMITIVE_TOPOLOGY_TYPE_total exDevice.Topology
    (by decide) (by decide) (by decide) (by decide)


/-! ## Facts about Texture2D_OGL -/

/-- A loop whose every step is defined returns the list of the results. -/
theorem mapM_option_eq_some {α β : Type} (f : α → Option β) (g : α → β) (l : List α)
    (h : ∀ x ∈ l, f x = some (g x)) : l.mapM f = some (l.map g) := by
  induction l with
  | nil => rfl
  | cons a l ih =>
    rw [List.mapM_cons, h a (List.mem_cons_self a l),
      ih (fun x hx => h x (List.mem_cons_of_mem a hx))]
    rfl

/-- A shift by less than 32 is defined. -/
theorem Uint32_shr_of_lt (x n : Nat) (h : n < 32) : Uint32.shr x n = some (x >>> n) := by
  simp [Uint32.shr, h]

/-- The mip-level loop, when every shift count is below 32 and the array holds
an entry for every mip level. -/
theorem uploadMips_eq (self : Texture2D_OGL) (pSubResources : List TextureSubResData)
    (hmips : self.m_Desc.MipLevels ≤ 32) (hlen : self.m_Desc.MipLevels ≤ pSubResources.length) :
    self.uploadMips pSubResources =
      some ((List.range self.m_Desc.MipLevels).map (fun Mip =>
        GLCall.UpdateData Mip 0
          { MinX := 0, MaxX := max (self.m_Desc.Width >>> Mip) 1,
            MinY := 0, MaxY := max (self.m_Desc.Height >>> Mip) 1 }
          (pSubResources.getD Mip default))) := by
  unfold Texture2D_OGL.uploadMips
  apply mapM_option_eq_some
  intro Mip hMip
  have h1 : Mip < self.m_Desc.MipLevels := List.mem_range.mp hMip
  have h2 : Mip < 32 := by omega
  have h3 : Mip < pSubResources.length := by omega
  rw [Uint32_shr_of_lt _ _ h2, Uint32_shr_of_lt _ _ h2, List.getElem?_eq_getElem h3]
  simp [List.getD_eq_getElem?_getD, List.getElem?_eq_getElem h3]

/-- A list of `UpdateData` calls holds only `UpdateData` calls. -/
theorem filter_isUpdateData_map (l : List Nat) (f : Nat → Nat × Nat × Box × TextureSubResData) :
    (l.map (fun Mip => GLCall.UpdateData (f Mip).1 (f Mip).2.1 (f Mip).2.2.1 (f Mip).2.2.2)).filter
      GLCall.isUpdateData =
    l.map (fun Mip => GLCall.UpdateData (f Mip).1 (f Mip).2.1 (f Mip).2.2.1 (f Mip).2.2.2) := by
  rw [List.filter_eq_self]
  intro a ha
  obtain ⟨Mip, _, rfl⟩ := List.mem_map.mp ha
  rfl

/-- A mip dimension `max(x >> Mip, 1)` is at least 1 and does not grow with
`Mip`. -/
theorem mipSize_facts (x Mip : Nat) :
    1 ≤ max (x >>> Mip) 1 ∧ max (x >>> (Mip + 1)) 1 ≤ max (x >>> Mip) 1 := by
  rw [Nat.shiftRight_succ]
  omega


/-- The constructor on a non-staging, single-sample texture whose initial
data has one subresource per mip level, when the storage call reports no
error and the mip-level loop is defined. -/
theorem construct_with_uploads (cfg : GLBuildConfig) (self : Texture2D_OGL)
    (TexDesc : TextureDesc) (d : TextureData) (pSubResources : List TextureSubResData)
    (u : List GLCall)
    (hstaging : TexDesc.Usage ≠ USAGE.STAGING)
    (hsingle : ¬ self.m_Desc.SampleCount > 1)
    (hsubs : d.pSubResources = some pSubResources)
    (heq : self.m_Desc.MipLevels = d.NumSubresources)
    (hu : self.uploadMips pSubResources = some u) :
    self.construct cfg TexDesc (some d) false =
      some { calls :=
               [GLCall.BindTexture (-1) self.m_BindTarget self.m_GlTexture,
                GLCall.glTexStorage2D self.m_BindTarget self.m_Desc.MipLevels self.m_GLTexFormat
                  self.m_Desc.Width self.m_Desc.Height,
                GLCall.SetDefaultGLParameters] ++ u ++
               [GLCall.BindTexture (-1) self.m_BindTarget 0],
             exception := none } := by
  unfold Texture2D_OGL.construct
  simp only [hstaging, hsingle, hsubs, heq.symm, hu, if_false, if_true, Bool.false_eq_true]
  rfl

/-- The constructor on a non-staging, single-sample texture whose initial
data has a number of subresources other than the number of mip levels. -/
theorem construct_wrong_count (cfg : GLBuildConfig) (self : Texture2D_OGL)
    (TexDesc : TextureDesc) (d : TextureData) (pSubResources : List TextureSubResData)
    (hstaging : TexDesc.Usage ≠ USAGE.STAGING)
    (hsingle : ¬ self.m_Desc.SampleCount > 1)
    (hsubs : d.pSubResources = some pSubResources)
    (hne : self.m_Desc.MipLevels ≠ d.NumSubresources) :
    self.construct cfg TexDesc (some d) false =
      some { calls :=
               [GLCall.BindTexture (-1) self.m_BindTarget self.m_GlTexture,
                GLCall.glTexStorage2D self.m_BindTarget self.m_Desc.MipLevels self.m_GLTexFormat
                  self.m_Desc.Width self.m_Desc.Height,
                GLCall.SetDefaultGLParameters] ++
               (if cfg.DEBUG = true then
                 [GLCall.AssertionFailed GLMessage.IncorrectNumberOfSubresources] else []) ++
               [GLCall.BindTexture (-1) self.m_BindTarget 0],
             exception := none } := by
  unfold Texture2D_OGL.construct
  simp only [hstaging, hsingle, hsubs, hne, if_false, Bool.false_eq_true]
  rfl

/-- The constructor on a non-staging, single-sample texture when the GL
reports an error after `glTexStorage2D`: it throws right after the storage
call. -/
theorem construct_storage_error (cfg : GLBuildConfig) (self : Texture2D_OGL)
    (TexDesc : TextureDesc) (pInitData : Option TextureData)
    (hstaging : TexDesc.Usage ≠ USAGE.STAGING)
    (hsingle : ¬ self.m_Desc.SampleCount > 1) :
    self.construct cfg TexDesc pInitData true =
      some { calls :=
               [GLCall.BindTexture (-1) self.m_BindTarget self.m_GlTexture,
                GLCall.glTexStorage2D self.m_BindTarget self.m_Desc.MipLevels self.m_GLTexFormat
                  self.m_Desc.Width self.m_Desc.Height],
             exception := some GLException.StorageFailed } := by
  unfold Texture2D_OGL.construct
  simp only [hstaging, hsingle, if_false, if_true]
  rfl

/-- Counterexample for C22: the 8 x 4 texture is not staging, is
single-sample, and its initial data has a non-null array of four subresources
for its four mip levels; when the GL reports an error after `glTexStorage2D`
the constructor throws "Failed to allocate storage for the 2D texture" and no
mip level is uploaded. -/
theorem Texture2D_OGL_construct_storage_error_no_upload :
    exTexDesc.Usage ≠ USAGE.STAGING ∧
    ¬ exTexture.m_Desc.SampleCount > 1 ∧
    exInitData.pSubResources =
      some [exSubres 32, exSubres 16, exSubres 8, exSubres 4] ∧
    exInitData.NumSubresources = exTexture.m_Desc.MipLevels ∧
    exTexture.construct releaseGL exTexDesc (some exInitData) true =
      some { calls := [GLCall.BindTexture (-1) 3553 11, GLCall.glTexStorage2D 3553 4 32856 8 4],
             exception := some GLException.StorageFailed } ∧
    (exTexture.construct releaseGL exTexDesc (some exInitData) true).map
        (fun r => r.calls.filter GLCall.isUpdateData) = some [] := by
  refine ⟨by decide, by decide, rfl, rfl, rfl, rfl⟩

/-- C22, amended: for a non-staging, single-sample texture built with a non-null
subresource array, when the storage call reports no error: if
`NumSubresources = MipLevels` (with at most 32 mip levels, so that every
shift is defined, and an array that holds `NumSubresources` entries) the
constructor returns and its calls of `UpdateData` are exactly one per mip
level, the call number `Mip` being `UpdateData(Mip, 0, box, pSubResources[Mip])`
with the box `[0, max(Width >> Mip, 1)) x [0, max(Height >> Mip, 1))`; if
`NumSubresources` differs from `MipLevels` it returns having called
`UpdateData` not at all; each box dimension is at least 1 and does not grow
with `Mip`; with `USAGE_STAGING` the constructor makes no call at all; and
when the storage call reports an error the constructor throws right after
`glTexStorage2D`, having called `UpdateData` not at all. -/
theorem Texture2D_OGL_construct_uploads (cfg : GLBuildConfig) (self : Texture2D_OGL)
    (TexDesc : TextureDesc) (d : TextureData) (pSubResources : List TextureSubResData)
    (pInitData : Option TextureData)
    (hstaging : TexDesc.Usage ≠ USAGE.STAGING)
    (hsingle : ¬ self.m_Desc.SampleCount > 1)
    (hsubs : d.pSubResources = some pSubResources) :
    (self.m_Desc.MipLevels = d.NumSubresources →
      d.NumSubresources ≤ pSubResources.length → self.m_Desc.MipLevels ≤ 32 →
      ∃ r, self.construct cfg TexDesc (some d) false = some r ∧ r.exception = none ∧
        (r.calls.filter GLCall.isUpdateData).length = self.m_Desc.MipLevels ∧
        ∀ Mip, Mip < self.m_Desc.MipLevels →
          ∃ SubresData, pSubResources[Mip]? = some SubresData ∧
            (r.calls.filter GLCall.isUpdateData)[Mip]? =
              some (GLCall.UpdateData Mip 0
                { MinX := 0, MaxX := max (self.m_Desc.Width >>> Mip) 1,
                  MinY := 0, MaxY := max (self.m_Desc.Height >>> Mip) 1 } SubresData)) ∧
    (self.m_Desc.MipLevels ≠ d.NumSubresources →
      ∃ r, self.construct cfg TexDesc (some d) false = some r ∧ r.exception = none ∧
        r.calls.filter GLCall.isUpdateData = []) ∧
    (∀ Mip,
      1 ≤ max (self.m_Desc.Width >>> Mip) 1 ∧
      max (self.m_Desc.Width >>> (Mip + 1)) 1 ≤ max (self.m_Desc.Width >>> Mip) 1 ∧
      1 ≤ max (self.m_Desc.Height >>> Mip) 1 ∧
      max (self.m_Desc.Height >>> (Mip + 1)) 1 ≤ max (self.m_Desc.Height >>> Mip) 1) ∧
    (∀ StorageError,
      self.construct cfg { TexDesc with Usage := USAGE.STAGING } pInitData StorageError =
        some { calls := [], exception := none }) ∧
    (∃ r, self.construct cfg TexDesc (some d) true = some r ∧
      r.exception = some GLException.StorageFailed ∧
      r.calls.filter GLCall.isStorage =
        [GLCall.glTexStorage2D self.m_BindTarget self.m_Desc.MipLevels self.m_GLTexFormat
          self.m_Desc.Width self.m_Desc.Height] ∧
      r.calls.filter GLCall.isUpdateData = []) := by
  refine ⟨?_, ?_, ?_, ?_, ?_⟩
  · intro heq hlen hmips
    have hlen2 : self.m_Desc.MipLevels ≤ pSubResources.length := by omega
    have hu := uploadMips_eq self pSubResources hmips hlen2
    have hf := filter_isUpdateData_map (List.range self.m_Desc.MipLevels) (fun Mip =>
      (Mip, 0, ({ MinX := 0, MaxX := max (self.m_Desc.Width >>> Mip) 1,
                  MinY := 0, MaxY := max (self.m_Desc.Height >>> Mip) 1 } : Box),
        pSubResources.getD Mip default))
    simp only at hf
    refine ⟨_, construct_with_uploads cfg self TexDesc d pSubResources _ hstaging hsingle hsubs
      heq hu, rfl, ?_, ?_⟩
    · simp only [List.filter_append, hf]
      simp [GLCall.isUpdateData, List.filter]
    · intro Mip hMip
      have h3 : Mip < pSubResources.length := by omega
      refine ⟨pSubResources[Mip], List.getElem?_eq_getElem h3, ?_⟩
      simp only [List.filter_append, hf]
      simp [GLCall.isUpdateData, List.filter, List.getElem?_map, List.getElem?_range hMip,
        List.getD_eq_getElem?_getD, List.getElem?_eq_getElem h3]
  · intro hne
    refine ⟨_, construct_wrong_count cfg self TexDesc d pSubResources hstaging hsingle hsubs
      hne, rfl, ?_⟩
    cases hd : cfg.DEBUG <;> simp [GLCall.isUpdateData, List.filter, hd]
  · intro Mip
    exact ⟨(mipSize_facts _ Mip).1, (mipSize_facts _ Mip).2, (mipSize_facts _ Mip).1,
      (mipSize_facts _ Mip).2⟩
  · intro StorageError
    simp [Texture2D_OGL.construct]
  · exact ⟨_, construct_storage_error cfg self TexDesc (some d) hstaging hsingle, rfl, rfl, rfl⟩

/-- Witness for C22: the 8 x 4 texture with four mip levels and four
subresources, the same texture with one subresource declared, the staging
texture, and the texture whose storage call reports an error. -/
theorem Texture2D_OGL_construct_uploads_witness :
    (∃ r, exTexture.construct releaseGL exTexDesc (some exInitData) false = some r ∧
        r.exception = none ∧
        (r.calls.filter GLCall.isUpdateData).length = exTexture.m_Desc.MipLevels ∧
        ∀ Mip, Mip < exTexture.m_Desc.MipLevels →
          ∃ SubresData,
            [exSubres 32, exSubres 16, exSubres 8, exSubres 4][Mip]? = some SubresData ∧
            (r.calls.filter GLCall.isUpdateData)[Mip]? =
              some (GLCall.UpdateData Mip 0
                { MinX := 0, MaxX := max (exTexture.m_Desc.Width >>> Mip) 1,
                  MinY := 0, MaxY := max (exTexture.m_Desc.Height >>> Mip) 1 } SubresData)) ∧
    (∃ r, exTexture.construct debugGL exTexDesc
          (some { pSubResources := some [exSubres 32], NumSubresources := 1 }) false = some r ∧
        r.exception = none ∧ r.calls.filter GLCall.isUpdateData = []) ∧
    (∀ StorageError,
      exTexture.construct releaseGL { exTexDesc with Usage := USAGE.STAGING } (some exInitData)
        StorageError = some { calls := [], exception := none }) ∧
    (∃ r, exTexture.construct releaseGL exTexDesc (some exInitData) true = some r ∧
      r.exception = some GLException.StorageFailed ∧
      r.calls.filter GLCall.isStorage =
        [GLCall.glTexStorage2D exTexture.m_BindTarget exTexture.m_Desc.MipLevels
          exTexture.m_GLTexFormat exTexture.m_Desc.Width exTexture.m_Desc.Height] ∧
      r.calls.filter GLCall.isUpdateData = []) :=
  ⟨(Texture2D_OGL_construct_uploads releaseGL exTexture exTexDesc exInitData
      [exSubres 32, exSubres 16, exSubres 8, exSubres 4] (some exInitData)
      (by decide) (by decide) rfl).1 rfl (by decide) (by decide),
   (Texture2D_OGL_construct_uploads debugGL exTexture exTexDesc
      { pSubResources := some [exSubres 32], NumSubresources := 1 }
      [exSubres 32] none (by decide) (by decide) rfl).2.1 (by decide),
   (Texture2D_OGL_construct_uploads releaseGL exTexture exTexDesc exInitData
      [exSubres 32, exSubres 16, exSubres 8, exSubres 4] (some exInitData)
      (by decide) (by decide) rfl).2.2.2.1,
   (Texture2D_OGL_construct_uploads releaseGL exTexture exTexDesc exInitData
      [exSubres 32, exSubres 16, exSubres 8, exSubres 4] (some exInitData)
      (by decide) (by decide) rfl).2.2.2.2⟩

/-- `UpdateData` with a mip level of 32 or more on a block-compressed format
shifts by the mip level: the behaviour is not defined. -/
theorem UpdateData_compressed_undefined (cfg : GLBuildConfig) (fmt : GLFormatTables)
    (self : Texture2D_OGL) (MipLevel Slice : Nat) (DstBox : Box)
    (SubresData : TextureSubResData)
    (hc : (fmt.GetNativePixelTransferAttribs self.m_Desc.Format).IsCompressed = true)
    (hmip : 32 ≤ MipLevel) :
    self.UpdateData cfg fmt MipLevel Slice DstBox SubresData = none := by
  unfold Texture2D_OGL.UpdateData
  have h : ¬ MipLevel < 32 := by omega
  simp [hc, Uint32.shr, h]

end Diligent
